import Mathlib

/-!
# Intel x86 second-processor core (`Src/ix86.cpp`)

A shallow embedding of the address space, the interrupt transfer, the `Exec`
loop and some opcode bodies of the `ix86` class, followed by theorems about
them.

Conventions.
* Machine integers are `Nat`, reduced explicitly where the C++ type wraps
  (`unsigned char` mod 2^8, `unsigned short` mod 2^16, `unsigned int` mod 2^32).
* The two byte buffers are total maps from an index to a byte.  Every index the
  code forms is `address & (SIZE-1)`, which never exceeds `SIZE-1`.
* `readByte`/`writeByte`/`readWord`/`writeWord`/`readLong`/`writeLong`, as called
  in `Exec`, are the functions `readMemByte` ... `writeMemLong` defined in the file.
* `readMemByte` has a path that reaches the end of the function without a
  `return`; that path yields `none`, and so does whatever consumes its value.
* The operands of `|` in `readMemWord` and `readMemLong` are evaluated left to right.
* `Cycles` and `cyclecount` are unbounded integers.
* The call to `WriteTubeFromParasiteSide` is recorded in a log carried by the state.
* The loop of `Exec` is cut off after a given number of passes; what the model
  leaves out of the opcode `switch` is a parameter `rest`.
-/

namespace Beebem

/-! ## Hardware profile -/

/-- The CPU variants named in the constructor. -/
inductive CpuType where
  | I8088 | I8086 | I80188 | I80186 | I80286
  deriving DecidableEq, Repr

/-- The values of `fpu.type` that `Reset` distinguishes. -/
inductive FpuType where
  | NOFPU | I8087 | I80187 | I80287
  deriving DecidableEq, Repr

/-- The argument of the constructor. -/
inductive Architecture where
  | ACORN_186 | ACORN_286 | TORCH_GRADUATE
  deriving DecidableEq, Repr

/-- The fields the constructor fixes (all `unsigned int`, so below 2^32). -/
structure Profile where
  cpuType : CpuType
  fpuType : FpuType
  RAM_SIZE : Nat
  ROM_SIZE : Nat
  TUBE_ULA_ADDR : Nat
  ROM_ADDR : Nat
  deriving Repr

/-- The constructor `ix86::ix86(int Architecture)`: `NULL` is 0 and `-1` is
`0xFFFFFFFF` as an `unsigned int`. -/
def ix86 : Architecture → Profile
  | .ACORN_186 =>
    { cpuType := .I80186, fpuType := .NOFPU, RAM_SIZE := 0x00080000, ROM_SIZE := 0x00004000,
      TUBE_ULA_ADDR := 0xFFFE0000, ROM_ADDR := 0xFFFF0000 }
  | .ACORN_286 =>
    { cpuType := .I80286, fpuType := .NOFPU, RAM_SIZE := 0x00100000, ROM_SIZE := 0x00004000,
      TUBE_ULA_ADDR := 0, ROM_ADDR := 0xFFFFFFFF }
  | .TORCH_GRADUATE =>
    { cpuType := .I8088, fpuType := .NOFPU, RAM_SIZE := 0, ROM_SIZE := 0,
      TUBE_ULA_ADDR := 0, ROM_ADDR := 0xFFFFFFFF }

/-- The second `switch` of the constructor. -/
def EXTERNAL_ADDRESS_MASK : CpuType → Nat
  | .I8088 | .I8086 | .I80188 | .I80186 => 0x000FFFFF
  | .I80286 => 0x00FFFFFF

/-- The expression `SIZE-1` on an `unsigned int` (wraps when `SIZE` is 0). -/
def sizeMinusOne (size : Nat) : Nat := (size + 4294967295) % 4294967296

/-- The expression `address & EXTERNAL_ADDRESS_MASK`. -/
def masked (p : Profile) (address : Nat) : Nat :=
  address &&& EXTERNAL_ADDRESS_MASK p.cpuType

/-! ## State -/

/-- The register file `this->cpu`. Registers are 16-bit words held as `Nat`. -/
structure Cpu where
  ax : Nat
  bx : Nat
  cx : Nat
  dx : Nat
  si : Nat
  di : Nat
  bp : Nat
  sp : Nat
  cs : Nat
  ds : Nat
  es : Nat
  ss : Nat
  ip : Nat
  flags : Nat
  msw : Nat
  instruction_reg : Nat
  pc : Nat
  ldtr : Nat
  tr : Nat
  gdtr : Nat
  idtr : Nat
  halt : Bool
  wait : Bool
  intr : Bool
  nmi : Bool

/-- The mutable members of an `ix86` object, with the parameter `Cycles` of
`Exec`. `cpu.flag` and `cpu.flags` are read as one member. `temp` is the object that the name `temp` denotes inside `setZeroFlag`
(it is neither a parameter nor a local there; `Exec` has a local of its own
with that name and never stores to this one). `tubeWrites` logs the calls to
`WriteTubeFromParasiteSide`, latest first. -/
structure State where
  cpu : Cpu
  BOOTFLAG : Bool
  ramMemory : Nat → Fin 256
  romMemory : Nat → Fin 256
  pendingInterrupt : Int
  pendingInterruptBeforeTrace : Int
  interrupt_nr : Int
  cyclecount : Int
  Cycles : Int
  DEBUG : Bool
  temp : Nat
  tubeWrites : List (Nat × Nat)
  rep : Bool
  rep_pc : Nat

/-! ## Address space -/

/-- Body of `ix86::readMemByte`. The result is the returned byte (`none` on the
path without a `return`) and the state afterwards. -/
def readMemByte (p : Profile) (s : State) (address : Nat) : Option Nat × State :=
  if s.BOOTFLAG = true then
    let s1 := if masked p address ≥ masked p p.ROM_ADDR then { s with BOOTFLAG := false } else s
    (some (s.romMemory (address &&& sizeMinusOne p.ROM_SIZE)).val, s1)
  else
    if masked p address < masked p p.TUBE_ULA_ADDR then
      (some (s.ramMemory (address &&& sizeMinusOne p.RAM_SIZE)).val, s)
    else if masked p address ≥ masked p p.ROM_ADDR then
      (some (s.romMemory (address &&& sizeMinusOne p.ROM_SIZE)).val, s)
    else
      (none, s)

/-- Body of `ix86::readMemWord`; `address+1` is an `unsigned int` sum. -/
def readMemWord (p : Profile) (s : State) (address : Nat) : Option Nat × State :=
  let r0 := readMemByte p s address
  let r1 := readMemByte p r0.2 ((address + 1) % 4294967296)
  match r0.1, r1.1 with
  | some b0, some b1 => (some ((b0 ||| (b1 <<< 8)) % 65536), r1.2)
  | _, _ => (none, r1.2)

/-- Body of `ix86::readMemLong`. -/
def readMemLong (p : Profile) (s : State) (address : Nat) : Option Nat × State :=
  let r0 := readMemByte p s address
  let r1 := readMemByte p r0.2 ((address + 1) % 4294967296)
  let r2 := readMemByte p r1.2 ((address + 2) % 4294967296)
  let r3 := readMemByte p r2.2 ((address + 3) % 4294967296)
  match r0.1, r1.1, r2.1, r3.1 with
  | some b0, some b1, some b2, some b3 =>
    (some ((b0 ||| (b1 <<< 8) ||| (b2 <<< 16) ||| (b3 <<< 24)) % 4294967296), r3.2)
  | _, _, _, _ => (none, r3.2)

/-- Body of `ix86::writeMemByte`; `value` is an `unsigned char`. -/
def writeMemByte (p : Profile) (s : State) (address : Nat) (value : Nat) : State :=
  if s.BOOTFLAG = true then
    if masked p address ≥ masked p p.ROM_ADDR then { s with BOOTFLAG := false } else s
  else
    if masked p address ≤ masked p p.TUBE_ULA_ADDR then
      { s with ramMemory := fun i =>
          if i = address &&& sizeMinusOne p.RAM_SIZE then Fin.ofNat (value % 256)
          else s.ramMemory i }
    else if masked p address ≥ masked p p.ROM_ADDR then
      s
    else
      { s with tubeWrites := (masked p address, value % 256) :: s.tubeWrites }

/-- Body of `ix86::writeMemWord`; `value` is an `unsigned short`. The byte
`(value & 0xFF00)>>8` goes to `address`, the byte `value & 0x00FF` to `address+1`. -/
def writeMemWord (p : Profile) (s : State) (address : Nat) (value : Nat) : State :=
  let v := value % 65536
  let s1 := writeMemByte p s address ((v &&& 0xFF00) >>> 8)
  writeMemByte p s1 ((address + 1) % 4294967296) (v &&& 0x00FF)

/-- Body of `ix86::writeMemLong`; `value` is an `unsigned int`. -/
def writeMemLong (p : Profile) (s : State) (address : Nat) (value : Nat) : State :=
  let v := value % 4294967296
  let s1 := writeMemByte p s address (v &&& 0x000000FF)
  let s2 := writeMemByte p s1 ((address + 1) % 4294967296) ((v &&& 0x0000FF00) >>> 8)
  let s3 := writeMemByte p s2 ((address + 2) % 4294967296) ((v &&& 0x00FF0000) >>> 16)
  writeMemByte p s3 ((address + 3) % 4294967296) ((v &&& 0xFF000000) >>> 24)

/-! ## Declarations of `ix86.h` used by the code

`ix86.h` is not part of the source tree. The code reads `cpu.flags` both as a
16-bit word and through one-bit members (`cpu.flags.cf`, `cpu.flags.of`, ...),
tests `cpu.msw.pe`, and indexes a table `parity`. Their layout and contents
are parameters of the model. -/

/-- Bit positions of the one-bit members of `cpu.flags` (`if_` and `of_` stand
for the members `if` and `of`), the position of `pe` in `cpu.msw`, the table
`parity`, and whether the member `cpu.pc`, which the opcode fetch increments,
is the same object as `cpu.ip`. -/
structure Header where
  cf : Nat
  pf : Nat
  af : Nat
  zf : Nat
  sf : Nat
  tf : Nat
  if_ : Nat
  df : Nat
  of_ : Nat
  pe : Nat
  parity : Nat → Bool
  pcIsIp : Bool

/-- Number of set bits among the low eight bits of a value. -/
def lowByteOnes (v : Nat) : Nat :=
  ((List.range 8).filter fun i => v.testBit i).length

/-- The 8086 FLAGS layout, `pe` as bit 0 of the machine status word, the
even-parity table, and `cpu.pc` naming the instruction pointer. -/
def header8086 : Header :=
  { cf := 0, pf := 2, af := 4, zf := 6, sf := 7, tf := 8, if_ := 9, df := 10, of_ := 11,
    pe := 0, parity := fun v => lowByteOnes v % 2 == 0, pcIsIp := true }

/-- Read of a one-bit member of a word. -/
def getFlag (word bit : Nat) : Bool := word.testBit bit

/-- Assignment to a one-bit member of a word; the other bits keep their value. -/
def setFlag (word bit : Nat) (b : Bool) : Nat :=
  if word.testBit bit = b then word else word ^^^ 2 ^ bit

/-- Assignment `this->cpu.flags.<member> = b`. -/
def State.assignFlag (s : State) (bit : Nat) (b : Bool) : State :=
  { s with cpu := { s.cpu with flags := setFlag s.cpu.flags bit b } }

/-! ## Address formation -/

/-- The segment selectors for which `getAddress` has a `case`. -/
inductive SegReg where
  | CS | DS | ES | SS
  deriving DecidableEq, Repr

/-- The offset selectors for which `getAddress` has a `case`. -/
inductive OffReg where
  | IP | SI | DI | BP | SP
  deriving DecidableEq, Repr

/-- Body of `ix86::getAddress` on the selectors it names (the two `default`
branches only log). `Segment` and `Offset` are `unsigned short` locals. -/
def getAddress (s : State) (Segment_reg : SegReg) (Offset_reg : OffReg) : Nat :=
  let Segment := (match Segment_reg with
    | .CS => s.cpu.cs
    | .DS => s.cpu.ds
    | .ES => s.cpu.es
    | .SS => s.cpu.ss) % 65536
  let Offset := (match Offset_reg with
    | .IP => s.cpu.ip
    | .SI => s.cpu.si
    | .DI => s.cpu.di
    | .BP => s.cpu.bp
    | .SP => s.cpu.sp) % 65536
  (Segment <<< 4) + Offset

/-! ## Interrupt arbitration and transfer (head of the `Exec` loop) -/

/-- The two `if`s on `cpu.intr` and `cpu.nmi` at the top of an iteration. -/
def arbitrate (s : State) : State :=
  let s1 := if s.cpu.intr = true then { s with pendingInterrupt := s.interrupt_nr } else s
  if s1.cpu.nmi = true then { s1 with pendingInterrupt := 2 } else s1

/-- The statement `this->cpu.sp -= 2` on a 16-bit register. -/
def State.spMinus2 (s : State) : State :=
  { s with cpu := { s.cpu with sp := (s.cpu.sp + 65534) % 65536 } }

/-- The statement `this->cpu.sp += 2` on a 16-bit register. -/
def State.spPlus2 (s : State) : State :=
  { s with cpu := { s.cpu with sp := (s.cpu.sp + 2) % 65536 } }

/-- The assignment `this->cpu.ip = v`. -/
def State.setIp (s : State) (v : Nat) : State := { s with cpu := { s.cpu with ip := v } }

/-- The assignment `this->cpu.cs = v`. -/
def State.setCs (s : State) (v : Nat) : State := { s with cpu := { s.cpu with cs := v } }

/-- The assignment `this->cpu.flags = v`. -/
def State.setFlags (s : State) (v : Nat) : State := { s with cpu := { s.cpu with flags := v } }

/-- The three pushes of the transfer: flags, then `cs`, then `ip`. -/
def pushFrame (p : Profile) (s : State) : State :=
  let s1 := s.spMinus2
  let s2 := writeMemWord p s1 (getAddress s1 .SS .SP) s1.cpu.flags
  let s3 := s2.spMinus2
  let s4 := writeMemWord p s3 (getAddress s3 .SS .SP) s3.cpu.cs
  let s5 := s4.spMinus2
  writeMemWord p s5 (getAddress s5 .SS .SP) s5.cpu.ip

/-- The `int` expression `pendingInterrupt * 4 + k` passed as an `unsigned int`. -/
def vectorAddress (pendingInterrupt : Int) (k : Int) : Nat :=
  ((pendingInterrupt * 4 + k) % 4294967296).toNat

/-- The block `if (this->pendingInterrupt != -1) { ... }`. The result is `none`
when a vector-table read returns no value. -/
def interruptTransfer (H : Header) (p : Profile) (s : State) : Option State :=
  if s.pendingInterrupt ≠ -1 then
    let s1 := pushFrame p s
    let s2 := s1.assignFlag H.if_ false
    let s3 := s2.assignFlag H.tf false
    let r1 := readMemWord p s3 (vectorAddress s3.pendingInterrupt 0)
    match r1.1 with
    | none => none
    | some ip =>
      let s4 := r1.2.setIp ip
      let r2 := readMemWord p s4 (vectorAddress s4.pendingInterrupt 2)
      match r2.1 with
      | none => none
      | some cs =>
        some { r2.2.setCs cs with pendingInterrupt := -1 }
  else
    some s

/-! ## Flag helpers -/

/-- Body of `ix86::setZeroFlag`: the test is on `temp`, not on `value`. -/
def setZeroFlag (H : Header) (s : State) (_value : Nat) : State :=
  s.assignFlag H.zf (if s.temp ≠ 0 then false else true)

/-- Body of `ix86::setSignFlag`. -/
def setSignFlag (H : Header) (s : State) (w : Bool) (value : Nat) : State :=
  if w = true then s.assignFlag H.sf (if value &&& 0x8000 ≠ 0 then true else false)
  else s.assignFlag H.sf (if value &&& 0x80 ≠ 0 then true else false)

/-- Body of `ix86::setParityFlag`. -/
def setParityFlag (H : Header) (s : State) (w : Bool) (value : Nat) : State :=
  if w = true then
    s.assignFlag H.pf (xor (H.parity ((value &&& 0xFF00) >>> 8)) (H.parity (value &&& 0x00FF)))
  else s.assignFlag H.pf (H.parity (value &&& 0x00FF))

/-- Body of `ix86::setOverflowFlag`. -/
def setOverflowFlag (H : Header) (s : State) (w : Bool) (result value1 value2 : Nat) : State :=
  if w = true then
    s.assignFlag H.of_
      (if ((result ^^^ value1) &&& (result ^^^ value2)) &&& 0x8000 ≠ 0 then true else false)
  else
    s.assignFlag H.of_
      (if ((result ^^^ value1) &&& (result ^^^ value2)) &&& 0x0080 ≠ 0 then true else false)

/-- Body of `ix86::setAdjustFlag`. -/
def setAdjustFlag (H : Header) (s : State) (result value1 value2 : Nat) : State :=
  s.assignFlag H.af (if (result ^^^ value1 ^^^ value2) &&& 0x10 ≠ 0 then true else false)

/-- Body of `ix86::setCarryFlag`: both branches assign `cpu.flags.of`. -/
def setCarryFlag (H : Header) (s : State) (w : Bool) (value : Nat) : State :=
  if w = true then s.assignFlag H.of_ (if value &&& 0x10000 ≠ 0 then true else false)
  else s.assignFlag H.of_ (if value &&& 0x100 ≠ 0 then true else false)

/-! ## Opcode bodies -/

/-- Modelled from the spec: the union behind `cpu.ax` is declared in `ix86.h`,
which is not in the tree; the halves alias the 16-bit cell. This is the byte
view `cpu.ax.l`, the low byte. -/
def Cpu.al (c : Cpu) : Nat := c.ax % 256

/-- Modelled from the spec: assignment `cpu.ax.l = v` through the union
declared in `ix86.h`; the high byte of `ax` keeps its value. -/
def Cpu.setAl (c : Cpu) (v : Nat) : Cpu :=
  { c with ax := (c.ax / 256 % 256) * 256 + v % 256 }

/-- The statement `this->cpu.ip++` on a 16-bit register. -/
def State.ipPlus1 (s : State) : State :=
  { s with cpu := { s.cpu with ip := (s.cpu.ip + 1) % 65536 } }

/-- Flag updates shared by the bodies of `case 0x04` and `case 0x2C`
(byte width), in the order of the source. -/
def byteArithFlags (H : Header) (s : State) (result temp disp : Nat) : State :=
  let s1 := setOverflowFlag H s false result temp disp
  let s2 := setSignFlag H s1 false result
  let s3 := setZeroFlag H s2 result
  let s4 := setAdjustFlag H s3 result temp disp
  let s5 := setCarryFlag H s4 false result
  setParityFlag H s5 false result

/-- Body of `case 0x04` (ADD AL, imm) of `Exec`. `result` is a 32-bit word. -/
def case_0x04 (H : Header) (p : Profile) (s : State) : Option State :=
  let temp := s.cpu.al
  let r := readMemByte p s (getAddress s .CS .IP)
  match r.1 with
  | none => none
  | some disp =>
    let s1 := r.2.ipPlus1
    let result := (s1.cpu.al + disp) % 4294967296
    let s2 := byteArithFlags H s1 result temp disp
    some { s2 with cpu := s2.cpu.setAl result, Cycles := s2.Cycles + 4 }

/-- Body of `case 0x2C` (SUB AL, imm) of `Exec`. `result` is a 32-bit word. -/
def case_0x2C (H : Header) (p : Profile) (s : State) : Option State :=
  let temp := s.cpu.al
  let r := readMemByte p s (getAddress s .CS .IP)
  match r.1 with
  | none => none
  | some disp =>
    let s1 := r.2.ipPlus1
    let result := (s1.cpu.al + 4294967296 - disp) % 4294967296
    let s2 := byteArithFlags H s1 result temp disp
    some { s2 with cpu := s2.cpu.setAl result, Cycles := s2.Cycles + 4 }

/-- The cycle cost added by `case 0xCF`; the `switch` has no case for `I8088`. -/
def iretCycles (H : Header) (p : Profile) (s : State) : Int :=
  match p.cpuType with
  | .I8086 => 22
  | .I80188 | .I80186 => 28
  | .I80286 => if getFlag s.cpu.msw H.pe = true then 31 else 17
  | .I8088 => 0

/-- Body of `case 0xCF` (IRET) of `Exec`. -/
def case_0xCF (H : Header) (p : Profile) (s : State) : Option State :=
  let r1 := readMemWord p s (getAddress s .SS .SP)
  match r1.1 with
  | none => none
  | some ip =>
    let s1 := r1.2.setIp ip
    let s2 := s1.spPlus2
    let r2 := readMemWord p s2 (getAddress s2 .SS .SP)
    match r2.1 with
    | none => none
    | some cs =>
      let s3 := r2.2.setCs cs
      let s4 := s3.spPlus2
      let r3 := readMemWord p s4 (getAddress s4 .SS .SP)
      match r3.1 with
      | none => none
      | some fl =>
        let s5 := r3.2.setFlags fl
        let s6 := s5.spPlus2
        some { s6 with Cycles := s6.Cycles + iretCycles H p s6 }

/-! ## Reset -/

/-- Body of `ix86::Reset`. `firmware` is the content of the ROM buffer after the
`fread`, or `none` when the file cannot be opened. -/
def Reset (p : Profile) (firmware : Option (Nat → Fin 256)) (s : State) : State :=
  let rom := match firmware with
    | some f => f
    | none => s.romMemory
  let ram : Nat → Fin 256 := fun i => if i < p.RAM_SIZE then 0 else s.ramMemory i
  let c1 : Cpu := match p.cpuType with
    | .I80286 =>
      { s.cpu with ax := 0, bx := 0, cx := 0, dx := 0, si := 0, di := 0, bp := 0, sp := 0,
                   ds := 0, es := 0, ss := 0, msw := 0xFFF0, ip := 0xFFF0, cs := 0xF000,
                   flags := 0x0002 }
    | _ =>
      { s.cpu with ax := 0, bx := 0, cx := 0, dx := 0, si := 0, di := 0, bp := 0, sp := 0,
                   ds := 0, es := 0, ss := 0, ip := 0x0000, cs := 0xFFFF, flags := 0x0002 }
  let c2 : Cpu := match p.fpuType with
    | .I8087 | .I80187 | .I80287 => { c1 with msw := 0x0004 }
    | .NOFPU => { c1 with msw := 0x0000 }
  { s with cpu := { c2 with halt := false, wait := false },
           romMemory := rom, ramMemory := ram, BOOTFLAG := true,
           cyclecount := 1000000, pendingInterrupt := -1, DEBUG := false }

/-! ## Uses of the address space by an `Exec` iteration

`Exec` never names `BOOTFLAG`, `ramMemory` or `romMemory`: an iteration acts on
them only through the six accessors. Whatever else it does is an update of
members outside the address space. -/

/-- One step of an iteration as seen from the address space. -/
inductive Access where
  | readByte (address : Nat)
  | readWord (address : Nat)
  | readLong (address : Nat)
  | writeByte (address value : Nat)
  | writeWord (address value : Nat)
  | writeLong (address value : Nat)
  | other (f : State → State)

/-- Effect of one step; `other f` leaves the address space as it is. -/
def Access.run (p : Profile) (s : State) : Access → State
  | .readByte a => (readMemByte p s a).2
  | .readWord a => (readMemWord p s a).2
  | .readLong a => (readMemLong p s a).2
  | .writeByte a v => writeMemByte p s a v
  | .writeWord a v => writeMemWord p s a v
  | .writeLong a v => writeMemLong p s a v
  | .other f =>
    { f s with BOOTFLAG := s.BOOTFLAG, ramMemory := s.ramMemory, romMemory := s.romMemory,
               tubeWrites := s.tubeWrites }

/-- Effect of a finite sequence of steps. -/
def runAccesses (p : Profile) (s : State) (l : List Access) : State :=
  l.foldl (Access.run p) s

/-! ## Register views -/

/-- Modelled from the spec: the high-byte view `cpu.ax.h` of the union declared
in `ix86.h` (not in the tree); it reads bits 8..15 of the 16-bit cell. -/
def Cpu.ah (c : Cpu) : Nat := c.ax / 256 % 256

/-- Modelled from the spec: assignment `cpu.ax.h = v` through the union
declared in `ix86.h`; the low byte of `ax` keeps its value. -/
def Cpu.setAh (c : Cpu) (v : Nat) : Cpu :=
  { c with ax := (v % 256) * 256 + c.ax % 256 }

/-- Modelled from the spec: the word view `cpu.ax.x` of the union declared in
`ix86.h`, the whole 16-bit cell. -/
def Cpu.axx (c : Cpu) : Nat := c.ax % 65536

/-- Modelled from the spec: assignment `cpu.ax.x = v` through the union
declared in `ix86.h`; it replaces the whole 16-bit cell. -/
def Cpu.setAx (c : Cpu) (v : Nat) : Cpu :=
  { c with ax := v % 65536 }

/-- Body of `ix86::getRegisterValue`. The members `cpu.cl.l`, `cpu.dl.l`,
`cpu.bl.l`, `cpu.ch.h`, `cpu.dh.h`, `cpu.bh.h` are read as the low and high
bytes of `cx`, `dx`, `bx`. No `return` is reached for `reg` above 7. -/
def getRegisterValue (s : State) (w : Bool) (reg : Nat) : Option Nat :=
  if w = false then
    if reg = 0x00 then some s.cpu.al
    else if reg = 0x01 then some (s.cpu.cx % 256)
    else if reg = 0x02 then some (s.cpu.dx % 256)
    else if reg = 0x03 then some (s.cpu.bx % 256)
    else if reg = 0x04 then some s.cpu.ah
    else if reg = 0x05 then some (s.cpu.cx / 256 % 256)
    else if reg = 0x06 then some (s.cpu.dx / 256 % 256)
    else if reg = 0x07 then some (s.cpu.bx / 256 % 256)
    else none
  else
    if reg = 0x00 then some s.cpu.axx
    else if reg = 0x01 then some (s.cpu.cx % 65536)
    else if reg = 0x02 then some (s.cpu.dx % 65536)
    else if reg = 0x03 then some (s.cpu.bx % 65536)
    else if reg = 0x04 then some (s.cpu.sp % 65536)
    else if reg = 0x05 then some (s.cpu.bp % 65536)
    else if reg = 0x06 then some (s.cpu.si % 65536)
    else if reg = 0x07 then some (s.cpu.di % 65536)
    else none

/-! ## More opcode bodies

A case whose supported branch calls a function that the file does not define
(`setOperandValue`, `setRegisterValue`, `writeIOByte`) or calls
`getOperandValue` with three arguments takes that branch as a parameter. -/

/-- The local `s` of `Exec`: bit 1 of the fetched opcode. -/
def sBit (s : State) : Bool := if s.cpu.instruction_reg &&& 0x02 ≠ 0 then true else false

/-- The member `w`: bit 0 of the fetched opcode. -/
def wBit (s : State) : Bool := if s.cpu.instruction_reg &&& 0x01 ≠ 0 then true else false

/-- The statement `this->cpu.sp += k` on a 16-bit register. -/
def State.spAdd (s : State) (k : Nat) : State :=
  { s with cpu := { s.cpu with sp := (s.cpu.sp + k) % 65536 } }

/-- The statements `this->cpu.sp -= 2; this->writeWord(this->getAddress(SS, SP), v)`. -/
def pushWord (p : Profile) (s : State) (v : Nat) : State :=
  let s1 := s.spMinus2
  writeMemWord p s1 (getAddress s1 .SS .SP) v

/-- Body of `case 0x0F` (opcode extension) of `Exec`; `body286` is the block
run when `cpu.type == I80286`. -/
def case_0x0F (body286 : State → Option State) (p : Profile) (s : State) : Option State :=
  if p.cpuType = .I80286 then body286 s
  else some { s with pendingInterrupt := 0x06 }

/-- Body of `case 0x60` (PUSHA) of `Exec`. -/
def case_0x60 (p : Profile) (s : State) : Option State :=
  match p.cpuType with
  | .I80188 | .I80186 | .I80286 =>
    let temp := s.cpu.sp % 65536
    let s1 := pushWord p s s.cpu.axx
    let s2 := pushWord p s1 (s1.cpu.cx % 65536)
    let s3 := pushWord p s2 (s2.cpu.dx % 65536)
    let s4 := pushWord p s3 (s3.cpu.bx % 65536)
    let s5 := pushWord p s4 temp
    let s6 := pushWord p s5 s5.cpu.bp
    let s7 := pushWord p s6 s6.cpu.si
    let s8 := pushWord p s7 s7.cpu.di
    some { s8 with Cycles := s8.Cycles + 18 }
  | _ => some { s with pendingInterrupt := 0x06 }

/-- The word that `readWord(getAddress(SS, SP))` returns, with the state after it. -/
def readStackWord (p : Profile) (s : State) : Option (Nat × State) :=
  let r := readMemWord p s (getAddress s .SS .SP)
  match r.1 with
  | none => none
  | some v => some (v, r.2)

/-- Body of `case 0x61` (POPA) of `Exec`; `sp` advances by 4 after `bp`. -/
def case_0x61 (p : Profile) (s : State) : Option State :=
  match p.cpuType with
  | .I80188 | .I80186 | .I80286 => do
    let (di, s1) ← readStackWord p s
    let s1 := State.spAdd { s1 with cpu := { s1.cpu with di := di } } 2
    let (si, s2) ← readStackWord p s1
    let s2 := State.spAdd { s2 with cpu := { s2.cpu with si := si } } 2
    let (bp, s3) ← readStackWord p s2
    let s3 := State.spAdd { s3 with cpu := { s3.cpu with bp := bp } } 4
    let (bx, s4) ← readStackWord p s3
    let s4 := State.spAdd { s4 with cpu := { s4.cpu with bx := bx } } 2
    let (dx, s5) ← readStackWord p s4
    let s5 := State.spAdd { s5 with cpu := { s5.cpu with dx := dx } } 2
    let (cx, s6) ← readStackWord p s5
    let s6 := State.spAdd { s6 with cpu := { s6.cpu with cx := cx } } 2
    let (ax, s7) ← readStackWord p s6
    let s7 := State.spAdd { s7 with cpu := s7.cpu.setAx ax } 2
    some { s7 with Cycles := s7.Cycles + 24 }
  | _ => some { s with pendingInterrupt := 0x06 }

/-- Body of `case 0x62` (BOUND) of `Exec`; `supported` is the branch for
`I80188`, `I80186`, `I80286`. -/
def case_0x62 (supported : State → Option State) (p : Profile) (s : State) : Option State :=
  match p.cpuType with
  | .I80188 | .I80186 | .I80286 => supported s
  | _ => some { s with pendingInterrupt := 0x06 }

/-- Body of `case 0x68`, `case 0x6A` (PUSH imm) of `Exec`. -/
def case_0x68_0x6A (p : Profile) (s : State) : Option State :=
  match p.cpuType with
  | .I80188 | .I80186 | .I80286 =>
    if sBit s = true then
      let s1 : State := { s with cpu := { s.cpu with sp := (s.cpu.sp + 65535) % 65536 } }
      let r := readMemByte p s1 (getAddress s1 .CS .IP)
      match r.1 with
      | none => none
      | some b =>
        let s2 := (writeMemByte p r.2 (getAddress s1 .SS .SP) b).ipPlus1
        some { s2 with Cycles := s2.Cycles + 2 }
    else
      let s1 := s.spMinus2
      let r := readMemWord p s1 (getAddress s1 .CS .IP)
      match r.1 with
      | none => none
      | some v =>
        let s2 := writeMemWord p r.2 (getAddress s1 .SS .SP) v
        let s3 : State := { s2 with cpu := { s2.cpu with ip := (s2.cpu.ip + 2) % 65536 } }
        some { s3 with Cycles := s3.Cycles + 2 }
  | _ => some { s with pendingInterrupt := 0x06 }

/-- Body of `case 0x69`, `case 0x6B` (IMUL) of `Exec`; `supported` is the
branch for `I80188`, `I80186`, `I80286`. -/
def case_0x69_0x6B (supported : State → Option State) (p : Profile) (s : State) :
    Option State :=
  match p.cpuType with
  | .I80188 | .I80186 | .I80286 => supported s
  | _ => some { s with pendingInterrupt := 0x06 }

/-- Body of `case 0x6C`, `case 0x6D` (INS) of `Exec`; `supported` is the
branch for `I80188`, `I80186`, `I80286`. -/
def case_0x6C_0x6D (supported : State → Option State) (p : Profile) (s : State) :
    Option State :=
  match p.cpuType with
  | .I80188 | .I80186 | .I80286 => supported s
  | _ => some { s with pendingInterrupt := 0x06 }

/-- Body of `case 0x6E`, `case 0x6F` (OUTS) of `Exec`; `supported` is the
branch for `I80188`, `I80186`, `I80286`. The `default` branch assigns `0x05`. -/
def case_0x6E_0x6F (supported : State → Option State) (p : Profile) (s : State) :
    Option State :=
  match p.cpuType with
  | .I80188 | .I80186 | .I80286 => supported s
  | _ => some { s with pendingInterrupt := 0x05 }

/-- Body of `case 0x98` (CBW) of `Exec`. -/
def case_0x98 (s : State) : State :=
  let c := if s.cpu.al &&& 0x80 ≠ 0 then s.cpu.setAh 0xFF else s.cpu.setAh 0x00
  { s with cpu := c, Cycles := s.Cycles + 3 }

/-- Body of `case 0xF4` (HLT) of `Exec`. -/
def case_0xF4 (s : State) : State :=
  { s with cpu := { s.cpu with halt := true }, Cycles := s.Cycles + 5 }

/-! ## The `Exec` loop

`rest op` stands for what the model leaves out of the `switch`: the whole
`case op` (or the `default` branch) for an opcode without a definition above,
and the supported-CPU branch of `case 0x0F`, `0x62`, `0x69`/`0x6B`,
`0x6C`/`0x6D`, `0x6E`/`0x6F`. -/

/-- The statement `this->cpu.pc++` of the opcode fetch. -/
def State.pcPlus1 (H : Header) (s : State) : State :=
  if H.pcIsIp = true then s.ipPlus1
  else { s with cpu := { s.cpu with pc := s.cpu.pc + 1 } }

/-- The opcode fetch: `rep_pc` is set when `rep` holds, the byte at `CS:IP` goes
to `cpu.instruction_reg`, and `cpu.pc` is incremented. `dumpRegisters` only
writes to the log. -/
def fetch (H : Header) (p : Profile) (s : State) : Option State :=
  let s0 : State := if s.rep = true then { s with rep_pc := s.cpu.ip } else s
  let r := readMemByte p s0 (getAddress s0 .CS .IP)
  match r.1 with
  | none => none
  | some b =>
    some (State.pcPlus1 H { r.2 with cpu := { r.2.cpu with instruction_reg := b } })

/-- The `switch (this->cpu.instruction_reg)` of `Exec`. -/
def opcodeSwitch (rest : Nat → State → Option State) (H : Header) (p : Profile)
    (s : State) : Option State :=
  let op := s.cpu.instruction_reg
  if op = 0x04 then case_0x04 H p s
  else if op = 0x0F then case_0x0F (rest 0x0F) p s
  else if op = 0x2C then case_0x2C H p s
  else if op = 0x60 then case_0x60 p s
  else if op = 0x61 then case_0x61 p s
  else if op = 0x62 then case_0x62 (rest 0x62) p s
  else if op = 0x68 ∨ op = 0x6A then case_0x68_0x6A p s
  else if op = 0x69 ∨ op = 0x6B then case_0x69_0x6B (rest op) p s
  else if op = 0x6C ∨ op = 0x6D then case_0x6C_0x6D (rest op) p s
  else if op = 0x6E ∨ op = 0x6F then case_0x6E_0x6F (rest op) p s
  else if op = 0x98 then some (case_0x98 s)
  else if op = 0xCF then case_0xCF H p s
  else if op = 0xF4 then some (case_0xF4 s)
  else rest op s

/-- The trap check after the `switch`. -/
def trapCheck (H : Header) (s : State) : State :=
  if getFlag s.cpu.flags H.tf = true then
    { s with pendingInterruptBeforeTrace := s.pendingInterrupt, pendingInterrupt := 0x01 }
  else s

/-- The block guarded by `(!this->cpu.halt) && (cyclecount > 0)`: fetch,
`switch`, trap check. -/
def dispatch (rest : Nat → State → Option State) (H : Header) (p : Profile)
    (s : State) : Option State :=
  match fetch H p s with
  | none => none
  | some s1 =>
    match opcodeSwitch rest H p s1 with
    | none => none
    | some s2 => some (trapCheck H s2)

/-- One pass through the body of `while (Cycles > 0)`. -/
def iteration (rest : Nat → State → Option State) (H : Header) (p : Profile)
    (s : State) : Option State :=
  match interruptTransfer H p (arbitrate s) with
  | none => none
  | some s1 =>
    if s1.cpu.halt = false ∧ s1.cyclecount > 0 then dispatch rest H p s1 else some s1

/-- Where a call of `Exec` stands after a number of passes. -/
inductive Outcome where
  | returned (s : State)
  | undefined
  | running (s : State)

/-- The loop `while (Cycles > 0) { ... }` cut off after `fuel` passes: `returned`
when the loop condition fails, `undefined` when a read yields no value,
`running` when the condition still holds after the last pass. -/
def execLoop (rest : Nat → State → Option State) (H : Header) (p : Profile) :
    Nat → State → Outcome
  | 0, s => if s.Cycles > 0 then .running s else .returned s
  | fuel + 1, s =>
    if s.Cycles > 0 then
      match iteration rest H p s with
      | none => .undefined
      | some s1 => execLoop rest H p fuel s1
    else .returned s

/-- The function `ix86::Exec(int Cycles)`, cut off after `fuel` passes. -/
def Exec (rest : Nat → State → Option State) (H : Header) (p : Profile) (fuel : Nat)
    (Cycles : Int) (s : State) : Outcome :=
  execLoop rest H p fuel { s with Cycles := Cycles }

/-! ## Concrete states used for evaluation -/

/-- A register file with every register 0, flags 0x0002, latches clear. -/
def cpu0 : Cpu :=
  { ax := 0, bx := 0, cx := 0, dx := 0, si := 0, di := 0, bp := 0, sp := 0,
    cs := 0, ds := 0, es := 0, ss := 0, ip := 0, flags := 0x0002, msw := 0,
    instruction_reg := 0, pc := 0, ldtr := 0, tr := 0, gdtr := 0, idtr := 0,
    halt := false, wait := false, intr := false, nmi := false }

/-- A state with zeroed RAM and ROM, `BOOTFLAG` clear and no vector pending. -/
def state0 : State :=
  { cpu := cpu0, BOOTFLAG := false, ramMemory := fun _ => 0, romMemory := fun _ => 0,
    pendingInterrupt := -1, pendingInterruptBeforeTrace := -1, interrupt_nr := 0,
    cyclecount := 1000000, Cycles := 0, DEBUG := false, temp := 0, tubeWrites := [],
    rep := false, rep_pc := 0 }

/-- The Master 512 profile. -/
def acorn186 : Profile := ix86 .ACORN_186

/-- A state with the non-maskable line asserted, the stack pointer at `0x0100`,
code at `1234:0100`, flags `0x0246`, and the entry of vector 2 holding
`IP = 0x1234` (bytes at 8, 9) and `CS = 0xF000` (bytes at 10, 11). -/
def stateNmi : State :=
  { state0 with
    cpu := { cpu0 with nmi := true, sp := 0x0100, cs := 0x1234, ip := 0x0100, flags := 0x0246 },
    ramMemory := fun i =>
      if i = 8 then 0x34 else if i = 9 then 0x12 else if i = 11 then 0xF0 else 0 }

/-- A state with vector 0 pending and no line asserted: stack pointer `0x0100`
in segment 0, code at `1234:0100`, flags `0x0246`, vector table zeroed. -/
def stateFault : State :=
  { state0 with
    cpu := { cpu0 with sp := 0x0100, cs := 0x1234, ip := 0x0100, flags := 0x0246 },
    pendingInterrupt := 0 }

/-- What `readWord` returns at `SS:SP`, `SS:SP+2` and `SS:SP+4`, with `sp`. -/
def frameView (p : Profile) (s : State) : Nat × Option Nat × Option Nat × Option Nat :=
  (s.cpu.sp,
   (readMemWord p s (getAddress s .SS .SP)).1,
   (readMemWord p s (getAddress s .SS .SP + 2)).1,
   (readMemWord p s (getAddress s .SS .SP + 4)).1)

/-- The registers that an interrupt return restores. -/
def returnView (s : State) : Nat × Nat × Nat × Nat :=
  (s.cpu.flags, s.cpu.cs, s.cpu.ip, s.cpu.sp)

/-- A state with `AL = a`, `cs:ip = 0000:0200` and the byte `b` at that
address in RAM, `BOOTFLAG` clear, and the given content of `temp`. -/
def stateImm (a b temp : Nat) : State :=
  { state0 with
    cpu := { cpu0 with ax := a % 256, ip := 0x0200 },
    ramMemory := fun i => if i = 0x0200 then Fin.ofNat b else 0,
    temp := temp }

/-- The values of `AL` and of the overflow, sign and zero members. -/
def arithView (H : Header) (s : State) : Nat × Bool × Bool × Bool :=
  (s.cpu.al, getFlag s.cpu.flags H.of_, getFlag s.cpu.flags H.sf, getFlag s.cpu.flags H.zf)

/-- The Torch Graduate profile, an 8088. -/
def torch : Profile := ix86 .TORCH_GRADUATE

/-- A state whose next opcode byte, at `cs:ip = 0000:0200` in RAM, is `op`,
with `BOOTFLAG` clear, flags `0x0002` and no vector pending. -/
def stateOp (op : Nat) : State :=
  { state0 with
    cpu := { cpu0 with ip := 0x0200 },
    ramMemory := fun i => if i = 0x0200 then Fin.ofNat op else 0 }

/-- A halted state with budget 1, no line asserted and no vector pending. -/
def stateHalted : State :=
  { state0 with cpu := { cpu0 with halt := true, ax := 0x1234, ip := 0x0200 }, Cycles := 1 }

/-- A state about to run `ADD AL, 0x01` then `HLT` from `0000:0200` in RAM,
with `AL = 0x7F`, `BOOTFLAG` clear and no vector pending. -/
def stateProg : State :=
  { state0 with
    cpu := { cpu0 with ax := 0x007F, ip := 0x0200 },
    ramMemory := fun i =>
      if i = 0x0200 then 0x04 else if i = 0x0201 then 0x01 else if i = 0x0202 then 0xF4 else 0 }

/-- What a pass leaves in `AL`, `ip`, `Cycles`, the instruction register and
the halt latch. -/
def passView (s : State) : Nat × Nat × Int × Nat × Bool :=
  (s.cpu.al, s.cpu.ip, s.Cycles, s.cpu.instruction_reg, s.cpu.halt)

/-- The registers that no interrupt transfer writes, with the halt latch and
the instruction register. -/
def haltView (s : State) : Bool × Nat × Nat × Nat × Nat × Nat × Nat × Nat × Nat :=
  (s.cpu.halt, s.cpu.instruction_reg, s.cpu.ax, s.cpu.bx, s.cpu.cx, s.cpu.dx,
   s.cpu.si, s.cpu.di, s.cpu.bp)

/-- A number of passes through the loop body, one after the other. -/
def iterations (rest : Nat → State → Option State) (H : Header) (p : Profile) :
    Nat → State → Option State
  | 0, s => some s
  | n + 1, s => (iteration rest H p s).bind (iterations rest H p n)

/-- The signed value of an 8-bit pattern. -/
def signed8 (v : Nat) : Int := if v % 256 ≥ 128 then (v % 256 : Int) - 256 else (v % 256 : Int)

/-- The signed value of a 16-bit pattern. -/
def signed16 (v : Nat) : Int :=
  if v % 65536 ≥ 32768 then (v % 65536 : Int) - 65536 else (v % 65536 : Int)

/-- The state `stateOp op` after the opcode fetch when `cpu.pc` names the
instruction pointer. -/
def stateOpFetched (op : Nat) : State :=
  { stateOp op with cpu := { cpu0 with ip := 0x0201, instruction_reg := op % 256 } }

/-- A boot-time state on the 8088 profile whose next opcode byte, read from ROM
at `0000:0200`, is `0x6E` (OUTSB). -/
def stateOuts8088 : State :=
  { state0 with
    cpu := { cpu0 with ip := 0x0200 },
    BOOTFLAG := true,
    romMemory := fun i => if i = 0x0200 then 0x6E else 0 }

/-- The state `stateNmi` with the maskable line asserted too, vector `0x40`
supplied, and vector 7 already pending. -/
def stateNmiIntr : State :=
  { stateNmi with
    cpu := { stateNmi.cpu with intr := true },
    interrupt_nr := 0x40,
    pendingInterrupt := 7 }

/-- The segment register that a selector names. -/
def SegReg.value (c : Cpu) : SegReg → Nat
  | .CS => c.cs
  | .DS => c.ds
  | .ES => c.es
  | .SS => c.ss

/-- The offset register that a selector names. -/
def OffReg.value (c : Cpu) : OffReg → Nat
  | .IP => c.ip
  | .SI => c.si
  | .DI => c.di
  | .BP => c.bp
  | .SP => c.sp

/-! ## Operand resolver -/

/-- The sum that the second `switch` of `getOperandValue` adds for `rm`; no
case, hence nothing added, for `rm` above 7. The case for `0x03` adds
`bp + si`, as the case for `0x02` does. -/
def baseSum (c : Cpu) (rm : Nat) : Nat :=
  if rm = 0x00 then c.bx + c.si
  else if rm = 0x01 then c.bx + c.di
  else if rm = 0x02 then c.bp + c.si
  else if rm = 0x03 then c.bp + c.si
  else if rm = 0x04 then c.si
  else if rm = 0x05 then c.di
  else if rm = 0x06 then c.bp
  else if rm = 0x07 then c.bx
  else 0

/-- Body of `ix86::getOperandValue(mod, rm)`: the returned value with the state
afterwards. `disp` is an `unsigned short`. For `mod` 0 with `rm` 6 the code
passes `IP-1` and `IP-2` as offset selectors; `ipRel k` is the selector that
`IP-k` denotes, if any (the selector constants are declared in `ix86.h`, which
is not in the tree). A `mod` above 3 leaves `disp` unset. -/
def getOperandValue (ipRel : Nat → Option OffReg) (p : Profile) (s : State) (mod rm : Nat) :
    Option (Nat × State) :=
  if mod = 0x00 then
    if rm = 0x06 then
      let s1 : State := { s with cpu := { s.cpu with ip := (s.cpu.ip + 2) % 65536 } }
      match ipRel 1, ipRel 2 with
      | some o1, some o2 =>
        let r1 := readMemByte p s1 (getAddress s1 .CS o1)
        let r2 := readMemByte p r1.2 (getAddress r1.2 .CS o2)
        match r1.1, r2.1 with
        | some hi, some lo => some (((hi <<< 8) ||| lo) % 4294967296, r2.2)
        | _, _ => none
      | _, _ => none
    else some ((0 + baseSum s.cpu rm) % 65536, s)
  else if mod = 0x01 then
    let r := readMemByte p s (getAddress s .CS .IP)
    match r.1 with
    | none => none
    | some b =>
      let s1 := r.2.ipPlus1
      let disp := if b &&& 0x80 ≠ 0 then b ||| 0xFF00 else b
      some ((disp + baseSum s1.cpu rm) % 65536, s1)
  else if mod = 0x02 then
    let r := readMemWord p s (getAddress s .CS .IP)
    match r.1 with
    | none => none
    | some v =>
      let s1 : State := { r.2 with cpu := { r.2.cpu with ip := (r.2.cpu.ip + 2) % 65536 } }
      some ((v + baseSum s1.cpu rm) % 65536, s1)
  else if mod = 0x03 then some ((0 + baseSum s.cpu rm) % 65536, s)
  else none

/-! ## Bodies of INC AX, AAM and IDIV -/

/-- Body of `case 0x40` (INC AX) of `Exec`. `result` is a 32-bit word. -/
def case_0x40 (H : Header) (p : Profile) (s : State) : State :=
  let temp := s.cpu.axx
  let result := (temp + 1) % 4294967296
  let s1 := setOverflowFlag H s true result temp 1
  let s2 := setSignFlag H s1 true result
  let s3 := setZeroFlag H s2 result
  let s4 := setAdjustFlag H s3 result temp 1
  let s5 := setParityFlag H s4 true result
  let s6 : State := { s5 with cpu := s5.cpu.setAx result }
  { s6 with Cycles := s6.Cycles + (if p.cpuType = .I80286 then 3 else 2) }

/-- Body of `case 0xD4` (AAM) of `Exec`. The two divisions by `temp` have no
guard: with `temp` equal to 0 the behaviour is undefined, and the result is
`none`. -/
def case_0xD4 (p : Profile) (s : State) : Option State :=
  let r := readMemByte p s (getAddress s .CS .IP)
  match r.1 with
  | none => none
  | some temp =>
    let s1 := r.2.ipPlus1
    if temp = 0 then none
    else
      let s2 : State := { s1 with cpu := s1.cpu.setAh (s1.cpu.al / temp) }
      let s3 : State := { s2 with cpu := s2.cpu.setAl (s2.cpu.al % temp) }
      some { s3 with Cycles := s3.Cycles + 17 }

/-- The path of `case 0xF6`, `case 0xF7` through `case 0x07` (IDIV) of the inner
`switch`: the ModRM byte is read, `disp = getOperandValue(mod, rm)`, and a zero
`disp` makes vector 0 pending. `nonzero disp` is the block run for a nonzero
`disp`; `others reg` is the inner `switch` for the other values of `reg`. -/
def case_0xF6_0xF7 (nonzero : Nat → State → Option State)
    (others : Nat → State → Option State) (ipRel : Nat → Option OffReg) (p : Profile)
    (s : State) : Option State :=
  let r := readMemByte p s (getAddress s .CS .IP)
  match r.1 with
  | none => none
  | some temp =>
    let s1 := r.2.ipPlus1
    let mod := (temp &&& 0xC0) >>> 6
    let reg := (temp &&& 0x38) >>> 3
    let rm := temp &&& 0x07
    if reg = 0x07 then
      match getOperandValue ipRel p s1 mod rm with
      | none => none
      | some (disp, s2) =>
        if disp ≠ 0 then nonzero disp s2
        else some { s2 with pendingInterrupt := 0x00 }
    else others reg s1

/-! ## The debug flag -/

/-- Body of `ix86::dumpRegisters`: the values handed to `WriteLog` when `DEBUG`
is set, nothing otherwise. The object is not modified. -/
def dumpRegisters (s : State) : Option (List Nat) :=
  if s.DEBUG = true then
    some [getAddress s .CS .IP, s.cpu.instruction_reg, s.cpu.ip, s.cpu.ax, s.cpu.bx, s.cpu.cx,
          s.cpu.dx, s.cpu.si, s.cpu.di, s.cpu.bp, s.cpu.sp, s.cpu.cs, s.cpu.ds, s.cpu.es,
          s.cpu.ss, s.cpu.flags]
  else none

/-- The state with its `DEBUG` member replaced. -/
def State.withDebug (s : State) (d : Bool) : State := { s with DEBUG := d }

/-! ## More concrete states -/

/-- No selector is denoted by `IP-1` or `IP-2`. -/
def noIpRel : Nat → Option OffReg := fun _ => none

/-- A state with `ax = 0x1234`, `bx = 0x0100`, `bp = 0x0200`, `si = 0x0010` and
`di = 0x0020`. -/
def stateRegs : State :=
  { state0 with
    cpu := { cpu0 with ax := 0x1234, bx := 0x0100, bp := 0x0200, si := 0x0010, di := 0x0020 } }

/-- A state with `ax = 0x1234`, `dx = 0x5678`, all other registers 0,
`cs:ip = 0000:0200` and the bytes `b0`, `b1` at that address in RAM. -/
def stateBytes (b0 b1 : Nat) : State :=
  { state0 with
    cpu := { cpu0 with ax := 0x1234, dx := 0x5678, ip := 0x0200 },
    ramMemory := fun i => if i = 0x0200 then Fin.ofNat b0 else if i = 0x0201 then Fin.ofNat b1 else 0 }

/-- A state with `ax = v` and the given content of `temp`. -/
def stateAx (v temp : Nat) : State :=
  { state0 with cpu := { cpu0 with ax := v }, temp := temp }

/-- Number of set bits among the low sixteen bits of a value. -/
def lowWordOnes (v : Nat) : Nat :=
  ((List.range 16).filter fun i => v.testBit i).length

/-- A state that an instruction left with the trap member set (flags
`0x0102`) and vector 6 pending. -/
def stateTrap : State :=
  { state0 with cpu := { cpu0 with flags := 0x0102 }, pendingInterrupt := 6 }

/-- The carry and overflow members of the flags word. -/
def carryView (H : Header) (s : State) : Bool × Bool :=
  (getFlag s.cpu.flags H.cf, getFlag s.cpu.flags H.of_)

/-! ## States that differ in the debug flag -/

/-- A function on states that does not read the `DEBUG` member. -/
def debugBlind (f : State → Option State) : Prop :=
  ∀ (s : State) (d : Bool), f (s.withDebug d) = (f s).map (fun t => t.withDebug d)

/-- Two states that agree on every member other than `DEBUG`. -/
def sameUpToDebug (s t : State) : Prop :=
  s.cpu = t.cpu ∧ s.BOOTFLAG = t.BOOTFLAG ∧ s.ramMemory = t.ramMemory ∧
  s.romMemory = t.romMemory ∧ s.pendingInterrupt = t.pendingInterrupt ∧
  s.pendingInterruptBeforeTrace = t.pendingInterruptBeforeTrace ∧
  s.interrupt_nr = t.interrupt_nr ∧ s.cyclecount = t.cyclecount ∧ s.Cycles = t.Cycles ∧
  s.temp = t.temp ∧ s.tubeWrites = t.tubeWrites ∧ s.rep = t.rep ∧ s.rep_pc = t.rep_pc

/-- The cases of the `switch` for INC AX, AAM and the IDIV path, as a value of
the parameter `rest`; the other opcodes are left without a result. -/
def restModelled (H : Header) (p : Profile) (op : Nat) (s : State) : Option State :=
  if op = 0x40 then some (case_0x40 H p s)
  else if op = 0xD4 then case_0xD4 p s
  else if op = 0xF6 ∨ op = 0xF7 then
    case_0xF6_0xF7 (fun _ _ => none) (fun _ _ => none) noIpRel p s
  else none

/-! ## Accumulator-immediate logical opcodes, CMP, DAA, INTO -/

/-- The flag updates shared by the accumulator-immediate logical opcodes, in the
order of the source: `cpu.flags.of = false`, `setSignFlag`, `setZeroFlag`,
`cpu.flags.cf = false`, `setParityFlag`. -/
def logicFlags (H : Header) (s : State) (w : Bool) (value : Nat) : State :=
  let s1 := s.assignFlag H.of_ false
  let s2 := setSignFlag H s1 w value
  let s3 := setZeroFlag H s2 value
  let s4 := s3.assignFlag H.cf false
  setParityFlag H s4 w value

/-- The statement `this->cpu.ip += 2` on a 16-bit register. -/
def State.ipPlus2 (s : State) : State :=
  { s with cpu := { s.cpu with ip := (s.cpu.ip + 2) % 65536 } }

/-- Bodies of `case 0x0C`, `0x24`, `0x34` (OR, AND, XOR of `AL` with imm8):
`cpu.ax.l op= readByte(CS:IP)`, `ip++`, the flag updates, `Cycles += 2`. -/
def accLogicByte (op : Nat → Nat → Nat) (H : Header) (p : Profile) (s : State) :
    Option State :=
  let r := readMemByte p s (getAddress s .CS .IP)
  match r.1 with
  | none => none
  | some b =>
    let s1 : State := { r.2 with cpu := r.2.cpu.setAl (op r.2.cpu.al b) }
    let s2 := s1.ipPlus1
    let s3 := logicFlags H s2 false s2.cpu.al
    some { s3 with Cycles := s3.Cycles + 2 }

/-- Bodies of `case 0x0D`, `0x25`, `0x35` (OR, AND, XOR of `AX` with imm16):
`cpu.ax.x op= readWord(CS:IP)`, `ip += 2`, the flag updates, `Cycles += 2`. -/
def accLogicWord (op : Nat → Nat → Nat) (H : Header) (p : Profile) (s : State) :
    Option State :=
  let r := readMemWord p s (getAddress s .CS .IP)
  match r.1 with
  | none => none
  | some v =>
    let s1 : State := { r.2 with cpu := r.2.cpu.setAx (op r.2.cpu.axx v) }
    let s2 := s1.ipPlus2
    let s3 := logicFlags H s2 true s2.cpu.axx
    some { s3 with Cycles := s3.Cycles + 2 }

/-- Body of `case 0x0C` (OR AL, imm8) of `Exec`. -/
def case_0x0C (H : Header) (p : Profile) (s : State) : Option State :=
  accLogicByte (fun a b => a ||| b) H p s

/-- Body of `case 0x0D` (OR AX, imm) of `Exec`. -/
def case_0x0D (H : Header) (p : Profile) (s : State) : Option State :=
  accLogicWord (fun a b => a ||| b) H p s

/-- Body of `case 0x24` (AND AL, imm) of `Exec`. -/
def case_0x24 (H : Header) (p : Profile) (s : State) : Option State :=
  accLogicByte (fun a b => a &&& b) H p s

/-- Body of `case 0x25` (AND AX, imm) of `Exec`. -/
def case_0x25 (H : Header) (p : Profile) (s : State) : Option State :=
  accLogicWord (fun a b => a &&& b) H p s

/-- Body of `case 0x34` (XOR AL, imm) of `Exec`. -/
def case_0x34 (H : Header) (p : Profile) (s : State) : Option State :=
  accLogicByte (fun a b => a ^^^ b) H p s

/-- Body of `case 0x35` (XOR AX, imm) of `Exec`. -/
def case_0x35 (H : Header) (p : Profile) (s : State) : Option State :=
  accLogicWord (fun a b => a ^^^ b) H p s

/-- Body of `case 0xA8` (TEST AL) of `Exec`; the conjunction goes to the local
`temp` of `Exec`, not to the accumulator. -/
def case_0xA8 (H : Header) (p : Profile) (s : State) : Option State :=
  let r := readMemByte p s (getAddress s .CS .IP)
  match r.1 with
  | none => none
  | some b =>
    let temp := r.2.cpu.al &&& b
    let s1 := r.2.ipPlus1
    let s2 := logicFlags H s1 false temp
    some { s2 with Cycles := s2.Cycles + 2 }

/-- Body of `case 0xA9` (TEST AX) of `Exec`. -/
def case_0xA9 (H : Header) (p : Profile) (s : State) : Option State :=
  let r := readMemWord p s (getAddress s .CS .IP)
  match r.1 with
  | none => none
  | some v =>
    let temp := r.2.cpu.axx &&& v
    let s1 := r.2.ipPlus2
    let s2 := logicFlags H s1 true temp
    some { s2 with Cycles := s2.Cycles + 2 }

/-- Body of `case 0x3C` (CMP AL, imm) of `Exec`. `result` is a 32-bit word; the
six flag helpers are called in the order of `byteArithFlags`. -/
def case_0x3C (H : Header) (p : Profile) (s : State) : Option State :=
  let temp := s.cpu.al
  let r := readMemByte p s (getAddress s .CS .IP)
  match r.1 with
  | none => none
  | some disp =>
    let s1 := r.2.ipPlus1
    let result := (s1.cpu.al + 4294967296 - disp) % 4294967296
    let s2 := byteArithFlags H s1 result temp disp
    some { s2 with Cycles := s2.Cycles + 4 }

/-- Body of `case 0x27` (DAA) of `Exec`. `cpu.ax.l` is an 8-bit cell, so each
`+=` wraps at 256; the second test reads `cpu.ax.l` after the first
adjustment. -/
def case_0x27 (H : Header) (s : State) : State :=
  let s1 : State :=
    if s.cpu.al &&& 0x0F > 9 ∨ getFlag s.cpu.flags H.af = true then
      State.assignFlag { s with cpu := s.cpu.setAl (s.cpu.al + 6) } H.af true
    else s.assignFlag H.af false
  let s2 : State :=
    if s1.cpu.al > 0x9F ∨ getFlag s1.cpu.flags H.cf = true then
      State.assignFlag { s1 with cpu := s1.cpu.setAl (s1.cpu.al + 0x60) } H.cf true
    else s1.assignFlag H.cf false
  let s3 := setSignFlag H s2 false s2.cpu.al
  let s4 := setZeroFlag H s3 s3.cpu.al
  let s5 := setParityFlag H s4 false s4.cpu.al
  { s5 with Cycles := s5.Cycles + 4 }

/-- Body of `case 0xCE` (INTO) of `Exec`. The condition of the `if` is the
assignment `this->cpu.flags.of = true`, whose value is the member after the
store. -/
def case_0xCE (H : Header) (s : State) : State :=
  let s1 := s.assignFlag H.of_ true
  if getFlag s1.cpu.flags H.of_ = true then
    { s1 with pendingInterrupt := 0x04, Cycles := s1.Cycles + 35 }
  else { s1 with Cycles := s1.Cycles + 3 }

/-! ## Condition codes -/

/-- Body of `ix86::evaluateConditionCode`; a code above `0x0F` reaches
`return (0)`. -/
def evaluateConditionCode (H : Header) (s : State) (ConditionCode : Nat) : Bool :=
  let f := s.cpu.flags
  if ConditionCode = 0x00 then getFlag f H.of_ == true
  else if ConditionCode = 0x01 then getFlag f H.of_ == false
  else if ConditionCode = 0x02 then getFlag f H.cf == true
  else if ConditionCode = 0x03 then getFlag f H.cf == false
  else if ConditionCode = 0x04 then getFlag f H.zf == true
  else if ConditionCode = 0x05 then getFlag f H.zf == false
  else if ConditionCode = 0x06 then (getFlag f H.cf == true) || (getFlag f H.zf == true)
  else if ConditionCode = 0x07 then (getFlag f H.cf == false) && (getFlag f H.zf == false)
  else if ConditionCode = 0x08 then getFlag f H.sf == true
  else if ConditionCode = 0x09 then getFlag f H.sf == false
  else if ConditionCode = 0x0A then getFlag f H.pf == true
  else if ConditionCode = 0x0B then getFlag f H.pf == false
  else if ConditionCode = 0x0C then getFlag f H.sf != getFlag f H.of_
  else if ConditionCode = 0x0D then getFlag f H.sf == getFlag f H.of_
  else if ConditionCode = 0x0E then
    (getFlag f H.zf == true) || (getFlag f H.zf != getFlag f H.of_)
  else if ConditionCode = 0x0F then
    (getFlag f H.zf == false) && (getFlag f H.zf == getFlag f H.of_)
  else false

/-! ## PUSH AX and the string opcodes -/

/-- Body of `case 0x50` (PUSH AX) of `Exec`. -/
def case_0x50 (p : Profile) (s : State) : State :=
  let s1 := pushWord p s s.cpu.axx
  { s1 with Cycles := s1.Cycles + 2 }

/-- Body of `ix86::readIOByte` (return type `unsigned char`). `tube` is the
external function `ReadTubeFromParasiteSide`. Only the eight tube addresses
reach a `return`; every other path ends without one. -/
def readIOByte (tube : Nat → Nat) (address : Nat) : Option Nat :=
  if address = 0x0080 ∨ address = 0x0082 ∨ address = 0x0084 ∨ address = 0x0086 ∨
      address = 0x0088 ∨ address = 0x008A ∨ address = 0x008C ∨ address = 0x008E then
    some (tube ((address &&& 0x0000000F) >>> 1) % 256)
  else none

/-- The statement `this->cpu.di += k` on a 16-bit register (`k = 65535` and
`k = 65534` are `di--` and `di -= 2`). -/
def State.diAdd (s : State) (k : Nat) : State :=
  { s with cpu := { s.cpu with di := (s.cpu.di + k) % 65536 } }

/-- The statement `this->cpu.si += k` on a 16-bit register. -/
def State.siAdd (s : State) (k : Nat) : State :=
  { s with cpu := { s.cpu with si := (s.cpu.si + k) % 65536 } }

/-- One transfer of the INS branch:
`writeByte(readIOByte(cpu.dx), getAddress(ES, DI))` followed by the `if` on
`cpu.flags.df`, which decrements `di` when the member is false. The I/O byte
is the first argument of `writeByte` (the address) and the linear address the
second (the value). -/
def insTransfer (tube : Nat → Nat) (H : Header) (p : Profile) (s : State) : Option State :=
  match readIOByte tube (s.cpu.dx % 65536) with
  | none => none
  | some io =>
    let s1 := writeMemByte p s io (getAddress s .ES .DI)
    if getFlag s1.cpu.flags H.df = false then some (s1.diAdd 65535)
    else some (s1.diAdd 1)

/-- The branch of `case 0x6C`, `case 0x6D` (INS) for `I80188`, `I80186`,
`I80286`: one transfer more when `w` is set, then `Cycles += 5`. -/
def insSupported (tube : Nat → Nat) (H : Header) (p : Profile) (s : State) : Option State :=
  let first := if wBit s = true then insTransfer tube H p s else some s
  match first with
  | none => none
  | some s1 =>
    match insTransfer tube H p s1 with
    | none => none
    | some s2 => some { s2 with Cycles := s2.Cycles + 5 }

/-- Body of `case 0xA4` (MOVSB) of `Exec`. -/
def case_0xA4 (H : Header) (p : Profile) (s : State) : Option State :=
  let r := readMemByte p s (getAddress s .DS .SI)
  match r.1 with
  | none => none
  | some b =>
    let s1 := writeMemByte p r.2 (getAddress s .ES .DI) b
    let s2 := if getFlag s1.cpu.flags H.df = true then (s1.diAdd 65535).siAdd 65535
              else (s1.diAdd 1).siAdd 1
    some { s2 with Cycles := s2.Cycles + 7 }

/-- Body of `case 0xA5` (MOVSW) of `Exec`. -/
def case_0xA5 (H : Header) (p : Profile) (s : State) : Option State :=
  let r := readMemWord p s (getAddress s .DS .SI)
  match r.1 with
  | none => none
  | some v =>
    let s1 := writeMemWord p r.2 (getAddress s .ES .DI) v
    let s2 := if getFlag s1.cpu.flags H.df = true then (s1.diAdd 65534).siAdd 65534
              else (s1.diAdd 2).siAdd 2
    some { s2 with Cycles := s2.Cycles + 7 }

/-- Body of `case 0xAA` (STOSB) of `Exec`. -/
def case_0xAA (H : Header) (p : Profile) (s : State) : State :=
  let s1 := writeMemByte p s (getAddress s .ES .DI) s.cpu.al
  let s2 := if getFlag s1.cpu.flags H.df = false then s1.diAdd 1 else s1.diAdd 65535
  { s2 with Cycles := s2.Cycles + 4 }

/-- Body of `case 0xAB` (STOSW) of `Exec`; the argument `this->cpu.ax` is the
16-bit cell. -/
def case_0xAB (H : Header) (p : Profile) (s : State) : State :=
  let s1 := writeMemWord p s (getAddress s .ES .DI) s.cpu.axx
  let s2 := if getFlag s1.cpu.flags H.df = false then s1.diAdd 2 else s1.diAdd 65534
  { s2 with Cycles := s2.Cycles + 4 }

/-! ## Concrete states for the opcode bodies above -/

/-- A state with the maskable line asserted and vector `0x40` supplied, the
given flags word, the stack pointer at `0x0100`, code at `1234:0100`, and the
entry of vector `0x40` holding `IP = 0x5678` (bytes at `0x100`, `0x101`) and
`CS = 0x9ABC` (bytes at `0x102`, `0x103`). The three pushes end below that
entry. -/
def stateIntr (flags : Nat) : State :=
  { state0 with
    cpu := { cpu0 with intr := true, sp := 0x0100, cs := 0x1234, ip := 0x0100, flags := flags },
    interrupt_nr := 0x40,
    ramMemory := fun i =>
      if i = 0x100 then 0x78 else if i = 0x101 then 0x56
      else if i = 0x102 then 0xBC else if i = 0x103 then 0x9A else 0 }

/-- A state after the fetch of opcode `op`: `ss:sp = 0000:0100`,
`cs:ip = 0000:0200`, `ax = 0xBEEF`, and the bytes `0x80`, `0x12` at `0x200`,
`0x201` in RAM. -/
def statePush (op : Nat) : State :=
  { state0 with
    cpu := { cpu0 with instruction_reg := op, sp := 0x0100, ip := 0x0200, ax := 0xBEEF },
    ramMemory := fun i => if i = 0x0200 then 0x80 else if i = 0x0201 then 0x12 else 0 }

/-- What a push leaves: `sp`, `ip`, and the RAM bytes at `0xFE`, `0xFF`. -/
def pushView (s : State) : Nat × Nat × Nat × Nat :=
  (s.cpu.sp, s.cpu.ip, (s.ramMemory 0xFE).val, (s.ramMemory 0xFF).val)

/-- A state after the fetch of opcode `op` with the given flags word,
`si = 0x0020`, `di = 0x0010`, `dx = 0x0080` (tube register 1), `ax = 0x1234`
and all segment registers 0. -/
def stateString (op flags : Nat) : State :=
  { state0 with
    cpu := { cpu0 with instruction_reg := op, flags := flags, si := 0x0020, di := 0x0010,
                       dx := 0x0080, ax := 0x1234 } }

/-- A tube that returns `0x55` from every register. -/
def tube55 : Nat → Nat := fun _ => 0x55

/-- The index registers `si` and `di`. -/
def indexView (s : State) : Nat × Nat := (s.cpu.si, s.cpu.di)

/-! ## Relating states -/

/-- Two states with the same latch and the same buffers. -/
def sameSpace (s t : State) : Prop :=
  s.BOOTFLAG = t.BOOTFLAG ∧ s.ramMemory = t.ramMemory ∧ s.romMemory = t.romMemory

/-! ## Lemmas on the accessors -/

theorem sizeMinusOne_two_pow (k : Nat) (hk : k < 32) : sizeMinusOne (2 ^ k) = 2 ^ k - 1 := by
  unfold sizeMinusOne
  have h1 : 0 < 2 ^ k := Nat.two_pow_pos k
  have h2 : 2 ^ k < 2 ^ 32 := Nat.pow_lt_pow_right (by decide) hk
  have h3 : (2 : Nat) ^ 32 = 4294967296 := by norm_num
  omega

theorem readMemByte_bootflag_clear (p : Profile) (s : State) (a : Nat)
    (h : s.BOOTFLAG = false) : (readMemByte p s a).2 = s := by
  unfold readMemByte
  simp only [h, Bool.false_eq_true, if_false]
  split_ifs <;> rfl

theorem readMemWord_bootflag_clear (p : Profile) (s : State) (a : Nat)
    (h : s.BOOTFLAG = false) : (readMemWord p s a).2 = s := by
  have e0 := readMemByte_bootflag_clear p s a h
  have e1 := readMemByte_bootflag_clear p s ((a + 1) % 4294967296) h
  unfold readMemWord
  simp only [e0]
  split <;> simp [e1]

theorem readMemWord_keeps_clear (p : Profile) (s : State) (a : Nat)
    (h : s.BOOTFLAG = false) : (readMemWord p s a).2.BOOTFLAG = false := by
  rw [readMemWord_bootflag_clear p s a h]; exact h

theorem readMemLong_bootflag_clear (p : Profile) (s : State) (a : Nat)
    (h : s.BOOTFLAG = false) : (readMemLong p s a).2 = s := by
  have e0 := readMemByte_bootflag_clear p s a h
  have e1 := readMemByte_bootflag_clear p s ((a + 1) % 4294967296) h
  have e2 := readMemByte_bootflag_clear p s ((a + 2) % 4294967296) h
  have e3 := readMemByte_bootflag_clear p s ((a + 3) % 4294967296) h
  unfold readMemLong
  simp only [e0, e1, e2]
  split <;> simp [e3]

theorem writeMemByte_bootflag_clear (p : Profile) (s : State) (a v : Nat)
    (h : s.BOOTFLAG = false) : (writeMemByte p s a v).BOOTFLAG = false := by
  unfold writeMemByte
  simp only [h, Bool.false_eq_true, if_false]
  split_ifs <;> simp [h]

theorem writeMemWord_bootflag_clear (p : Profile) (s : State) (a v : Nat)
    (h : s.BOOTFLAG = false) : (writeMemWord p s a v).BOOTFLAG = false := by
  unfold writeMemWord
  exact writeMemByte_bootflag_clear _ _ _ _ (writeMemByte_bootflag_clear _ _ _ _ h)

theorem writeMemLong_bootflag_clear (p : Profile) (s : State) (a v : Nat)
    (h : s.BOOTFLAG = false) : (writeMemLong p s a v).BOOTFLAG = false := by
  unfold writeMemLong
  exact writeMemByte_bootflag_clear _ _ _ _ (writeMemByte_bootflag_clear _ _ _ _
    (writeMemByte_bootflag_clear _ _ _ _ (writeMemByte_bootflag_clear _ _ _ _ h)))

theorem Access.run_bootflag_clear (p : Profile) (s : State) (x : Access)
    (h : s.BOOTFLAG = false) : (Access.run p s x).BOOTFLAG = false := by
  cases x with
  | readByte a => simp [Access.run, readMemByte_bootflag_clear p s a h, h]
  | readWord a => simp [Access.run, readMemWord_bootflag_clear p s a h, h]
  | readLong a => simp [Access.run, readMemLong_bootflag_clear p s a h, h]
  | writeByte a v => exact writeMemByte_bootflag_clear p s a v h
  | writeWord a v => exact writeMemWord_bootflag_clear p s a v h
  | writeLong a v => exact writeMemLong_bootflag_clear p s a v h
  | other f => simp [Access.run, h]

theorem runAccesses_bootflag_clear (p : Profile) (l : List Access) :
    ∀ s : State, s.BOOTFLAG = false → (runAccesses p s l).BOOTFLAG = false := by
  induction l with
  | nil => intro s h; simpa [runAccesses] using h
  | cons x xs ih =>
    intro s h
    have := ih (Access.run p s x) (Access.run_bootflag_clear p s x h)
    simpa [runAccesses] using this

theorem assignFlag_bootflag (s : State) (bit : Nat) (b : Bool) :
    (s.assignFlag bit b).BOOTFLAG = s.BOOTFLAG := rfl

theorem spMinus2_bootflag (s : State) : s.spMinus2.BOOTFLAG = s.BOOTFLAG := by
  unfold State.spMinus2; rfl

theorem spPlus2_bootflag (s : State) : s.spPlus2.BOOTFLAG = s.BOOTFLAG := by
  unfold State.spPlus2; rfl

theorem ipPlus1_bootflag (s : State) : s.ipPlus1.BOOTFLAG = s.BOOTFLAG := by
  unfold State.ipPlus1; rfl

theorem setIp_bootflag (s : State) (v : Nat) : (s.setIp v).BOOTFLAG = s.BOOTFLAG := rfl

theorem setCs_bootflag (s : State) (v : Nat) : (s.setCs v).BOOTFLAG = s.BOOTFLAG := rfl

theorem setFlags_bootflag (s : State) (v : Nat) : (s.setFlags v).BOOTFLAG = s.BOOTFLAG := rfl

theorem pushFrame_bootflag_clear (p : Profile) (s : State) (h : s.BOOTFLAG = false) :
    (pushFrame p s).BOOTFLAG = false := by
  unfold pushFrame
  simp only
  apply writeMemWord_bootflag_clear
  rw [spMinus2_bootflag]
  apply writeMemWord_bootflag_clear
  rw [spMinus2_bootflag]
  apply writeMemWord_bootflag_clear
  rw [spMinus2_bootflag]
  exact h

theorem interruptTransfer_bootflag_clear (H : Header) (p : Profile) (s s' : State)
    (h : s.BOOTFLAG = false) (hs : interruptTransfer H p s = some s') :
    s'.BOOTFLAG = false := by
  unfold interruptTransfer at hs
  by_cases hp : s.pendingInterrupt = -1
  · simp only [hp, ne_eq, not_true_eq_false, if_false, Option.some.injEq] at hs
    rw [← hs]; exact h
  · simp only [ne_eq, hp, not_false_eq_true, if_true] at hs
    have h3 : (((pushFrame p s).assignFlag H.if_ false).assignFlag H.tf false).BOOTFLAG = false :=
      pushFrame_bootflag_clear p s h
    have e1 := readMemWord_bootflag_clear p _
      (vectorAddress (((pushFrame p s).assignFlag H.if_ false).assignFlag H.tf false).pendingInterrupt 0) h3
    split at hs
    · exact absurd hs (by simp)
    · rename_i ip hip
      split at hs
      · exact absurd hs (by simp)
      · rename_i cs hcs
        simp only [Option.some.injEq] at hs
        rw [← hs]
        simp [setIp_bootflag, setCs_bootflag, readMemWord_keeps_clear, h3]

theorem byteArithFlags_bootflag (H : Header) (s : State) (result temp disp : Nat) :
    (byteArithFlags H s result temp disp).BOOTFLAG = s.BOOTFLAG := by
  simp [byteArithFlags, setOverflowFlag, setSignFlag, setZeroFlag, setAdjustFlag,
    setCarryFlag, setParityFlag, State.assignFlag]

theorem case_0x04_bootflag_clear (H : Header) (p : Profile) (s s' : State)
    (h : s.BOOTFLAG = false) (hs : case_0x04 H p s = some s') : s'.BOOTFLAG = false := by
  unfold case_0x04 at hs
  simp only [readMemByte_bootflag_clear p s _ h] at hs
  split at hs
  · exact absurd hs (by simp)
  · simp only [Option.some.injEq] at hs
    rw [← hs]
    simp only [byteArithFlags_bootflag, ipPlus1_bootflag, h]

theorem case_0x2C_bootflag_clear (H : Header) (p : Profile) (s s' : State)
    (h : s.BOOTFLAG = false) (hs : case_0x2C H p s = some s') : s'.BOOTFLAG = false := by
  unfold case_0x2C at hs
  simp only [readMemByte_bootflag_clear p s _ h] at hs
  split at hs
  · exact absurd hs (by simp)
  · simp only [Option.some.injEq] at hs
    rw [← hs]
    simp only [byteArithFlags_bootflag, ipPlus1_bootflag, h]

theorem case_0xCF_bootflag_clear (H : Header) (p : Profile) (s s' : State)
    (h : s.BOOTFLAG = false) (hs : case_0xCF H p s = some s') : s'.BOOTFLAG = false := by
  unfold case_0xCF at hs
  simp only at hs
  split at hs
  · exact absurd hs (by simp)
  · split at hs
    · exact absurd hs (by simp)
    · split at hs
      · exact absurd hs (by simp)
      · simp only [Option.some.injEq] at hs
        rw [← hs]
        simp only [spPlus2_bootflag, setFlags_bootflag]
        apply readMemWord_keeps_clear
        rw [spPlus2_bootflag, setCs_bootflag]
        apply readMemWord_keeps_clear
        rw [spPlus2_bootflag, setIp_bootflag]
        exact readMemWord_keeps_clear p s _ h

/-! ## Lemmas on flag members -/

theorem getFlag_setFlag_same (w bit : Nat) (b : Bool) : getFlag (setFlag w bit b) bit = b := by
  unfold getFlag setFlag
  by_cases h : w.testBit bit = b
  · simp [h]
  · simp only [h, if_false, Nat.testBit_xor, Nat.testBit_two_pow_self]
    cases hb : b <;> cases hw : w.testBit bit <;> simp_all

theorem getFlag_setFlag_other (w bit other : Nat) (b : Bool) (hne : bit ≠ other) :
    getFlag (setFlag w bit b) other = getFlag w other := by
  unfold getFlag setFlag
  by_cases h : w.testBit bit = b
  · simp [h]
  · simp [h, Nat.testBit_xor, Nat.testBit_two_pow_of_ne hne]

theorem getFlag_setFlag_setFlag_false (w i j : Nat) :
    getFlag (setFlag (setFlag w i false) j false) i = false := by
  by_cases hij : j = i
  · subst hij; exact getFlag_setFlag_same _ _ _
  · rw [getFlag_setFlag_other _ _ _ _ hij]; exact getFlag_setFlag_same _ _ _

/-! ## Frame lemmas: what the accessors read and what they leave alone -/

theorem sameSpace_refl (s : State) : sameSpace s s := ⟨rfl, rfl, rfl⟩

theorem sameSpace_trans {s t u : State} (h1 : sameSpace s t) (h2 : sameSpace t u) :
    sameSpace s u :=
  ⟨h1.1.trans h2.1, h1.2.1.trans h2.2.1, h1.2.2.trans h2.2.2⟩

theorem readMemByte_sameSpace (p : Profile) (s t : State) (a : Nat) (h : sameSpace s t) :
    (readMemByte p s a).1 = (readMemByte p t a).1 ∧
    sameSpace (readMemByte p s a).2 (readMemByte p t a).2 := by
  obtain ⟨hb, hram, hrom⟩ := h
  unfold readMemByte sameSpace
  simp only [hb, hram, hrom]
  split_ifs <;> simp [hb, hram, hrom]

theorem readMemWord_sameSpace (p : Profile) (s t : State) (a : Nat) (h : sameSpace s t) :
    (readMemWord p s a).1 = (readMemWord p t a).1 ∧
    sameSpace (readMemWord p s a).2 (readMemWord p t a).2 := by
  have h0 := readMemByte_sameSpace p s t a h
  have h1 := readMemByte_sameSpace p _ _ ((a + 1) % 4294967296) h0.2
  unfold readMemWord
  simp only [h0.1, h1.1]
  split <;> exact ⟨rfl, h1.2⟩

theorem readMemByte_cpu (p : Profile) (s : State) (a : Nat) :
    (readMemByte p s a).2.cpu = s.cpu ∧
    (readMemByte p s a).2.pendingInterrupt = s.pendingInterrupt := by
  unfold readMemByte
  split_ifs <;> simp

theorem readMemWord_cpu (p : Profile) (s : State) (a : Nat) :
    (readMemWord p s a).2.cpu = s.cpu ∧
    (readMemWord p s a).2.pendingInterrupt = s.pendingInterrupt := by
  have h0 := readMemByte_cpu p s a
  have h1 := readMemByte_cpu p (readMemByte p s a).2 ((a + 1) % 4294967296)
  unfold readMemWord
  simp only
  split <;> exact ⟨h1.1.trans h0.1, h1.2.trans h0.2⟩

theorem writeMemByte_cpu (p : Profile) (s : State) (a v : Nat) :
    (writeMemByte p s a v).cpu = s.cpu ∧
    (writeMemByte p s a v).pendingInterrupt = s.pendingInterrupt := by
  unfold writeMemByte
  split_ifs <;> simp

theorem writeMemWord_cpu (p : Profile) (s : State) (a v : Nat) :
    (writeMemWord p s a v).cpu = s.cpu ∧
    (writeMemWord p s a v).pendingInterrupt = s.pendingInterrupt := by
  unfold writeMemWord
  simp only
  exact ⟨(writeMemByte_cpu p _ _ _).1.trans (writeMemByte_cpu p _ _ _).1,
    (writeMemByte_cpu p _ _ _).2.trans (writeMemByte_cpu p _ _ _).2⟩

theorem spMinus2_pending (s : State) : s.spMinus2.pendingInterrupt = s.pendingInterrupt := by
  unfold State.spMinus2; rfl

theorem pushFrame_pending (p : Profile) (s : State) :
    (pushFrame p s).pendingInterrupt = s.pendingInterrupt := by
  unfold pushFrame
  simp only [(writeMemWord_cpu p _ _ _).2, spMinus2_pending]

theorem vectorAddress_nat (v : Nat) (k : Nat) (hv : v ≤ 255) (hk : k ≤ 3) :
    vectorAddress (v : Int) (k : Int) = 4 * v + k := by
  unfold vectorAddress
  omega

/-! ## Address space: round trip, routing, boot latch -/

/-- C1, evaluated on the code: on the Master 512 profile with `BOOTFLAG` clear,
addresses 0 and 1 are RAM-mapped, and `writeWord(0, 0x1234)` followed by
`readWord(0)` returns `0x3412`: `writeMemWord` stores the high byte first while
`readMemWord` reads the low byte first. The long accessors, which both use the
low byte first, do round-trip at the same address. -/
theorem writeWord_readWord_swaps_bytes :
    state0.BOOTFLAG = false ∧
    masked acorn186 0 < masked acorn186 acorn186.TUBE_ULA_ADDR ∧
    masked acorn186 1 < masked acorn186 acorn186.TUBE_ULA_ADDR ∧
    (readMemWord acorn186 (writeMemWord acorn186 state0 0 0x1234) 0).1 = some 0x3412 ∧
    (readMemLong acorn186 (writeMemLong acorn186 state0 0 0x12345678) 0).1
      = some 0x12345678 := by
  decide

/-- C2: `readByte` returns `rom[addr & (rom_size-1)]` while `BOOTFLAG` is set;
with `BOOTFLAG` clear it returns `ram[addr & (ram_size-1)]` when the masked
address is below the masked tube-window address, and `rom[addr & (rom_size-1)]`
when the masked address is at or above the masked ROM base and not below the
tube window, which is every such address on a profile whose masked tube window
does not lie above its masked ROM base, as on the three constructed profiles.
The index is the address modulo the size for a power-of-two size. -/
theorem readMemByte_regions (p : Profile) (s : State) (a : Nat) :
    (s.BOOTFLAG = true →
      (readMemByte p s a).1 = some (s.romMemory (a &&& sizeMinusOne p.ROM_SIZE)).val) ∧
    (s.BOOTFLAG = false → masked p a < masked p p.TUBE_ULA_ADDR →
      (readMemByte p s a).1 = some (s.ramMemory (a &&& sizeMinusOne p.RAM_SIZE)).val) ∧
    (s.BOOTFLAG = false → masked p p.TUBE_ULA_ADDR ≤ masked p a →
      masked p p.ROM_ADDR ≤ masked p a →
      (readMemByte p s a).1 = some (s.romMemory (a &&& sizeMinusOne p.ROM_SIZE)).val) ∧
    (s.BOOTFLAG = false → masked p p.TUBE_ULA_ADDR ≤ masked p p.ROM_ADDR →
      masked p p.ROM_ADDR ≤ masked p a →
      (readMemByte p s a).1 = some (s.romMemory (a &&& sizeMinusOne p.ROM_SIZE)).val) ∧
    (∀ arch : Architecture,
      masked (ix86 arch) (ix86 arch).TUBE_ULA_ADDR ≤ masked (ix86 arch) (ix86 arch).ROM_ADDR) ∧
    (∀ k, k < 32 → p.ROM_SIZE = 2 ^ k → a &&& sizeMinusOne p.ROM_SIZE = a % p.ROM_SIZE) ∧
    (∀ k, k < 32 → p.RAM_SIZE = 2 ^ k → a &&& sizeMinusOne p.RAM_SIZE = a % p.RAM_SIZE) := by
  refine ⟨?_, ?_, ?_, ?_, ?_, ?_, ?_⟩
  · intro h
    unfold readMemByte
    simp [h]
  · intro h ht
    unfold readMemByte
    simp [h, ht]
  · intro h ht hr
    unfold readMemByte
    simp [h, Nat.not_lt.mpr ht, hr]
  · intro h ho hr
    unfold readMemByte
    simp [h, Nat.not_lt.mpr (Nat.le_trans ho hr), hr]
  · intro arch
    cases arch <;> decide
  · intro k hk hsz
    rw [hsz, sizeMinusOne_two_pow k hk, Nat.and_pow_two_sub_one_eq_mod]
  · intro k hk hsz
    rw [hsz, sizeMinusOne_two_pow k hk, Nat.and_pow_two_sub_one_eq_mod]

/-- Witness for C2 on the Master 512 profile: a boot-time read, a RAM read at
address 5, a ROM read at `0xFFFF0`, and the wrap of `0xFFFF0` into the ROM. -/
theorem readMemByte_regions_witness :
    (readMemByte acorn186 { state0 with BOOTFLAG := true } 0x12345).1 = some 0 ∧
    (readMemByte acorn186 state0 5).1 = some 0 ∧
    (readMemByte acorn186 state0 0xFFFF0).1 = some 0 ∧
    0xFFFF0 &&& sizeMinusOne acorn186.ROM_SIZE = 0xFFFF0 % acorn186.ROM_SIZE :=
  ⟨(readMemByte_regions acorn186 { state0 with BOOTFLAG := true } 0x12345).1 rfl,
   (readMemByte_regions acorn186 state0 5).2.1 rfl (by decide),
   (readMemByte_regions acorn186 state0 0xFFFF0).2.2.2.1 rfl (by decide) (by decide),
   (readMemByte_regions acorn186 state0 0xFFFF0).2.2.2.2.2.1 14 (by decide) (by decide)⟩

/-- C3: with `BOOTFLAG` set, one `readByte` or `writeByte` at address `a` leaves
`BOOTFLAG` clear if and only if the masked address is at or above the masked
ROM base; an access below the masked ROM base leaves it set. -/
theorem bootflag_cleared_iff (p : Profile) (s : State) (a v : Nat)
    (h : s.BOOTFLAG = true) :
    ((readMemByte p s a).2.BOOTFLAG = false ↔ masked p a ≥ masked p p.ROM_ADDR) ∧
    ((writeMemByte p s a v).BOOTFLAG = false ↔ masked p a ≥ masked p p.ROM_ADDR) ∧
    (masked p a < masked p p.ROM_ADDR →
      (readMemByte p s a).2.BOOTFLAG = true ∧ (writeMemByte p s a v).BOOTFLAG = true) := by
  unfold readMemByte writeMemByte
  simp only [h, if_true]
  by_cases hr : masked p a ≥ masked p p.ROM_ADDR
  · simp [hr]
  · simp [hr, h]

/-- Witness for C3 on the Master 512 profile: a read at `0xFFFF0` clears the
latch, a write at `0x100` keeps it. -/
theorem bootflag_cleared_iff_witness :
    (readMemByte acorn186 { state0 with BOOTFLAG := true } 0xFFFF0).2.BOOTFLAG = false ∧
    (writeMemByte acorn186 { state0 with BOOTFLAG := true } 0x100 7).BOOTFLAG = true :=
  ⟨(bootflag_cleared_iff acorn186 { state0 with BOOTFLAG := true } 0xFFFF0 7 rfl).1.mpr
     (by decide),
   ((bootflag_cleared_iff acorn186 { state0 with BOOTFLAG := true } 0x100 7 rfl).2.2
     (by decide)).2⟩

theorem pcPlus1_bootflag (H : Header) (s : State) : (State.pcPlus1 H s).BOOTFLAG = s.BOOTFLAG := by
  unfold State.pcPlus1 State.ipPlus1
  split_ifs <;> rfl

theorem spAdd_bootflag (s : State) (k : Nat) : (s.spAdd k).BOOTFLAG = s.BOOTFLAG := by
  unfold State.spAdd; rfl

theorem arbitrate_bootflag (s : State) : (arbitrate s).BOOTFLAG = s.BOOTFLAG := by
  unfold arbitrate
  simp only
  split_ifs <;> rfl

theorem trapCheck_bootflag (H : Header) (s : State) : (trapCheck H s).BOOTFLAG = s.BOOTFLAG := by
  unfold trapCheck
  split_ifs <;> rfl

theorem fetch_bootflag_clear (H : Header) (p : Profile) (s s' : State)
    (h : s.BOOTFLAG = false) (hs : fetch H p s = some s') : s'.BOOTFLAG = false := by
  have key : ∀ u : State, u.BOOTFLAG = false →
      (match (readMemByte p u (getAddress u .CS .IP)).1 with
        | none => none
        | some b =>
          some (State.pcPlus1 H
            { (readMemByte p u (getAddress u .CS .IP)).2 with
              cpu := { (readMemByte p u (getAddress u .CS .IP)).2.cpu with
                       instruction_reg := b } })) = some s' → s'.BOOTFLAG = false := by
    intro u hu hm
    rw [readMemByte_bootflag_clear p u _ hu] at hm
    split at hm
    · exact absurd hm (by simp)
    · simp only [Option.some.injEq] at hm
      rw [← hm, pcPlus1_bootflag]
      exact hu
  unfold fetch at hs
  by_cases hr : s.rep = true
  · rw [if_pos hr] at hs
    refine key _ ?_ hs
    exact h
  · rw [if_neg hr] at hs
    refine key _ ?_ hs
    exact h

theorem pushWord_bootflag_clear (p : Profile) (s : State) (v : Nat) (h : s.BOOTFLAG = false) :
    (pushWord p s v).BOOTFLAG = false := by
  unfold pushWord
  simp only
  apply writeMemWord_bootflag_clear
  rw [spMinus2_bootflag]
  exact h

theorem case_0x60_bootflag_clear (p : Profile) (s s' : State)
    (h : s.BOOTFLAG = false) (hs : case_0x60 p s = some s') : s'.BOOTFLAG = false := by
  have h8 : ∀ (t : State) (v1 v2 v3 v4 v5 v6 v7 v8 : Nat), t.BOOTFLAG = false →
      (pushWord p (pushWord p (pushWord p (pushWord p (pushWord p (pushWord p (pushWord p
        (pushWord p t v1) v2) v3) v4) v5) v6) v7) v8).BOOTFLAG = false := by
    intro t v1 v2 v3 v4 v5 v6 v7 v8 ht
    repeat apply pushWord_bootflag_clear
    exact ht
  obtain ⟨ct, ft, c1, c2, c3, c4⟩ := p
  cases ct <;> simp only [case_0x60, Option.some.injEq] at hs <;> rw [← hs] <;>
    first
      | exact h
      | exact h8 _ _ _ _ _ _ _ _ _ h

theorem readStackWord_bootflag_clear (p : Profile) (s : State) (r : Nat × State)
    (h : s.BOOTFLAG = false) (hs : readStackWord p s = some r) : r.2.BOOTFLAG = false := by
  unfold readStackWord at hs
  simp only [readMemWord_bootflag_clear p s _ h] at hs
  split at hs
  · exact absurd hs (by simp)
  · simp only [Option.some.injEq] at hs
    rw [← hs]
    exact h

theorem case_0x61_bootflag_clear (p : Profile) (s s' : State)
    (h : s.BOOTFLAG = false) (hs : case_0x61 p s = some s') : s'.BOOTFLAG = false := by
  obtain ⟨ct, ft, c1, c2, c3, c4⟩ := p
  cases ct <;> simp only [case_0x61, Option.some.injEq, Option.bind_eq_bind,
      Option.bind_eq_some, Option.pure_def] at hs
  · rw [← hs]; exact h
  · rw [← hs]; exact h
  all_goals
    obtain ⟨r1, h1, r2, h2, r3, h3, r4, h4, r5, h5, r6, h6, r7, h7, hs⟩ := hs
    rw [← hs]
    show (State.spAdd _ 2).BOOTFLAG = false
    rw [spAdd_bootflag]
    refine readStackWord_bootflag_clear _ _ r7 ?_ h7
    rw [spAdd_bootflag]
    refine readStackWord_bootflag_clear _ _ r6 ?_ h6
    rw [spAdd_bootflag]
    refine readStackWord_bootflag_clear _ _ r5 ?_ h5
    rw [spAdd_bootflag]
    refine readStackWord_bootflag_clear _ _ r4 ?_ h4
    rw [spAdd_bootflag]
    refine readStackWord_bootflag_clear _ _ r3 ?_ h3
    rw [spAdd_bootflag]
    refine readStackWord_bootflag_clear _ _ r2 ?_ h2
    rw [spAdd_bootflag]
    refine readStackWord_bootflag_clear _ _ r1 ?_ h1
    exact h

theorem case_0x68_0x6A_bootflag_clear (p : Profile) (s s' : State)
    (h : s.BOOTFLAG = false) (hs : case_0x68_0x6A p s = some s') : s'.BOOTFLAG = false := by
  have hb : ∀ (t : State), t.BOOTFLAG = false →
      (match (readMemByte p t (getAddress t .CS .IP)).1 with
        | none => none
        | some b =>
          some { (writeMemByte p (readMemByte p t (getAddress t .CS .IP)).2
                    (getAddress t .SS .SP) b).ipPlus1 with
                 Cycles := (writeMemByte p (readMemByte p t (getAddress t .CS .IP)).2
                    (getAddress t .SS .SP) b).ipPlus1.Cycles + 2 }) = some s' →
      s'.BOOTFLAG = false := by
    intro t ht hm
    rw [readMemByte_bootflag_clear p t _ ht] at hm
    split at hm
    · exact absurd hm (by simp)
    · simp only [Option.some.injEq] at hm
      rw [← hm]
      show (writeMemByte p t _ _).ipPlus1.BOOTFLAG = false
      rw [ipPlus1_bootflag]
      exact writeMemByte_bootflag_clear p t _ _ ht
  have hw : ∀ (t : State), t.BOOTFLAG = false →
      (match (readMemWord p t (getAddress t .CS .IP)).1 with
        | none => none
        | some v =>
          some { ({ writeMemWord p (readMemWord p t (getAddress t .CS .IP)).2
                      (getAddress t .SS .SP) v with
                    cpu := { (writeMemWord p (readMemWord p t (getAddress t .CS .IP)).2
                      (getAddress t .SS .SP) v).cpu with
                        ip := ((writeMemWord p (readMemWord p t (getAddress t .CS .IP)).2
                          (getAddress t .SS .SP) v).cpu.ip + 2) % 65536 } } : State) with
                 Cycles := (writeMemWord p (readMemWord p t (getAddress t .CS .IP)).2
                      (getAddress t .SS .SP) v).Cycles + 2 }) = some s' →
      s'.BOOTFLAG = false := by
    intro t ht hm
    rw [readMemWord_bootflag_clear p t _ ht] at hm
    split at hm
    · exact absurd hm (by simp)
    · simp only [Option.some.injEq] at hm
      rw [← hm]
      exact writeMemWord_bootflag_clear p t _ _ ht
  obtain ⟨ct, ft, c1, c2, c3, c4⟩ := p
  cases ct <;> simp only [case_0x68_0x6A] at hs
  · simp only [Option.some.injEq] at hs; rw [← hs]; exact h
  · simp only [Option.some.injEq] at hs; rw [← hs]; exact h
  all_goals
    split_ifs at hs
    · refine hb _ ?_ hs
      exact h
    · refine hw _ ?_ hs
      rw [spMinus2_bootflag]; exact h

theorem gated_bootflag_clear (f : State → Option State) (p : Profile) (s s' : State)
    (hf : ∀ t t', t.BOOTFLAG = false → f t = some t' → t'.BOOTFLAG = false)
    (h : s.BOOTFLAG = false) :
    (case_0x0F f p s = some s' → s'.BOOTFLAG = false) ∧
    (case_0x62 f p s = some s' → s'.BOOTFLAG = false) ∧
    (case_0x69_0x6B f p s = some s' → s'.BOOTFLAG = false) ∧
    (case_0x6C_0x6D f p s = some s' → s'.BOOTFLAG = false) ∧
    (case_0x6E_0x6F f p s = some s' → s'.BOOTFLAG = false) := by
  have hsup := hf s s' h
  have hdef : ∀ v : Int, some ({ s with pendingInterrupt := v } : State) = some s' →
      s'.BOOTFLAG = false := by
    intro v hv
    simp only [Option.some.injEq] at hv
    rw [← hv]; exact h
  obtain ⟨ct, ft, c1, c2, c3, c4⟩ := p
  refine ⟨?_, ?_, ?_, ?_, ?_⟩ <;> cases ct <;>
    first
      | exact hsup
      | exact hdef _

theorem ite_keeps_clear (c : Prop) [Decidable c] (a b : Option State) (s' : State)
    (ha : a = some s' → s'.BOOTFLAG = false) (hb : b = some s' → s'.BOOTFLAG = false) :
    (if c then a else b) = some s' → s'.BOOTFLAG = false := by
  split_ifs
  · exact ha
  · exact hb

theorem opcodeSwitch_bootflag_clear (rest : Nat → State → Option State) (H : Header)
    (p : Profile) (s s' : State)
    (hrest : ∀ op t t', t.BOOTFLAG = false → rest op t = some t' → t'.BOOTFLAG = false)
    (h : s.BOOTFLAG = false) (hs : opcodeSwitch rest H p s = some s') :
    s'.BOOTFLAG = false := by
  have hst : ∀ t : State, t.BOOTFLAG = s.BOOTFLAG → some t = some s' → s'.BOOTFLAG = false := by
    intro t ht hv
    simp only [Option.some.injEq] at hv
    rw [← hv, ht]; exact h
  have g := fun op => gated_bootflag_clear (rest op) p s s' (hrest op) h
  revert hs
  unfold opcodeSwitch
  dsimp only
  refine ite_keeps_clear _ _ _ s' (case_0x04_bootflag_clear H p s s' h) ?_
  refine ite_keeps_clear _ _ _ s' (g _).1 ?_
  refine ite_keeps_clear _ _ _ s' (case_0x2C_bootflag_clear H p s s' h) ?_
  refine ite_keeps_clear _ _ _ s' (case_0x60_bootflag_clear p s s' h) ?_
  refine ite_keeps_clear _ _ _ s' (case_0x61_bootflag_clear p s s' h) ?_
  refine ite_keeps_clear _ _ _ s' (g _).2.1 ?_
  refine ite_keeps_clear _ _ _ s' (case_0x68_0x6A_bootflag_clear p s s' h) ?_
  refine ite_keeps_clear _ _ _ s' (g _).2.2.1 ?_
  refine ite_keeps_clear _ _ _ s' (g _).2.2.2.1 ?_
  refine ite_keeps_clear _ _ _ s' (g _).2.2.2.2 ?_
  refine ite_keeps_clear _ _ _ s' (hst _ (by unfold case_0x98; rfl)) ?_
  refine ite_keeps_clear _ _ _ s' (case_0xCF_bootflag_clear H p s s' h) ?_
  refine ite_keeps_clear _ _ _ s' (hst _ (by unfold case_0xF4; rfl)) ?_
  exact hrest _ s s' h

theorem dispatch_bootflag_clear (rest : Nat → State → Option State) (H : Header)
    (p : Profile) (s s' : State)
    (hrest : ∀ op t t', t.BOOTFLAG = false → rest op t = some t' → t'.BOOTFLAG = false)
    (h : s.BOOTFLAG = false) (hs : dispatch rest H p s = some s') :
    s'.BOOTFLAG = false := by
  unfold dispatch at hs
  cases hf : fetch H p s with
  | none => rw [hf] at hs; exact absurd hs (by simp)
  | some s1 =>
    simp only [hf] at hs
    have h1 := fetch_bootflag_clear H p s s1 h hf
    cases ho : opcodeSwitch rest H p s1 with
    | none => simp only [ho] at hs; exact absurd hs (by simp)
    | some s2 =>
      simp only [ho, Option.some.injEq] at hs
      rw [← hs, trapCheck_bootflag]
      exact opcodeSwitch_bootflag_clear rest H p s1 s2 hrest h1 ho

theorem iteration_bootflag_clear (rest : Nat → State → Option State) (H : Header)
    (p : Profile) (s s' : State)
    (hrest : ∀ op t t', t.BOOTFLAG = false → rest op t = some t' → t'.BOOTFLAG = false)
    (h : s.BOOTFLAG = false) (hs : iteration rest H p s = some s') :
    s'.BOOTFLAG = false := by
  unfold iteration at hs
  cases ht : interruptTransfer H p (arbitrate s) with
  | none => rw [ht] at hs; exact absurd hs (by simp)
  | some s1 =>
    rw [ht] at hs
    have h1 : s1.BOOTFLAG = false :=
      interruptTransfer_bootflag_clear H p _ s1 ((arbitrate_bootflag s).trans h) ht
    simp only at hs
    split_ifs at hs
    · exact dispatch_bootflag_clear rest H p s1 s' hrest h1 hs
    · simp only [Option.some.injEq] at hs
      rw [← hs]; exact h1

theorem iterations_bootflag_clear (rest : Nat → State → Option State) (H : Header)
    (p : Profile)
    (hrest : ∀ op t t', t.BOOTFLAG = false → rest op t = some t' → t'.BOOTFLAG = false)
    (n : Nat) : ∀ s s' : State, s.BOOTFLAG = false → iterations rest H p n s = some s' →
      s'.BOOTFLAG = false := by
  induction n with
  | zero =>
    intro s s' h hs
    simp only [iterations, Option.some.injEq] at hs
    rw [← hs]; exact h
  | succ n ih =>
    intro s s' h hs
    simp only [iterations, Option.bind_eq_some] at hs
    obtain ⟨s1, h1, h2⟩ := hs
    exact ih s1 s' (iteration_bootflag_clear rest H p s s1 hrest h h1) h2

theorem flagHelpers_bootflag (H : Header) (s : State) (w : Bool) (r a b : Nat) :
    (setOverflowFlag H s w r a b).BOOTFLAG = s.BOOTFLAG ∧
    (setSignFlag H s w r).BOOTFLAG = s.BOOTFLAG ∧
    (setZeroFlag H s r).BOOTFLAG = s.BOOTFLAG ∧
    (setAdjustFlag H s r a b).BOOTFLAG = s.BOOTFLAG ∧
    (setCarryFlag H s w r).BOOTFLAG = s.BOOTFLAG ∧
    (setParityFlag H s w r).BOOTFLAG = s.BOOTFLAG := by
  refine ⟨?_, ?_, rfl, rfl, ?_, ?_⟩
  · unfold setOverflowFlag
    split_ifs <;> rfl
  · unfold setSignFlag
    split_ifs <;> rfl
  · unfold setCarryFlag
    split_ifs <;> rfl
  · unfold setParityFlag
    split_ifs <;> rfl

theorem case_0x40_bootflag (H : Header) (p : Profile) (s : State) :
    (case_0x40 H p s).BOOTFLAG = s.BOOTFLAG := by
  have f := fun t => flagHelpers_bootflag H t true ((s.cpu.axx + 1) % 4294967296) s.cpu.axx 1
  unfold case_0x40
  show (setParityFlag H _ _ _).BOOTFLAG = _
  rw [(f _).2.2.2.2.2, (f _).2.2.2.1, (f _).2.2.1, (f _).2.1, (f _).1]

theorem case_0xD4_bootflag_clear (p : Profile) (s s' : State)
    (h : s.BOOTFLAG = false) (hs : case_0xD4 p s = some s') : s'.BOOTFLAG = false := by
  unfold case_0xD4 at hs
  simp only [readMemByte_bootflag_clear p s _ h] at hs
  split at hs
  · exact absurd hs (by simp)
  · split_ifs at hs
    simp only [Option.some.injEq] at hs
    rw [← hs]
    exact h

theorem getOperandValue_bootflag_clear (ipRel : Nat → Option OffReg) (p : Profile)
    (s : State) (mod rm : Nat) (r : Nat × State) (h : s.BOOTFLAG = false)
    (hs : getOperandValue ipRel p s mod rm = some r) : r.2.BOOTFLAG = false := by
  unfold getOperandValue at hs
  split_ifs at hs
  · simp only at hs
    split at hs
    · rename_i o1 o2 _ _
      have e1 := readMemByte_bootflag_clear p
        ({ s with cpu := { s.cpu with ip := (s.cpu.ip + 2) % 65536 } } : State)
      simp only [e1 _ h] at hs
      split at hs
      · simp only [Option.some.injEq] at hs
        rw [← hs]; exact h
      · exact absurd hs (by simp)
    · exact absurd hs (by simp)
  · simp only [Option.some.injEq] at hs
    rw [← hs]; exact h
  · simp only [readMemByte_bootflag_clear p s _ h] at hs
    split at hs
    · exact absurd hs (by simp)
    · simp only [Option.some.injEq] at hs
      rw [← hs, ipPlus1_bootflag]; exact h
  · simp only [readMemWord_bootflag_clear p s _ h] at hs
    split at hs
    · exact absurd hs (by simp)
    · simp only [Option.some.injEq] at hs
      rw [← hs]; exact h
  · simp only [Option.some.injEq] at hs
    rw [← hs]; exact h

theorem restModelled_bootflag_clear (H : Header) (p : Profile) (op : Nat) (t t' : State)
    (h : t.BOOTFLAG = false) (hs : restModelled H p op t = some t') : t'.BOOTFLAG = false := by
  revert hs
  unfold restModelled
  refine ite_keeps_clear _ _ _ t' ?_ ?_
  · intro hv
    simp only [Option.some.injEq] at hv
    rw [← hv, case_0x40_bootflag]; exact h
  refine ite_keeps_clear _ _ _ t' (case_0xD4_bootflag_clear p t t' h) ?_
  refine ite_keeps_clear _ _ _ t' ?_ (fun hv => absurd hv (by simp))
  intro hv
  unfold case_0xF6_0xF7 at hv
  simp only [readMemByte_bootflag_clear p t _ h] at hv
  split at hv
  · exact absurd hv (by simp)
  · split_ifs at hv
    split at hv
    · exact absurd hv (by simp)
    · rename_i disp s2 hg
      split_ifs at hv
      simp only [Option.some.injEq] at hv
      rw [← hv]
      exact getOperandValue_bootflag_clear noIpRel p _ _ _ (disp, s2)
        ((ipPlus1_bootflag t).trans h) hg

/-- C4: once `BOOTFLAG` is clear, it stays clear under each of the six
accessors, under the interrupt arbitration and transfer at the head of an
`Exec` iteration, under the modelled opcode bodies, and under every finite
sequence of accessor calls interleaved with updates outside the address
space; `Reset` sets it. It stays clear under the opcode fetch, and, for any
`rest` whose cases keep a clear latch clear, under the dispatch, under a whole
pass of the loop of `Exec` and under any number of passes; the cases of
`restModelled` (INC AX, AAM, the IDIV path) are such a `rest`. -/
theorem bootflag_clear_stable (H : Header) (p : Profile) (s : State)
    (h : s.BOOTFLAG = false) :
    (∀ a, (readMemByte p s a).2.BOOTFLAG = false) ∧
    (∀ a, (readMemWord p s a).2.BOOTFLAG = false) ∧
    (∀ a, (readMemLong p s a).2.BOOTFLAG = false) ∧
    (∀ a v, (writeMemByte p s a v).BOOTFLAG = false) ∧
    (∀ a v, (writeMemWord p s a v).BOOTFLAG = false) ∧
    (∀ a v, (writeMemLong p s a v).BOOTFLAG = false) ∧
    (∀ s', interruptTransfer H p (arbitrate s) = some s' → s'.BOOTFLAG = false) ∧
    (∀ s', case_0x04 H p s = some s' → s'.BOOTFLAG = false) ∧
    (∀ s', case_0x2C H p s = some s' → s'.BOOTFLAG = false) ∧
    (∀ s', case_0xCF H p s = some s' → s'.BOOTFLAG = false) ∧
    (∀ l, (runAccesses p s l).BOOTFLAG = false) ∧
    (∀ firmware, (Reset p firmware s).BOOTFLAG = true) ∧
    (∀ s', fetch H p s = some s' → s'.BOOTFLAG = false) ∧
    (∀ rest : Nat → State → Option State,
      (∀ op t t', t.BOOTFLAG = false → rest op t = some t' → t'.BOOTFLAG = false) →
      (∀ s', opcodeSwitch rest H p s = some s' → s'.BOOTFLAG = false) ∧
      (∀ s', dispatch rest H p s = some s' → s'.BOOTFLAG = false) ∧
      (∀ s', iteration rest H p s = some s' → s'.BOOTFLAG = false) ∧
      (∀ n s', iterations rest H p n s = some s' → s'.BOOTFLAG = false)) ∧
    (∀ op t t', t.BOOTFLAG = false → restModelled H p op t = some t' →
      t'.BOOTFLAG = false) := by
  have harb : (arbitrate s).BOOTFLAG = false := by
    unfold arbitrate
    simp only
    split_ifs <;> simp [h]
  refine ⟨?_, ?_, ?_, ?_, ?_, ?_, ?_, ?_, ?_, ?_, ?_, ?_, ?_, ?_, ?_⟩
  · intro a; rw [readMemByte_bootflag_clear p s a h]; exact h
  · intro a; rw [readMemWord_bootflag_clear p s a h]; exact h
  · intro a; rw [readMemLong_bootflag_clear p s a h]; exact h
  · intro a v; exact writeMemByte_bootflag_clear p s a v h
  · intro a v; exact writeMemWord_bootflag_clear p s a v h
  · intro a v; exact writeMemLong_bootflag_clear p s a v h
  · intro s' hs; exact interruptTransfer_bootflag_clear H p _ s' harb hs
  · intro s' hs; exact case_0x04_bootflag_clear H p s s' h hs
  · intro s' hs; exact case_0x2C_bootflag_clear H p s s' h hs
  · intro s' hs; exact case_0xCF_bootflag_clear H p s s' h hs
  · intro l; exact runAccesses_bootflag_clear p l s h
  · intro firmware; simp [Reset]
  · intro s' hs; exact fetch_bootflag_clear H p s s' h hs
  · intro rest hrest
    exact ⟨fun s' hs => opcodeSwitch_bootflag_clear rest H p s s' hrest h hs,
      fun s' hs => dispatch_bootflag_clear rest H p s s' hrest h hs,
      fun s' hs => iteration_bootflag_clear rest H p s s' hrest h hs,
      fun n s' hs => iterations_bootflag_clear rest H p hrest n s s' h hs⟩
  · intro op t t' ht hs; exact restModelled_bootflag_clear H p op t t' ht hs

/-- Witness for C4: from the state with `BOOTFLAG` clear, a write at the ROM
base, then a read there, keeps the latch clear; `Reset` sets it; and the pass
that runs `ADD AL, 0x01` from `stateProg`, and that pass followed by the `HLT`
pass, have results with the latch clear. -/
theorem bootflag_clear_stable_witness :
    (runAccesses acorn186 state0 [.writeByte 0xFFFF0 7, .readWord 0xFFFF0]).BOOTFLAG = false ∧
    (Reset acorn186 none state0).BOOTFLAG = true ∧
    (iteration (restModelled header8086 acorn186) header8086 acorn186 stateProg).isSome
      = true ∧
    (∀ s', iteration (restModelled header8086 acorn186) header8086 acorn186 stateProg
        = some s' → s'.BOOTFLAG = false) ∧
    (iterations (restModelled header8086 acorn186) header8086 acorn186 2 stateProg).isSome
      = true ∧
    (∀ s', iterations (restModelled header8086 acorn186) header8086 acorn186 2 stateProg
        = some s' → s'.BOOTFLAG = false) :=
  ⟨(bootflag_clear_stable header8086 acorn186 state0 rfl).2.2.2.2.2.2.2.2.2.2.1 _,
   (bootflag_clear_stable header8086 acorn186 state0 rfl).2.2.2.2.2.2.2.2.2.2.2.1 none,
   by decide,
   ((bootflag_clear_stable header8086 acorn186 stateProg rfl).2.2.2.2.2.2.2.2.2.2.2.2.2.1
      (restModelled header8086 acorn186)
      (fun op t t' ht hs => restModelled_bootflag_clear header8086 acorn186 op t t' ht hs)).2.2.1,
   by decide,
   ((bootflag_clear_stable header8086 acorn186 stateProg rfl).2.2.2.2.2.2.2.2.2.2.2.2.2.1
      (restModelled header8086 acorn186)
      (fun op t t' ht hs => restModelled_bootflag_clear header8086 acorn186 op t t' ht hs)).2.2.2
      2⟩

/-- C5: `writeByte` changes neither buffer and makes no call to the parasite-side
interface while `BOOTFLAG` is set (only the latch can change), and with
`BOOTFLAG` clear it leaves the whole state as it is when the masked address is
at or above the masked ROM base, on a profile whose masked tube-window address
is below its masked ROM base. -/
theorem writeMemByte_discarded (p : Profile) (s : State) (a v : Nat) :
    (s.BOOTFLAG = true →
      (writeMemByte p s a v).ramMemory = s.ramMemory ∧
      (writeMemByte p s a v).romMemory = s.romMemory ∧
      (writeMemByte p s a v).tubeWrites = s.tubeWrites) ∧
    (s.BOOTFLAG = false → masked p p.TUBE_ULA_ADDR < masked p p.ROM_ADDR →
      masked p a ≥ masked p p.ROM_ADDR →
      writeMemByte p s a v = s) := by
  constructor
  · intro h
    unfold writeMemByte
    simp only [h, if_true]
    split_ifs <;> simp
  · intro h ho hr
    unfold writeMemByte
    have hn : ¬ masked p a ≤ masked p p.TUBE_ULA_ADDR := by omega
    simp [h, hn, hr]

/-- Witness for C5 on the Master 512 profile: a write at `0xFFFF0` with the
latch clear changes nothing, and a boot-time write leaves the RAM as it is. -/
theorem writeMemByte_discarded_witness :
    writeMemByte acorn186 state0 0xFFFF0 7 = state0 ∧
    (writeMemByte acorn186 { state0 with BOOTFLAG := true } 0x100 7).ramMemory
      = state0.ramMemory :=
  ⟨(writeMemByte_discarded acorn186 state0 0xFFFF0 7).2 rfl (by decide) (by decide),
   ((writeMemByte_discarded acorn186 { state0 with BOOTFLAG := true } 0x100 7).1 rfl).1⟩

/-! ## Interrupt transfer -/

/-- C6: if vector `v` (0..255) is pending at the top of an iteration, once the
lines are sampled, the transfer completes, and afterwards the interrupt-enable
and trap members are clear, `ip` is the word `readWord(4*v)` and `cs` the word
`readWord(4*v+2)`, read in that order from the address space as the three
pushes leave it, and no vector is pending; with the non-maskable line
asserted the vector is 2, so the words come from addresses 8 and 10. -/
theorem interruptTransfer_loads_vector (H : Header) (p : Profile) (s : State)
    (v ipv csv : Nat) (hv : v ≤ 255)
    (hpend : (arbitrate s).pendingInterrupt = (v : Int))
    (hip : (readMemWord p (pushFrame p (arbitrate s)) (4 * v)).1 = some ipv)
    (hcs : (readMemWord p (readMemWord p (pushFrame p (arbitrate s)) (4 * v)).2
      (4 * v + 2)).1 = some csv) :
    ∃ s', interruptTransfer H p (arbitrate s) = some s' ∧
      getFlag s'.cpu.flags H.if_ = false ∧ getFlag s'.cpu.flags H.tf = false ∧
      s'.cpu.ip = ipv ∧ s'.cpu.cs = csv ∧ s'.pendingInterrupt = -1 ∧
      (s.cpu.nmi = true → v = 2) := by
  have hne : (arbitrate s).pendingInterrupt ≠ -1 := by rw [hpend]; omega
  have hpf : (pushFrame p (arbitrate s)).pendingInterrupt = (v : Int) := by
    rw [pushFrame_pending, hpend]
  generalize hs1 : pushFrame p (arbitrate s) = s1 at hip hcs hpf
  -- the state in which the first vector word is read
  have hs3 : sameSpace ((s1.assignFlag H.if_ false).assignFlag H.tf false) s1 := ⟨rfl, rfl, rfl⟩
  have hp3 : ((s1.assignFlag H.if_ false).assignFlag H.tf false).pendingInterrupt = (v : Int) :=
    hpf
  have hf3 : ((s1.assignFlag H.if_ false).assignFlag H.tf false).cpu.flags
      = setFlag (setFlag s1.cpu.flags H.if_ false) H.tf false := rfl
  generalize hs3def : (s1.assignFlag H.if_ false).assignFlag H.tf false = s3 at hs3 hp3 hf3
  have ha0 : vectorAddress s3.pendingInterrupt 0 = 4 * v := by
    rw [hp3]; exact vectorAddress_nat v 0 hv (by decide)
  have hr1 := readMemWord_sameSpace p s3 s1 (4 * v) hs3
  have hc1 := readMemWord_cpu p s3 (4 * v)
  have hv1 : (readMemWord p s3 (4 * v)).1 = some ipv := hr1.1.trans hip
  -- the state in which the second vector word is read
  have hs4 : sameSpace ((readMemWord p s3 (4 * v)).2.setIp ipv) (readMemWord p s1 (4 * v)).2 :=
    hr1.2
  have hp4 : ((readMemWord p s3 (4 * v)).2.setIp ipv).pendingInterrupt = (v : Int) :=
    hc1.2.trans hp3
  have hf4 : ((readMemWord p s3 (4 * v)).2.setIp ipv).cpu.flags = s3.cpu.flags := by
    simp only [State.setIp, hc1.1]
  have hi4 : ((readMemWord p s3 (4 * v)).2.setIp ipv).cpu.ip = ipv := rfl
  generalize hs4def : (readMemWord p s3 (4 * v)).2.setIp ipv = s4 at hs4 hp4 hf4 hi4
  have ha2 : vectorAddress s4.pendingInterrupt 2 = 4 * v + 2 := by
    rw [hp4]; exact vectorAddress_nat v 2 hv (by decide)
  have hr2 := readMemWord_sameSpace p s4 _ (4 * v + 2) hs4
  have hc2 := readMemWord_cpu p s4 (4 * v + 2)
  have hv2 : (readMemWord p s4 (4 * v + 2)).1 = some csv := hr2.1.trans hcs
  refine ⟨{ (readMemWord p s4 (4 * v + 2)).2.setCs csv with pendingInterrupt := -1 },
    ?_, ?_, ?_, ?_, rfl, rfl, ?_⟩
  · unfold interruptTransfer
    simp only [hne, ne_eq, not_false_eq_true, if_true, hs1, hs3def, ha0, hv1, hs4def, ha2, hv2]
  · show getFlag (readMemWord p s4 (4 * v + 2)).2.cpu.flags H.if_ = false
    rw [hc2.1, hf4, hf3]
    exact getFlag_setFlag_setFlag_false _ _ _
  · show getFlag (readMemWord p s4 (4 * v + 2)).2.cpu.flags H.tf = false
    rw [hc2.1, hf4, hf3]
    exact getFlag_setFlag_same _ _ _
  · show (readMemWord p s4 (4 * v + 2)).2.cpu.ip = ipv
    rw [hc2.1, hi4]
  · intro hn
    have : (arbitrate s).pendingInterrupt = 2 := by
      unfold arbitrate
      simp only
      split_ifs <;> simp_all
    rw [hpend] at this
    omega

/-- Witness for C6: with the non-maskable line asserted, the transfer loads
`ip = 0x1234` from address 8 and `cs = 0xF000` from address 10. -/
theorem interruptTransfer_loads_vector_witness :
    ∃ s', interruptTransfer header8086 acorn186 (arbitrate stateNmi) = some s' ∧
      getFlag s'.cpu.flags header8086.if_ = false ∧
      getFlag s'.cpu.flags header8086.tf = false ∧
      s'.cpu.ip = 0x1234 ∧ s'.cpu.cs = 0xF000 ∧ s'.pendingInterrupt = -1 ∧
      (stateNmi.cpu.nmi = true → 2 = 2) :=
  interruptTransfer_loads_vector header8086 acorn186 stateNmi 2 0x1234 0xF000
    (by decide) (by decide) (by decide) (by decide)

/-- C7, evaluated on the code: with `BOOTFLAG` clear, the stack in RAM
(`SS:SP = 0000:0100`), flags `0x0246`, `cs = 0x1234` and `ip = 0x0100`, the
transfer leaves `sp = 0x00FA`, six below, but `readWord` returns `0x0001` at
`SS:SP`, `0x3412` at `SS:SP+2` and `0x4602` at `SS:SP+4`: each pushed word
reads back with its bytes exchanged. -/
theorem interruptTransfer_frame_reads_swapped :
    stateFault.BOOTFLAG = false ∧
    (stateFault.cpu.flags, stateFault.cpu.cs, stateFault.cpu.ip, stateFault.cpu.sp)
      = (0x0246, 0x1234, 0x0100, 0x0100) ∧
    (interruptTransfer header8086 acorn186 (arbitrate stateFault)).map (frameView acorn186)
      = some (0x00FA, some 0x0001, some 0x3412, some 0x4602) := by
  decide

/-- C8, evaluated on the code: from flags `0x0246`, `cs = 0x1234`, `ip = 0x0100`
and `sp = 0x0100`, with `BOOTFLAG` clear and the stack in RAM, the transfer for
vector 0 followed by the body of IRET ends with `sp = 0x0100` again but flags
`0x4602`, `cs = 0x3412` and `ip = 0x0001`. -/
theorem interruptTransfer_then_iret_swapped :
    stateFault.BOOTFLAG = false ∧
    returnView stateFault = (0x0246, 0x1234, 0x0100, 0x0100) ∧
    ((interruptTransfer header8086 acorn186 (arbitrate stateFault)).bind
        (case_0xCF header8086 acorn186)).map returnView
      = some (0x4602, 0x3412, 0x0001, 0x0100) := by
  decide

/-! ## Accumulator-immediate arithmetic -/

/-- C9, evaluated on the code: the body of `case 0x04` with `AL = 0x7F` and
immediate `0x01` leaves `AL = 0x80` and the sign member set, but the overflow
member clear, because `setCarryFlag` runs after `setOverflowFlag` and stores
bit 8 of the sum into `of`; the zero member follows `temp` (set when `temp`
is 0) instead of the sum. With `AL = 0xFF` and immediate `0x01` the sum is 0
mod 256, yet the zero member is clear when `temp` is not 0. -/
theorem add_al_imm_overflow_is_carry :
    (case_0x04 header8086 acorn186 (stateImm 0x7F 0x01 0)).map (arithView header8086)
      = some (0x80, false, true, true) ∧
    (case_0x04 header8086 acorn186 (stateImm 0x7F 0x01 1)).map (arithView header8086)
      = some (0x80, false, true, false) ∧
    (case_0x04 header8086 acorn186 (stateImm 0xFF 0x01 1)).map (arithView header8086)
      = some (0x00, true, false, false) := by
  decide

/-- C10, evaluated on the code: the body of `case 0x2C` with `AL = 0x80` and
immediate `0x01` leaves `AL = 0x7F` with the overflow member clear, although
-128 - 1 is outside [-128, 127]; with `AL = 0x00` and immediate `0x01`, where
-1 is in range, it leaves the overflow member set (the borrow). -/
theorem sub_al_imm_overflow_is_borrow :
    (case_0x2C header8086 acorn186 (stateImm 0x80 0x01 0)).map (arithView header8086)
      = some (0x7F, false, false, true) ∧
    (case_0x2C header8086 acorn186 (stateImm 0x00 0x01 0)).map (arithView header8086)
      = some (0xFF, true, true, true) := by
  decide

/-! ## Opcodes a profile does not support -/

theorem readMemByte_frame (p : Profile) (s : State) (a : Nat) :
    (readMemByte p s a).2.cpu = s.cpu ∧
    (readMemByte p s a).2.ramMemory = s.ramMemory ∧
    (readMemByte p s a).2.romMemory = s.romMemory ∧
    (readMemByte p s a).2.tubeWrites = s.tubeWrites ∧
    (readMemByte p s a).2.pendingInterrupt = s.pendingInterrupt := by
  unfold readMemByte
  split_ifs <;> simp

theorem fetch_effect (H : Header) (p : Profile) (s s1 : State) (hf : fetch H p s = some s1) :
    s1.cpu.ip = (if H.pcIsIp = true then (s.cpu.ip + 1) % 65536 else s.cpu.ip) ∧
    ({ s1.cpu with instruction_reg := s.cpu.instruction_reg, ip := s.cpu.ip, pc := s.cpu.pc }
      : Cpu) = s.cpu ∧
    s1.ramMemory = s.ramMemory ∧ s1.romMemory = s.romMemory ∧
    s1.tubeWrites = s.tubeWrites ∧ s1.pendingInterrupt = s.pendingInterrupt := by
  unfold fetch at hf
  simp only at hf
  split at hf
  · exact absurd hf (by simp)
  · rename_i b hb
    simp only [Option.some.injEq] at hf
    subst hf
    obtain ⟨hc, hram, hrom, htw, hpi⟩ := readMemByte_frame p
      (if s.rep = true then { s with rep_pc := s.cpu.ip } else s)
      (getAddress (if s.rep = true then { s with rep_pc := s.cpu.ip } else s) .CS .IP)
    have hs0 : (if s.rep = true then ({ s with rep_pc := s.cpu.ip } : State) else s).cpu = s.cpu ∧
        (if s.rep = true then ({ s with rep_pc := s.cpu.ip } : State) else s).ramMemory
          = s.ramMemory ∧
        (if s.rep = true then ({ s with rep_pc := s.cpu.ip } : State) else s).romMemory
          = s.romMemory ∧
        (if s.rep = true then ({ s with rep_pc := s.cpu.ip } : State) else s).tubeWrites
          = s.tubeWrites ∧
        (if s.rep = true then ({ s with rep_pc := s.cpu.ip } : State) else s).pendingInterrupt
          = s.pendingInterrupt := by
      split_ifs <;> simp
    rw [hs0.1] at hc
    rw [hs0.2.1] at hram
    rw [hs0.2.2.1] at hrom
    rw [hs0.2.2.2.1] at htw
    rw [hs0.2.2.2.2] at hpi
    unfold State.pcPlus1 State.ipPlus1
    cases hpc : H.pcIsIp <;> simp [hc, hram, hrom, htw, hpi]

/-- C11: on a profile whose CPU is not the 80286, when the fetched opcode is
`0x0F` and the trap member is clear, the pass makes vector 6 pending and
changes nothing else after the fetch: no byte beyond the opcode is consumed
(`ip` is as the fetch left it), every register other than the instruction
register and the fetch pointer has its value from before the fetch, and both
buffers and the tube log are as before. -/
theorem opcode_0x0F_off_the_80286 (rest : Nat → State → Option State) (H : Header)
    (p : Profile) (s s1 : State)
    (hp : p.cpuType ≠ .I80286) (hf : fetch H p s = some s1)
    (hop : s1.cpu.instruction_reg = 0x0F) (htf : getFlag s.cpu.flags H.tf = false) :
    dispatch rest H p s = some { s1 with pendingInterrupt := 0x06 } ∧
    s1.cpu.ip = (if H.pcIsIp = true then (s.cpu.ip + 1) % 65536 else s.cpu.ip) ∧
    ({ s1.cpu with instruction_reg := s.cpu.instruction_reg, ip := s.cpu.ip, pc := s.cpu.pc }
      : Cpu) = s.cpu ∧
    s1.ramMemory = s.ramMemory ∧ s1.romMemory = s.romMemory ∧
    s1.tubeWrites = s.tubeWrites := by
  obtain ⟨hip, hcpu, hram, hrom, htw, _⟩ := fetch_effect H p s s1 hf
  have hfl : s1.cpu.flags = s.cpu.flags := by
    have := congrArg Cpu.flags hcpu
    simpa using this
  refine ⟨?_, hip, hcpu, hram, hrom, htw⟩
  unfold dispatch
  simp only [hf]
  have hsw : opcodeSwitch rest H p s1 = some { s1 with pendingInterrupt := 0x06 } := by
    unfold opcodeSwitch case_0x0F
    simp [hop, hp]
  simp only [hsw]
  unfold trapCheck
  simp [hfl, htf]

/-- Witness for C11: on the Master 512 profile (an 80186) the pass over the
opcode byte `0x0F` ends with vector 6 pending and `ip` one past the opcode. -/
theorem opcode_0x0F_off_the_80286_witness :
    dispatch (fun _ _ => none) header8086 acorn186 (stateOp 0x0F)
      = some { stateOpFetched 0x0F with pendingInterrupt := 0x06 } ∧
    (stateOpFetched 0x0F).cpu.ip = 0x0201 :=
  ⟨(opcode_0x0F_off_the_80286 (fun _ _ => none) header8086 acorn186 (stateOp 0x0F)
      (stateOpFetched 0x0F) (by decide) rfl rfl (by decide)).1, rfl⟩

/-- C12, evaluated on the code: on the 8088 profile the bodies of PUSHA, POPA,
BOUND, PUSH imm, IMUL imm and INS make vector 6 pending and change nothing
else, but the body of OUTS (`case 0x6E`, `case 0x6F`) makes vector 5 pending:
its `default` branch assigns `0x05`. A pass over the opcode byte `0x6E`
fetched at boot ends with vector 5 pending. -/
theorem outs_on_8088_raises_vector_5 :
    (∀ (supported : State → Option State) (s : State),
      torch.cpuType = .I8088 ∧
      case_0x60 torch s = some { s with pendingInterrupt := 6 } ∧
      case_0x61 torch s = some { s with pendingInterrupt := 6 } ∧
      case_0x62 supported torch s = some { s with pendingInterrupt := 6 } ∧
      case_0x68_0x6A torch s = some { s with pendingInterrupt := 6 } ∧
      case_0x69_0x6B supported torch s = some { s with pendingInterrupt := 6 } ∧
      case_0x6C_0x6D supported torch s = some { s with pendingInterrupt := 6 } ∧
      case_0x6E_0x6F supported torch s = some { s with pendingInterrupt := 5 }) ∧
    (dispatch (fun _ _ => none) header8086 torch stateOuts8088).map
      (fun s => (s.cpu.instruction_reg, s.pendingInterrupt)) = some (0x6E, 5) := by
  refine ⟨?_, by decide⟩
  intro supported s
  exact ⟨rfl, rfl, rfl, rfl, rfl, rfl, rfl, rfl⟩

/-! ## The loop: budget and halt -/

theorem arbitrate_idle (s : State) (hi : s.cpu.intr = false) (hn : s.cpu.nmi = false) :
    arbitrate s = s := by
  unfold arbitrate
  simp [hi, hn]

theorem interruptTransfer_idle (H : Header) (p : Profile) (s : State)
    (hp : s.pendingInterrupt = -1) : interruptTransfer H p s = some s := by
  unfold interruptTransfer
  simp [hp]

theorem haltView_of_cpu (s t : State) (h : s.cpu = t.cpu) : haltView s = haltView t := by
  unfold haltView; rw [h]

theorem haltView_arbitrate (s : State) : haltView (arbitrate s) = haltView s := by
  unfold arbitrate haltView
  simp only
  split_ifs <;> rfl

theorem haltView_spMinus2 (s : State) : haltView s.spMinus2 = haltView s := by
  unfold State.spMinus2 haltView; rfl

theorem haltView_writeMemWord (p : Profile) (s : State) (a v : Nat) :
    haltView (writeMemWord p s a v) = haltView s :=
  haltView_of_cpu _ _ (writeMemWord_cpu p s a v).1

theorem haltView_readMemWord (p : Profile) (s : State) (a : Nat) :
    haltView (readMemWord p s a).2 = haltView s :=
  haltView_of_cpu _ _ (readMemWord_cpu p s a).1

theorem haltView_pushFrame (p : Profile) (s : State) : haltView (pushFrame p s) = haltView s := by
  unfold pushFrame
  simp only [haltView_writeMemWord, haltView_spMinus2]

theorem haltView_assignFlag (s : State) (bit : Nat) (b : Bool) :
    haltView (s.assignFlag bit b) = haltView s := rfl

theorem haltView_setIp (s : State) (v : Nat) : haltView (s.setIp v) = haltView s := rfl

theorem haltView_setCs (s : State) (v : Nat) : haltView (s.setCs v) = haltView s := rfl

theorem haltView_interruptTransfer (H : Header) (p : Profile) (s s' : State)
    (hs : interruptTransfer H p s = some s') : haltView s' = haltView s := by
  unfold interruptTransfer at hs
  by_cases hp : s.pendingInterrupt = -1
  · simp only [hp, ne_eq, not_true_eq_false, if_false, Option.some.injEq] at hs
    rw [← hs]
  · simp only [ne_eq, hp, not_false_eq_true, if_true] at hs
    split at hs
    · exact absurd hs (by simp)
    · split at hs
      · exact absurd hs (by simp)
      · simp only [Option.some.injEq] at hs
        rw [← hs]
        have e : ∀ (t : State) (v : Nat),
            haltView ({ t.setCs v with pendingInterrupt := -1 } : State) = haltView t :=
          fun _ _ => rfl
        rw [e, haltView_readMemWord, haltView_setIp, haltView_readMemWord,
          haltView_assignFlag, haltView_assignFlag, haltView_pushFrame]

theorem iteration_halted (rest : Nat → State → Option State) (H : Header) (p : Profile)
    (s : State) (hh : s.cpu.halt = true) :
    iteration rest H p s = interruptTransfer H p (arbitrate s) := by
  unfold iteration
  cases ht : interruptTransfer H p (arbitrate s) with
  | none => rfl
  | some s1 =>
    have hv := (haltView_interruptTransfer H p _ s1 ht).trans (haltView_arbitrate s)
    have h1 : s1.cpu.halt = true := by
      have := congrArg Prod.fst hv
      simpa [haltView, hh] using this
    simp [h1]

theorem iteration_halted_idle (rest : Nat → State → Option State) (H : Header) (p : Profile)
    (s : State) (hh : s.cpu.halt = true) (hi : s.cpu.intr = false) (hn : s.cpu.nmi = false)
    (hp : s.pendingInterrupt = -1) : iteration rest H p s = some s := by
  rw [iteration_halted rest H p s hh, arbitrate_idle s hi hn, interruptTransfer_idle H p s hp]

theorem execLoop_halted_idle (rest : Nat → State → Option State) (H : Header) (p : Profile)
    (s : State) (hh : s.cpu.halt = true) (hi : s.cpu.intr = false) (hn : s.cpu.nmi = false)
    (hp : s.pendingInterrupt = -1) (hc : s.Cycles > 0) (fuel : Nat) :
    execLoop rest H p fuel s = .running s := by
  induction fuel with
  | zero => simp [execLoop, hc]
  | succ n ih => simp [execLoop, hc, iteration_halted_idle rest H p s hh hi hn hp, ih]

theorem iteration_stateOp_hlt (rest : Nat → State → Option State) :
    iteration rest header8086 acorn186 { stateOp 0xF4 with Cycles := 1 }
      = some (case_0xF4 { stateOpFetched 0xF4 with Cycles := 1 }) := rfl

theorem iteration_stateProg_add (rest : Nat → State → Option State) :
    ∃ s1, iteration rest header8086 acorn186 { stateProg with Cycles := 4 } = some s1 ∧
      passView s1 = (0x80, 0x0202, 8, 0x04, false) ∧
      s1.cpu.intr = false ∧ s1.cpu.nmi = false ∧ s1.pendingInterrupt = -1 ∧
      ∃ s2, iteration rest header8086 acorn186 s1 = some s2 ∧
        passView s2 = (0x80, 0x0203, 13, 0xF4, true) ∧
        s2.cpu.intr = false ∧ s2.cpu.nmi = false ∧ s2.pendingInterrupt = -1 :=
  ⟨_, rfl, rfl, rfl, rfl, rfl, _, rfl, rfl, rfl, rfl, rfl⟩

/-- C13, evaluated on the code: `Exec(1)` entered with the halt latch set, no
line asserted and no vector pending is still inside the loop after any number
of passes, with the state as on entry; and `Exec(1)` whose first opcode is HLT
is still inside the loop after any number of passes, halted, with `Cycles`
grown from 1 to 6. No statement of `Exec` lowers `Cycles`. -/
theorem Exec_halted_never_returns :
    (∀ (rest : Nat → State → Option State) (fuel : Nat),
      Exec rest header8086 acorn186 fuel 1 stateHalted
        = .running { stateHalted with Cycles := 1 }) ∧
    (∀ (rest : Nat → State → Option State) (fuel : Nat),
      ∃ s', Exec rest header8086 acorn186 (fuel + 1) 1 (stateOp 0xF4) = .running s' ∧
        s'.cpu.halt = true ∧ s'.Cycles = 6) := by
  constructor
  · intro rest fuel
    unfold Exec
    exact execLoop_halted_idle rest header8086 acorn186 _ rfl rfl rfl rfl (by decide) fuel
  · intro rest fuel
    refine ⟨case_0xF4 { stateOpFetched 0xF4 with Cycles := 1 }, ?_, rfl, rfl⟩
    unfold Exec
    have hc : ({ stateOp 0xF4 with Cycles := 1 } : State).Cycles > 0 := by decide
    rw [execLoop]
    simp only [hc, if_true, iteration_stateOp_hlt rest]
    exact execLoop_halted_idle rest header8086 acorn186 _ rfl rfl rfl rfl (by decide) fuel

/-- C14, evaluated on the code: `Exec(4)` on `ADD AL, 0x01` followed by `HLT`.
The pass that runs the ADD (cost 4) leaves `Cycles = 8`, not 0, so the loop
goes on: the next pass fetches `0xF4` and runs HLT, leaving `Cycles = 13`,
and after that the call is still inside the loop whatever the number of
passes. Each instruction adds its cost to `Cycles`. -/
theorem Exec_budget_grows :
    ∀ (rest : Nat → State → Option State),
      (∃ s1, Exec rest header8086 acorn186 1 4 stateProg = .running s1 ∧
        passView s1 = (0x80, 0x0202, 8, 0x04, false)) ∧
      (∀ fuel : Nat, ∃ s2, Exec rest header8086 acorn186 (fuel + 2) 4 stateProg = .running s2 ∧
        passView s2 = (0x80, 0x0203, 13, 0xF4, true)) := by
  intro rest
  obtain ⟨s1, h1, v1, i1, n1, p1, s2, h2, v2, i2, n2, p2⟩ := iteration_stateProg_add rest
  have hc0 : ({ stateProg with Cycles := 4 } : State).Cycles > 0 := by decide
  have hc1 : s1.Cycles > 0 := by
    have := congrArg (fun v => v.2.2.1) v1
    simp only [passView] at this
    omega
  have hc2 : s2.Cycles > 0 := by
    have := congrArg (fun v => v.2.2.1) v2
    simp only [passView] at this
    omega
  have hh2 : s2.cpu.halt = true := by
    have := congrArg (fun v => v.2.2.2.2) v2
    simpa [passView] using this
  constructor
  · refine ⟨s1, ?_, v1⟩
    unfold Exec
    rw [execLoop]
    simp only [hc0, if_true, h1]
    rw [execLoop]
    simp only [hc1, if_true]
  · intro fuel
    refine ⟨s2, ?_, v2⟩
    unfold Exec
    rw [execLoop]
    simp only [hc0, if_true, h1]
    rw [execLoop]
    simp only [hc1, if_true, h2]
    exact execLoop_halted_idle rest header8086 acorn186 s2 hh2 i2 n2 p2 hc2 fuel

theorem haltView_iterations (rest : Nat → State → Option State) (H : Header) (p : Profile)
    (n : Nat) : ∀ s s' : State, s.cpu.halt = true → iterations rest H p n s = some s' →
      haltView s' = haltView s := by
  induction n with
  | zero =>
    intro s s' _ hs
    simp only [iterations, Option.some.injEq] at hs
    rw [hs]
  | succ n ih =>
    intro s s' hh hs
    simp only [iterations] at hs
    rw [iteration_halted rest H p s hh] at hs
    cases ht : interruptTransfer H p (arbitrate s) with
    | none => rw [ht] at hs; exact absurd hs (by simp)
    | some s1 =>
      rw [ht] at hs
      simp only [Option.some_bind] at hs
      have hv := (haltView_interruptTransfer H p _ s1 ht).trans (haltView_arbitrate s)
      have h1 : s1.cpu.halt = true := by
        have := congrArg Prod.fst hv
        simpa [haltView, hh] using this
      exact (ih s1 s' h1 hs).trans hv

/-- C15: once the halt latch is set, a pass through the loop body is exactly
the interrupt arbitration and transfer: nothing is fetched or dispatched, and
with no vector pending after the lines are sampled the pass changes nothing
else. After any number of passes the halt latch is still set and the
instruction register, `ax`, `bx`, `cx`, `dx`, `si`, `di` and `bp` have the
values they had. HLT sets the latch and `Reset` clears it. -/
theorem halted_is_terminal (rest : Nat → State → Option State) (H : Header) (p : Profile)
    (s : State) (hh : s.cpu.halt = true) :
    iteration rest H p s = interruptTransfer H p (arbitrate s) ∧
    ((arbitrate s).pendingInterrupt = -1 → iteration rest H p s = some (arbitrate s)) ∧
    (∀ (n : Nat) (s' : State), iterations rest H p n s = some s' →
      s'.cpu.halt = true ∧ haltView s' = haltView s) ∧
    (∀ t : State, (case_0xF4 t).cpu.halt = true) ∧
    (∀ firmware, (Reset p firmware s).cpu.halt = false) := by
  refine ⟨iteration_halted rest H p s hh, ?_, ?_, fun _ => rfl, ?_⟩
  · intro hp
    rw [iteration_halted rest H p s hh, interruptTransfer_idle H p _ hp]
  · intro n s' hs
    have hv := haltView_iterations rest H p n s s' hh hs
    refine ⟨?_, hv⟩
    have := congrArg Prod.fst hv
    simpa [haltView, hh] using this
  · intro firmware
    simp [Reset]

/-- Witness for C15: three passes from the halted state leave it as it is. -/
theorem halted_is_terminal_witness :
    iteration (fun _ _ => none) header8086 acorn186 stateHalted = some (arbitrate stateHalted) ∧
    (stateHalted.cpu.halt = true ∧ haltView stateHalted = haltView stateHalted) ∧
    (Reset acorn186 none stateHalted).cpu.halt = false :=
  ⟨(halted_is_terminal (fun _ _ => none) header8086 acorn186 stateHalted rfl).2.1 rfl,
   (halted_is_terminal (fun _ _ => none) header8086 acorn186 stateHalted rfl).2.2.1 3
     stateHalted rfl,
   (halted_is_terminal (fun _ _ => none) header8086 acorn186 stateHalted rfl).2.2.2.2 none⟩

/-! ## Register views and address formation -/

set_option maxRecDepth 100000 in
theorem and_0x80_ne_zero_iff : ∀ a : Nat, a < 256 → (a &&& 0x80 ≠ 0 ↔ a ≥ 128) := by
  decide

theorem shl8_or_eq (h l : Nat) (hl : l < 256) : (h <<< 8) ||| l = h * 256 + l := by
  have := Nat.mul_add_lt_is_or (i := 8) (b := l) (by simpa using hl) h
  rw [Nat.shiftLeft_eq]
  have e : (2 : Nat) ^ 8 = 256 := by norm_num
  rw [e] at this ⊢
  rw [Nat.mul_comm h 256, ← this]

/-- C16: the halves of the accumulator alias one 16-bit cell. Writing a byte
`h` to AH leaves AL as it was and makes AX equal to `(h << 8) | AL`; writing a
word `x` to AX makes AL equal to `x & 0xFF` and AH equal to `x >> 8`; the body
of CBW leaves AL as it was and makes AX the 16-bit pattern with the same
signed value as AL; `getRegisterValue` returns these views for the byte
encodings 0 and 4 and the word encoding 0. -/
theorem accumulator_aliasing (c : Cpu) (s : State) (h x : Nat) (hh : h < 256)
    (hx : x < 65536) :
    (c.setAh h).al = c.al ∧
    (c.setAh h).ah = h ∧
    (c.setAh h).axx = (h <<< 8) ||| c.al ∧
    (c.setAx x).al = x &&& 0xFF ∧
    (c.setAx x).ah = x >>> 8 ∧
    (c.setAx x).axx = x ∧
    (case_0x98 s).cpu.al = s.cpu.al ∧
    signed16 (case_0x98 s).cpu.axx = signed8 s.cpu.al ∧
    getRegisterValue s false 0 = some s.cpu.al ∧
    getRegisterValue s false 4 = some s.cpu.ah ∧
    getRegisterValue s true 0 = some s.cpu.axx := by
  have hal : c.ax % 256 < 256 := Nat.mod_lt _ (by decide)
  refine ⟨?_, ?_, ?_, ?_, ?_, ?_, ?_, ?_, ?_, ?_, ?_⟩
  · simp only [Cpu.setAh, Cpu.al]; omega
  · simp only [Cpu.setAh, Cpu.ah]; omega
  · simp only [Cpu.setAh, Cpu.axx, Cpu.al]
    rw [shl8_or_eq h (c.ax % 256) hal]
    omega
  · simp only [Cpu.setAx, Cpu.al]
    have := Nat.and_pow_two_sub_one_eq_mod x 8
    have e : (2 : Nat) ^ 8 - 1 = 0xFF := by norm_num
    have e2 : (2 : Nat) ^ 8 = 256 := by norm_num
    rw [e, e2] at this
    rw [this]
    omega
  · simp only [Cpu.setAx, Cpu.ah]
    rw [Nat.shiftRight_eq_div_pow]
    have e2 : (2 : Nat) ^ 8 = 256 := by norm_num
    rw [e2]
    omega
  · simp only [Cpu.setAx, Cpu.axx]; omega
  · simp only [case_0x98, Cpu.al, Cpu.setAh]
    split_ifs <;> simp only <;> omega
  · have hs : s.cpu.ax % 256 < 256 := Nat.mod_lt _ (by decide)
    have hiff := and_0x80_ne_zero_iff (s.cpu.ax % 256) hs
    simp only [case_0x98, Cpu.al, Cpu.setAh, Cpu.axx, signed16, signed8]
    split_ifs <;> dsimp only at * <;> omega
  · simp [getRegisterValue]
  · simp [getRegisterValue]
  · simp [getRegisterValue]

/-- Witness for C16: AH := 0x12 over AL = 0x34 gives AX = 0x1234, and CBW on
AL = 0x80 gives the pattern of -128. -/
theorem accumulator_aliasing_witness :
    (Cpu.setAh { cpu0 with ax := 0x0034 } 0x12).axx = (0x12 <<< 8) ||| 0x34 ∧
    signed16 (case_0x98 (stateImm 0x80 0 0)).cpu.axx = -128 :=
  ⟨(accumulator_aliasing { cpu0 with ax := 0x0034 } (stateImm 0x80 0 0) 0x12 0xABCD
      (by decide) (by decide)).2.2.1,
   (accumulator_aliasing { cpu0 with ax := 0x0034 } (stateImm 0x80 0 0) 0x12 0xABCD
      (by decide) (by decide)).2.2.2.2.2.2.2.1⟩

/-- C17: for each of the four segment selectors and five offset selectors,
`getAddress` returns 16 times the 16-bit segment register plus the 16-bit
offset register, with no mask applied; the result is at most `0x10FFEF`; and
two states that agree on the two selected registers give the same result. -/
theorem getAddress_value (s : State) (seg : SegReg) (off : OffReg) :
    getAddress s seg off = 16 * (seg.value s.cpu % 65536) + off.value s.cpu % 65536 ∧
    getAddress s seg off ≤ 0x10FFEF ∧
    (seg.value s.cpu < 65536 → off.value s.cpu < 65536 →
      getAddress s seg off = 16 * seg.value s.cpu + off.value s.cpu) ∧
    (∀ t : State, seg.value t.cpu = seg.value s.cpu → off.value t.cpu = off.value s.cpu →
      getAddress t seg off = getAddress s seg off) := by
  have e : ∀ u : State,
      getAddress u seg off = 16 * (seg.value u.cpu % 65536) + off.value u.cpu % 65536 := by
    intro u
    unfold getAddress
    simp only [Nat.shiftLeft_eq]
    cases seg <;> cases off <;> simp only [SegReg.value, OffReg.value] <;> omega
  refine ⟨e s, ?_, ?_, ?_⟩
  · rw [e s]; omega
  · intro h1 h2
    rw [e s, Nat.mod_eq_of_lt h1, Nat.mod_eq_of_lt h2]
  · intro t h1 h2
    rw [e t, e s, h1, h2]

/-- Witness for C17: `SS:SP = 0000:0100` and `CS:IP = 1234:0100` in `stateNmi`. -/
theorem getAddress_value_witness :
    getAddress stateNmi .CS .IP = 16 * 0x1234 + 0x0100 :=
  (getAddress_value stateNmi .CS .IP).2.2.1 (by decide) (by decide)

/-! ## The tube window -/

/-- C18, evaluated on the code: on the Master 512 profile with `BOOTFLAG`
clear, a write of 7 at `0xE0000`, whose masked value equals the masked
tube-window address and is below the masked ROM base, is not forwarded: the
tube log stays empty and the byte lands in RAM at `0xE0000 & 0x7FFFF =
0x60000`. One address higher the write is forwarded and RAM is untouched.
`readMemByte` does not treat `0xE0000` as RAM. -/
theorem write_at_tube_boundary_goes_to_ram :
    state0.BOOTFLAG = false ∧
    masked acorn186 0xE0000 = masked acorn186 acorn186.TUBE_ULA_ADDR ∧
    masked acorn186 0xE0000 < masked acorn186 acorn186.ROM_ADDR ∧
    (writeMemByte acorn186 state0 0xE0000 7).tubeWrites = [] ∧
    (state0.ramMemory 0x60000).val = 0 ∧
    ((writeMemByte acorn186 state0 0xE0000 7).ramMemory 0x60000).val = 7 ∧
    (writeMemByte acorn186 state0 0xE0001 7).tubeWrites = [(0xE0001, 7)] ∧
    ((writeMemByte acorn186 state0 0xE0001 7).ramMemory 0x60001).val = 0 ∧
    (readMemByte acorn186 state0 0xE0000).1 = none := by
  decide

/-- C19, evaluated on the code: on the Master 512 profile with `BOOTFLAG`
clear, a read at `0xE0001`, inside the tube window, reaches the end of
`readMemByte` without a `return`: whatever the buffers hold, no value is
produced and the state, tube log included, is as before. The function has no
call to the parasite-side read interface. -/
theorem read_in_tube_window_has_no_value :
    state0.BOOTFLAG = false ∧
    masked acorn186 acorn186.TUBE_ULA_ADDR ≤ masked acorn186 0xE0001 ∧
    masked acorn186 0xE0001 < masked acorn186 acorn186.ROM_ADDR ∧
    (∀ ram rom : Nat → Fin 256,
      readMemByte acorn186 { state0 with ramMemory := ram, romMemory := rom } 0xE0001
        = (none, { state0 with ramMemory := ram, romMemory := rom })) :=
  ⟨rfl, by decide, by decide, fun _ _ => rfl⟩

/-! ## Arbitration between the lines -/

theorem interruptTransfer_of_pending (H : Header) (p : Profile) (s : State)
    (v ipv csv : Nat) (hv : v ≤ 255)
    (hpend : s.pendingInterrupt = (v : Int))
    (hip : (readMemWord p (pushFrame p s) (4 * v)).1 = some ipv)
    (hcs : (readMemWord p (readMemWord p (pushFrame p s) (4 * v)).2
      (4 * v + 2)).1 = some csv) :
    ∃ s', interruptTransfer H p s = some s' ∧
      getFlag s'.cpu.flags H.if_ = false ∧ getFlag s'.cpu.flags H.tf = false ∧
      s'.cpu.ip = ipv ∧ s'.cpu.cs = csv ∧ s'.pendingInterrupt = -1 := by
  have hne : s.pendingInterrupt ≠ -1 := by rw [hpend]; omega
  have hpf : (pushFrame p s).pendingInterrupt = (v : Int) := by
    rw [pushFrame_pending, hpend]
  generalize hs1 : pushFrame p s = s1 at hip hcs hpf
  -- the state in which the first vector word is read
  have hs3 : sameSpace ((s1.assignFlag H.if_ false).assignFlag H.tf false) s1 := ⟨rfl, rfl, rfl⟩
  have hp3 : ((s1.assignFlag H.if_ false).assignFlag H.tf false).pendingInterrupt = (v : Int) :=
    hpf
  have hf3 : ((s1.assignFlag H.if_ false).assignFlag H.tf false).cpu.flags
      = setFlag (setFlag s1.cpu.flags H.if_ false) H.tf false := rfl
  generalize hs3def : (s1.assignFlag H.if_ false).assignFlag H.tf false = s3 at hs3 hp3 hf3
  have ha0 : vectorAddress s3.pendingInterrupt 0 = 4 * v := by
    rw [hp3]; exact vectorAddress_nat v 0 hv (by decide)
  have hr1 := readMemWord_sameSpace p s3 s1 (4 * v) hs3
  have hc1 := readMemWord_cpu p s3 (4 * v)
  have hv1 : (readMemWord p s3 (4 * v)).1 = some ipv := hr1.1.trans hip
  -- the state in which the second vector word is read
  have hs4 : sameSpace ((readMemWord p s3 (4 * v)).2.setIp ipv) (readMemWord p s1 (4 * v)).2 :=
    hr1.2
  have hp4 : ((readMemWord p s3 (4 * v)).2.setIp ipv).pendingInterrupt = (v : Int) :=
    hc1.2.trans hp3
  have hf4 : ((readMemWord p s3 (4 * v)).2.setIp ipv).cpu.flags = s3.cpu.flags := by
    simp only [State.setIp, hc1.1]
  have hi4 : ((readMemWord p s3 (4 * v)).2.setIp ipv).cpu.ip = ipv := rfl
  generalize hs4def : (readMemWord p s3 (4 * v)).2.setIp ipv = s4 at hs4 hp4 hf4 hi4
  have ha2 : vectorAddress s4.pendingInterrupt 2 = 4 * v + 2 := by
    rw [hp4]; exact vectorAddress_nat v 2 hv (by decide)
  have hr2 := readMemWord_sameSpace p s4 _ (4 * v + 2) hs4
  have hc2 := readMemWord_cpu p s4 (4 * v + 2)
  have hv2 : (readMemWord p s4 (4 * v + 2)).1 = some csv := hr2.1.trans hcs
  refine ⟨{ (readMemWord p s4 (4 * v + 2)).2.setCs csv with pendingInterrupt := -1 },
    ?_, ?_, ?_, ?_, rfl, rfl⟩
  · unfold interruptTransfer
    simp only [hne, ne_eq, not_false_eq_true, if_true, hs1, hs3def, ha0, hv1, hs4def, ha2, hv2]
  · show getFlag (readMemWord p s4 (4 * v + 2)).2.cpu.flags H.if_ = false
    rw [hc2.1, hf4, hf3]
    exact getFlag_setFlag_setFlag_false _ _ _
  · show getFlag (readMemWord p s4 (4 * v + 2)).2.cpu.flags H.tf = false
    rw [hc2.1, hf4, hf3]
    exact getFlag_setFlag_same _ _ _
  · show (readMemWord p s4 (4 * v + 2)).2.cpu.ip = ipv
    rw [hc2.1, hi4]

theorem arbitrate_nmi (s : State) (hn : s.cpu.nmi = true) :
    arbitrate s = { s with pendingInterrupt := 2 } := by
  unfold arbitrate
  by_cases hi : s.cpu.intr = true <;> simp [hi, hn]

/-- C20: with the non-maskable line asserted at the top of a pass, sampling the
lines leaves vector 2 pending whatever the maskable line, the supplied vector
number and the vector already pending are, and the transfer of that pass
loads `ip` from address 8 and `cs` from address 10. -/
theorem nmi_selects_vector_2 (H : Header) (p : Profile) (s : State) (ipv csv : Nat)
    (hn : s.cpu.nmi = true)
    (hip : (readMemWord p (pushFrame p (arbitrate s)) 8).1 = some ipv)
    (hcs : (readMemWord p (readMemWord p (pushFrame p (arbitrate s)) 8).2 10).1 = some csv) :
    arbitrate s = { s with pendingInterrupt := 2 } ∧
    (∀ (intr : Bool) (nr pend : Int),
      (arbitrate { s with cpu := { s.cpu with intr := intr }, interrupt_nr := nr,
                          pendingInterrupt := pend }).pendingInterrupt = 2) ∧
    ∃ s', interruptTransfer H p (arbitrate s) = some s' ∧
      s'.cpu.ip = ipv ∧ s'.cpu.cs = csv ∧ s'.pendingInterrupt = -1 := by
  have ha := arbitrate_nmi s hn
  refine ⟨ha, ?_, ?_⟩
  · intro intr nr pend
    unfold arbitrate
    cases intr <;> simp [hn]
  · have hp : (arbitrate s).pendingInterrupt = ((2 : Nat) : Int) := by rw [ha]; rfl
    obtain ⟨s', h1, _, _, h4, h5, h6⟩ :=
      interruptTransfer_of_pending H p (arbitrate s) 2 ipv csv (by decide) hp hip hcs
    exact ⟨s', h1, h4, h5, h6⟩

/-- Witness for C20: both lines asserted, vector `0x40` supplied and vector 7
already pending; the transfer goes through vector 2. -/
theorem nmi_selects_vector_2_witness :
    arbitrate stateNmiIntr = { stateNmiIntr with pendingInterrupt := 2 } ∧
    ∃ s', interruptTransfer header8086 acorn186 (arbitrate stateNmiIntr) = some s' ∧
      s'.cpu.ip = 0x1234 ∧ s'.cpu.cs = 0xF000 ∧ s'.pendingInterrupt = -1 :=
  ⟨(nmi_selects_vector_2 header8086 acorn186 stateNmiIntr 0x1234 0xF000 rfl
      (by decide) (by decide)).1,
   (nmi_selects_vector_2 header8086 acorn186 stateNmiIntr 0x1234 0xF000 rfl
      (by decide) (by decide)).2.2⟩

/-! ## Operand resolver -/

/-- C21, evaluated on the code: with `bx = 0x0100`, `bp = 0x0200`, `si = 0x0010`,
`di = 0x0020` and a zero displacement, `getOperandValue` returns `bp + si =
0x0210` for `rm = 3` in modes 0, 1 and 2, where `bp + di` is `0x0220`; the case
for `rm = 3` repeats the sum of the case for `rm = 2`. For the other values of
`rm` (6 left out in mode 0) it returns the base of the encoding, and modes 1
and 2 advance `ip` by 1 and 2. -/
theorem getOperandValue_rm3_adds_si :
    stateRegs.cpu.bp + stateRegs.cpu.di = 0x0220 ∧
    (getOperandValue noIpRel acorn186 stateRegs 0 3).map Prod.fst = some 0x0210 ∧
    (getOperandValue noIpRel acorn186 stateRegs 1 3).map (fun r => (r.1, r.2.cpu.ip))
      = some (0x0210, 1) ∧
    (getOperandValue noIpRel acorn186 stateRegs 2 3).map (fun r => (r.1, r.2.cpu.ip))
      = some (0x0210, 2) ∧
    ([0, 1, 2, 4, 5, 7].map fun rm =>
        (getOperandValue noIpRel acorn186 stateRegs 0 rm).map Prod.fst)
      = [some 0x0110, some 0x0120, some 0x0210, some 0x0010, some 0x0020, some 0x0100] := by
  decide

/-- C22, evaluated on the code: with `ax = 0x1234`, `bx = 0x0100` and `si =
0x0010`, `getOperandValue(3, 0)` reads no memory and leaves `ip` as it is, but
returns `bx + si = 0x0110`, while `getRegisterValue` gives `0x1234` for the
word encoding 0 and `0x34` for the byte encoding 0. Mode 3 runs the same
second `switch` as the memory modes. -/
theorem getOperandValue_mode3_is_base_sum :
    (getOperandValue noIpRel acorn186 stateRegs 3 0).map (fun r => (r.1, r.2.cpu.ip))
      = some (0x0110, stateRegs.cpu.ip) ∧
    getRegisterValue stateRegs true 0 = some 0x1234 ∧
    getRegisterValue stateRegs false 0 = some 0x34 ∧
    ((List.range 8).map fun rm =>
        (getOperandValue noIpRel acorn186 stateRegs 3 rm).map Prod.fst)
      = [some 0x0110, some 0x0120, some 0x0210, some 0x0210, some 0x0010, some 0x0020,
         some 0x0200, some 0x0100] ∧
    ((List.range 8).map fun rm => getRegisterValue stateRegs true rm)
      = [some 0x1234, some 0, some 0, some 0x0100, some 0, some 0x0200, some 0x0010,
         some 0x0020] := by
  decide

/-! ## Reset -/

/-- C23: whatever the state before the call and whatever the firmware file,
after `Reset` the registers `ax`, `bx`, `cx`, `dx`, `si`, `di`, `bp`, `sp`,
`ds`, `es`, `ss` are 0, the flags word is `0x0002`, `BOOTFLAG` is set, the halt
and wait latches are clear, `pendingInterrupt` is -1, every byte of the RAM
buffer is 0, and `cs:ip` is `FFFF:0000` when the CPU is not the 80286 and
`F000:FFF0` when it is. -/
theorem Reset_values (p : Profile) (firmware : Option (Nat → Fin 256)) (s : State) :
    (Reset p firmware s).cpu.ax = 0 ∧ (Reset p firmware s).cpu.bx = 0 ∧
    (Reset p firmware s).cpu.cx = 0 ∧ (Reset p firmware s).cpu.dx = 0 ∧
    (Reset p firmware s).cpu.si = 0 ∧ (Reset p firmware s).cpu.di = 0 ∧
    (Reset p firmware s).cpu.bp = 0 ∧ (Reset p firmware s).cpu.sp = 0 ∧
    (Reset p firmware s).cpu.ds = 0 ∧ (Reset p firmware s).cpu.es = 0 ∧
    (Reset p firmware s).cpu.ss = 0 ∧
    (Reset p firmware s).cpu.flags = 0x0002 ∧
    (Reset p firmware s).BOOTFLAG = true ∧
    (Reset p firmware s).cpu.halt = false ∧ (Reset p firmware s).cpu.wait = false ∧
    (Reset p firmware s).pendingInterrupt = -1 ∧
    (∀ i, i < p.RAM_SIZE → (Reset p firmware s).ramMemory i = 0) ∧
    (p.cpuType ≠ .I80286 →
      (Reset p firmware s).cpu.cs = 0xFFFF ∧ (Reset p firmware s).cpu.ip = 0x0000) ∧
    (p.cpuType = .I80286 →
      (Reset p firmware s).cpu.cs = 0xF000 ∧ (Reset p firmware s).cpu.ip = 0xFFF0) := by
  unfold Reset
  cases hc : p.cpuType <;> cases hf : p.fpuType <;> simp <;> intro i h1 h2 <;> omega

/-- Witness for C23: `Reset` of the state `stateNmi` on the Master 512 profile
and on the 80286 profile. -/
theorem Reset_values_witness :
    (Reset acorn186 none stateNmi).ramMemory 8 = 0 ∧
    ((Reset acorn186 none stateNmi).cpu.cs = 0xFFFF ∧
      (Reset acorn186 none stateNmi).cpu.ip = 0x0000) ∧
    ((Reset (ix86 .ACORN_286) none stateNmi).cpu.cs = 0xF000 ∧
      (Reset (ix86 .ACORN_286) none stateNmi).cpu.ip = 0xFFF0) :=
  ⟨(Reset_values acorn186 none stateNmi).2.2.2.2.2.2.2.2.2.2.2.2.2.2.2.2.1 8 (by decide),
   (Reset_values acorn186 none stateNmi).2.2.2.2.2.2.2.2.2.2.2.2.2.2.2.2.2.1 (by decide),
   (Reset_values (ix86 .ACORN_286) none stateNmi).2.2.2.2.2.2.2.2.2.2.2.2.2.2.2.2.2.2 rfl⟩

/-! ## Division -/

/-- C24, evaluated on the code: the body of AAM (`case 0xD4`) with the
immediate byte 0 at `CS:IP` divides `AL` by 0 and yields no state at all, so
no vector becomes pending; with the immediate `0x0A` and `AL = 0x34` it
leaves `AH = 5`, `AL = 2`. The IDIV path of `case 0xF7` does test its operand:
with the ModRM byte `0x3C` and a zero operand it makes vector 0 pending and
leaves `ax` and `dx` as they were. -/
theorem aam_divides_by_zero :
    (case_0xD4 acorn186 (stateBytes 0x00 0)).isNone = true ∧
    (case_0xD4 acorn186 (stateBytes 0x0A 0)).map (fun s => (s.cpu.ah, s.cpu.al))
      = some (5, 2) ∧
    (∀ (nonzero others : Nat → State → Option State),
      (case_0xF6_0xF7 nonzero others noIpRel acorn186 (stateBytes 0x3C 0)).map
          (fun s => (s.pendingInterrupt, s.cpu.ax, s.cpu.dx))
        = some (0, 0x1234, 0x5678)) :=
  ⟨by decide, by decide, fun _ _ => rfl⟩

/-! ## The trap check -/

/-- C26: when the state an instruction left has the trap member set, the trap
check stores its pending vector (-1 when none) in `pendingInterruptBeforeTrace`
and makes vector 1 pending, changing nothing else; when the trap member is
clear the trap check changes nothing. A pass ends with the trap check applied
to what the opcode `switch` produced. -/
theorem trapCheck_spec (rest : Nat → State → Option State) (H : Header) (p : Profile)
    (s : State) :
    (getFlag s.cpu.flags H.tf = true →
      (trapCheck H s).pendingInterruptBeforeTrace = s.pendingInterrupt ∧
      (trapCheck H s).pendingInterrupt = 1 ∧
      trapCheck H s = { s with pendingInterruptBeforeTrace := s.pendingInterrupt,
                               pendingInterrupt := 1 }) ∧
    (getFlag s.cpu.flags H.tf = false →
      trapCheck H s = s ∧
      (trapCheck H s).pendingInterrupt = s.pendingInterrupt ∧
      (trapCheck H s).pendingInterruptBeforeTrace = s.pendingInterruptBeforeTrace) ∧
    dispatch rest H p s
      = ((fetch H p s).bind (opcodeSwitch rest H p)).map (trapCheck H) := by
  refine ⟨?_, ?_, ?_⟩
  · intro h
    unfold trapCheck
    simp [h]
  · intro h
    unfold trapCheck
    simp [h]
  · unfold dispatch
    cases hf : fetch H p s with
    | none => rfl
    | some s1 =>
      simp only [Option.some_bind]
      cases hs : opcodeSwitch rest H p s1 <;> rfl

/-- Witness for C26: the trap member set with vector 6 left pending, and the
trap member clear with nothing pending. -/
theorem trapCheck_spec_witness :
    ((trapCheck header8086 stateTrap).pendingInterruptBeforeTrace = 6 ∧
      (trapCheck header8086 stateTrap).pendingInterrupt = 1 ∧
      trapCheck header8086 stateTrap
        = { stateTrap with pendingInterruptBeforeTrace := stateTrap.pendingInterrupt,
                           pendingInterrupt := 1 }) ∧
    (trapCheck header8086 state0 = state0 ∧
      (trapCheck header8086 state0).pendingInterrupt = state0.pendingInterrupt ∧
      (trapCheck header8086 state0).pendingInterruptBeforeTrace
        = state0.pendingInterruptBeforeTrace) :=
  ⟨(trapCheck_spec (fun _ _ => none) header8086 acorn186 stateTrap).1 (by decide),
   (trapCheck_spec (fun _ _ => none) header8086 acorn186 state0).2.1 (by decide)⟩

/-! ## Flag helpers on their own -/

/-- C27, evaluated on the code: from flags `0x0002`, `setCarryFlag(false, 0x100)`
and `setCarryFlag(true, 0x10000)` leave the carry member clear and set the
overflow member; from flags `0x0802` (overflow set), `setCarryFlag(false, 0)`
clears the overflow member. Both branches assign `cpu.flags.of`. -/
theorem setCarryFlag_writes_overflow :
    carryView header8086 state0 = (false, false) ∧
    carryView header8086 (setCarryFlag header8086 state0 false 0x100) = (false, true) ∧
    carryView header8086 (setCarryFlag header8086 state0 true 0x10000) = (false, true) ∧
    carryView header8086 (state0.setFlags 0x0802) = (false, true) ∧
    carryView header8086 (setCarryFlag header8086 (state0.setFlags 0x0802) false 0)
      = (false, false) := by
  decide

/-- C28, evaluated on the code: `setZeroFlag` tests `temp`, not its argument,
and truncates nothing. With `temp` not 0 the byte ADD of `0xFF` and `0x01` and
INC of `ax = 0xFFFF` (which leaves `ax = 0`) both leave the zero member clear;
with `temp` equal to 0 the byte ADD of `0x01` and `0x01` leaves it set. -/
theorem setZeroFlag_ignores_result :
    (case_0x04 header8086 acorn186 (stateImm 0xFF 0x01 1)).map
        (fun s => (s.cpu.al, getFlag s.cpu.flags header8086.zf)) = some (0x00, false) ∧
    ((case_0x40 header8086 acorn186 (stateAx 0xFFFF 1)).cpu.axx,
      getFlag (case_0x40 header8086 acorn186 (stateAx 0xFFFF 1)).cpu.flags header8086.zf)
      = (0x0000, false) ∧
    (case_0x04 header8086 acorn186 (stateImm 0x01 0x01 0)).map
        (fun s => (s.cpu.al, getFlag s.cpu.flags header8086.zf)) = some (0x02, true) ∧
    getFlag (setZeroFlag header8086 (stateAx 0 1) 0).cpu.flags header8086.zf = false ∧
    getFlag (setZeroFlag header8086 (stateAx 0 0) 0x100).cpu.flags header8086.zf = true := by
  decide

/-- C29, evaluated on the code: with the table that holds true exactly for the
bytes with an even number of set bits, `setParityFlag` for word width leaves
the parity member clear for `0x0000` (no set bit) and for `0x0003` (two set
bits) and set for `0x0001` (one set bit): the two table entries are combined
with `^`, which is true when exactly one byte has even parity. For byte width
the member is set for `0x00` and `0x03` and clear for `0x01`. -/
theorem setParityFlag_word_is_odd_parity :
    (∀ b : Nat, header8086.parity b = (lowByteOnes b % 2 == 0)) ∧
    ([0x0000, 0x0003, 0x0001, 0x0101, 0x8001].map fun v =>
        (lowWordOnes v, getFlag (setParityFlag header8086 state0 true v).cpu.flags
          header8086.pf))
      = [(0, false), (2, false), (1, true), (2, false), (2, false)] ∧
    ([0x00, 0x03, 0x01].map fun v =>
        (lowByteOnes v, getFlag (setParityFlag header8086 state0 false v).cpu.flags
          header8086.pf))
      = [(0, true), (2, true), (1, false)] :=
  ⟨fun _ => rfl, by decide, by decide⟩

theorem and_two_pow_ne_zero_iff (x k : Nat) : x &&& 2 ^ k ≠ 0 ↔ x.testBit k = true := by
  constructor
  · intro h
    by_contra hx
    apply h
    apply Nat.eq_of_testBit_eq
    intro i
    simp only [Nat.testBit_and, Nat.testBit_two_pow, Nat.zero_testBit]
    by_cases hki : k = i
    · subst hki; simp [hx]
    · simp [hki]
  · intro hx h
    have := congrArg (fun y => y.testBit k) h
    simp [Nat.testBit_and, Nat.testBit_two_pow_self, hx] at this

theorem overflow_bit_iff (k r a b : Nat) :
    ((r ^^^ a) &&& (r ^^^ b)) &&& 2 ^ k ≠ 0 ↔
      (r.testBit k ≠ a.testBit k ∧ r.testBit k ≠ b.testBit k) := by
  rw [and_two_pow_ne_zero_iff]
  simp only [Nat.testBit_and, Nat.testBit_xor]
  cases r.testBit k <;> cases a.testBit k <;> cases b.testBit k <;> simp

/-- C30: for operands within the width, `setOverflowFlag(w, a + b, a, b)` leaves
the overflow member set exactly when `a` and `b` have the same sign bit (bit 7
for byte width, bit 15 for word width) and the sign bit of the sum differs
from it, and that is exactly when the sum of the signed values lies outside
the signed range of the width. -/
theorem setOverflowFlag_add (H : Header) (s : State) (a b : Nat) :
    (a < 256 → b < 256 →
      (getFlag (setOverflowFlag H s false (a + b) a b).cpu.flags H.of_ = true ↔
        (a.testBit 7 = b.testBit 7 ∧ (a + b).testBit 7 ≠ a.testBit 7)) ∧
      (getFlag (setOverflowFlag H s false (a + b) a b).cpu.flags H.of_ = true ↔
        (signed8 a + signed8 b < -128 ∨ signed8 a + signed8 b > 127))) ∧
    (a < 65536 → b < 65536 →
      (getFlag (setOverflowFlag H s true (a + b) a b).cpu.flags H.of_ = true ↔
        (a.testBit 15 = b.testBit 15 ∧ (a + b).testBit 15 ≠ a.testBit 15)) ∧
      (getFlag (setOverflowFlag H s true (a + b) a b).cpu.flags H.of_ = true ↔
        (signed16 a + signed16 b < -32768 ∨ signed16 a + signed16 b > 32767))) := by
  have p7 : (2 : Nat) ^ 7 = 0x0080 := by norm_num
  have p15 : (2 : Nat) ^ 15 = 0x8000 := by norm_num
  have hb7 := overflow_bit_iff 7 (a + b) a b
  have hb15 := overflow_bit_iff 15 (a + b) a b
  rw [p7] at hb7
  rw [p15] at hb15
  have t7 : ∀ x : Nat, x.testBit 7 = decide (x / 128 % 2 = 1) := fun x => by
    rw [Nat.testBit_to_div_mod]
  have t15 : ∀ x : Nat, x.testBit 15 = decide (x / 32768 % 2 = 1) := fun x => by
    rw [Nat.testBit_to_div_mod]
  constructor
  · intro ha hb
    have hflag : getFlag (setOverflowFlag H s false (a + b) a b).cpu.flags H.of_ = true ↔
        (((a + b) ^^^ a) &&& ((a + b) ^^^ b)) &&& 0x0080 ≠ 0 := by
      unfold setOverflowFlag State.assignFlag
      simp only [Bool.false_eq_true, if_false, getFlag_setFlag_same]
      split_ifs with h <;> simp [h]
    rw [hflag, hb7]
    simp only [t7, signed8]
    constructor
    · constructor
      · intro ⟨h1, h2⟩
        simp only [ne_eq, decide_eq_decide] at h1 h2 ⊢
        omega
      · intro ⟨h1, h2⟩
        simp only [ne_eq, decide_eq_decide] at h1 h2 ⊢
        omega
    · constructor
      · intro ⟨h1, h2⟩
        simp only [ne_eq, decide_eq_decide] at h1 h2
        split_ifs <;> omega
      · intro h
        simp only [ne_eq, decide_eq_decide]
        split_ifs at h <;> omega
  · intro ha hb
    have hflag : getFlag (setOverflowFlag H s true (a + b) a b).cpu.flags H.of_ = true ↔
        (((a + b) ^^^ a) &&& ((a + b) ^^^ b)) &&& 0x8000 ≠ 0 := by
      unfold setOverflowFlag State.assignFlag
      simp only [if_true, getFlag_setFlag_same]
      split_ifs with h <;> simp [h]
    rw [hflag, hb15]
    simp only [t15, signed16]
    constructor
    · constructor
      · intro ⟨h1, h2⟩
        simp only [ne_eq, decide_eq_decide] at h1 h2 ⊢
        omega
      · intro ⟨h1, h2⟩
        simp only [ne_eq, decide_eq_decide] at h1 h2 ⊢
        omega
    · constructor
      · intro ⟨h1, h2⟩
        simp only [ne_eq, decide_eq_decide] at h1 h2
        split_ifs <;> omega
      · intro h
        simp only [ne_eq, decide_eq_decide]
        split_ifs at h <;> omega

/-- Witness for C30: `0x7F + 0x01` at byte width sets the overflow member. -/
theorem setOverflowFlag_add_witness :
    getFlag (setOverflowFlag header8086 state0 false (0x7F + 0x01) 0x7F 0x01).cpu.flags
      header8086.of_ = true :=
  ((setOverflowFlag_add header8086 state0 0x7F 0x01).1 (by decide) (by decide)).2.mpr
    (by decide)

/-! ## The debug flag does not reach the state -/

theorem withDebug_cpu (s : State) (d : Bool) : (s.withDebug d).cpu = s.cpu := rfl

theorem withDebug_bootflag (s : State) (d : Bool) : (s.withDebug d).BOOTFLAG = s.BOOTFLAG := rfl

theorem withDebug_ram (s : State) (d : Bool) : (s.withDebug d).ramMemory = s.ramMemory := rfl

theorem withDebug_rom (s : State) (d : Bool) : (s.withDebug d).romMemory = s.romMemory := rfl

theorem withDebug_pending (s : State) (d : Bool) :
    (s.withDebug d).pendingInterrupt = s.pendingInterrupt := rfl

theorem withDebug_cyclecount (s : State) (d : Bool) :
    (s.withDebug d).cyclecount = s.cyclecount := rfl

theorem withDebug_cycles (s : State) (d : Bool) : (s.withDebug d).Cycles = s.Cycles := rfl

theorem withDebug_temp (s : State) (d : Bool) : (s.withDebug d).temp = s.temp := rfl

theorem withDebug_rep (s : State) (d : Bool) : (s.withDebug d).rep = s.rep := rfl

theorem withDebug_interrupt_nr (s : State) (d : Bool) :
    (s.withDebug d).interrupt_nr = s.interrupt_nr := rfl

theorem getAddress_withDebug (s : State) (d : Bool) (seg : SegReg) (off : OffReg) :
    getAddress (s.withDebug d) seg off = getAddress s seg off := rfl

theorem readMemByte_withDebug (p : Profile) (s : State) (d : Bool) (a : Nat) :
    readMemByte p (s.withDebug d) a
      = ((readMemByte p s a).1, (readMemByte p s a).2.withDebug d) := by
  unfold readMemByte State.withDebug
  simp only
  split_ifs <;> rfl

theorem writeMemByte_withDebug (p : Profile) (s : State) (d : Bool) (a v : Nat) :
    writeMemByte p (s.withDebug d) a v = (writeMemByte p s a v).withDebug d := by
  unfold writeMemByte State.withDebug
  simp only
  split_ifs <;> rfl

theorem readMemWord_withDebug (p : Profile) (s : State) (d : Bool) (a : Nat) :
    readMemWord p (s.withDebug d) a
      = ((readMemWord p s a).1, (readMemWord p s a).2.withDebug d) := by
  unfold readMemWord
  simp only [readMemByte_withDebug]
  split <;> rfl

theorem writeMemWord_withDebug (p : Profile) (s : State) (d : Bool) (a v : Nat) :
    writeMemWord p (s.withDebug d) a v = (writeMemWord p s a v).withDebug d := by
  unfold writeMemWord
  simp only [writeMemByte_withDebug]

theorem arbitrate_withDebug (s : State) (d : Bool) :
    arbitrate (s.withDebug d) = (arbitrate s).withDebug d := by
  unfold arbitrate State.withDebug
  simp only
  split_ifs <;> rfl

theorem trapCheck_withDebug (H : Header) (s : State) (d : Bool) :
    trapCheck H (s.withDebug d) = (trapCheck H s).withDebug d := by
  unfold trapCheck State.withDebug
  simp only
  split_ifs <;> rfl

theorem spMinus2_withDebug (s : State) (d : Bool) :
    (s.withDebug d).spMinus2 = s.spMinus2.withDebug d := by
  unfold State.spMinus2 State.withDebug; rfl

theorem spPlus2_withDebug (s : State) (d : Bool) :
    (s.withDebug d).spPlus2 = s.spPlus2.withDebug d := by
  unfold State.spPlus2 State.withDebug; rfl

theorem spAdd_withDebug (s : State) (d : Bool) (k : Nat) :
    (s.withDebug d).spAdd k = (s.spAdd k).withDebug d := by
  unfold State.spAdd State.withDebug; rfl

theorem ipPlus1_withDebug (s : State) (d : Bool) :
    (s.withDebug d).ipPlus1 = s.ipPlus1.withDebug d := by
  unfold State.ipPlus1 State.withDebug; rfl

theorem setIp_withDebug (s : State) (d : Bool) (v : Nat) :
    (s.withDebug d).setIp v = (s.setIp v).withDebug d := rfl

theorem setCs_withDebug (s : State) (d : Bool) (v : Nat) :
    (s.withDebug d).setCs v = (s.setCs v).withDebug d := rfl

theorem setFlags_withDebug (s : State) (d : Bool) (v : Nat) :
    (s.withDebug d).setFlags v = (s.setFlags v).withDebug d := rfl

theorem assignFlag_withDebug (s : State) (d : Bool) (bit : Nat) (b : Bool) :
    (s.withDebug d).assignFlag bit b = (s.assignFlag bit b).withDebug d := rfl

theorem pcPlus1_withDebug (H : Header) (s : State) (d : Bool) :
    State.pcPlus1 H (s.withDebug d) = (State.pcPlus1 H s).withDebug d := by
  unfold State.pcPlus1
  split_ifs
  · exact ipPlus1_withDebug s d
  · rfl

theorem pushFrame_withDebug (p : Profile) (s : State) (d : Bool) :
    pushFrame p (s.withDebug d) = (pushFrame p s).withDebug d := by
  unfold pushFrame
  simp only [spMinus2_withDebug, getAddress_withDebug, withDebug_cpu, writeMemWord_withDebug]

theorem pushWord_withDebug (p : Profile) (s : State) (d : Bool) (v : Nat) :
    pushWord p (s.withDebug d) v = (pushWord p s v).withDebug d := by
  unfold pushWord
  simp only [spMinus2_withDebug, getAddress_withDebug, writeMemWord_withDebug]

theorem readStackWord_withDebug (p : Profile) (s : State) (d : Bool) :
    readStackWord p (s.withDebug d)
      = (readStackWord p s).map (fun r => (r.1, r.2.withDebug d)) := by
  unfold readStackWord
  simp only [getAddress_withDebug, readMemWord_withDebug]
  split <;> rfl

theorem interruptTransfer_withDebug (H : Header) (p : Profile) (s : State) (d : Bool) :
    interruptTransfer H p (s.withDebug d)
      = (interruptTransfer H p s).map (fun t => t.withDebug d) := by
  unfold interruptTransfer
  simp only [withDebug_pending, pushFrame_withDebug, assignFlag_withDebug,
    readMemWord_withDebug, setIp_withDebug, setCs_withDebug]
  split_ifs
  · split
    · rfl
    · split <;> rfl
  · rfl

theorem setZeroFlag_withDebug (H : Header) (s : State) (d : Bool) (v : Nat) :
    setZeroFlag H (s.withDebug d) v = (setZeroFlag H s v).withDebug d := rfl

theorem setSignFlag_withDebug (H : Header) (s : State) (d : Bool) (w : Bool) (v : Nat) :
    setSignFlag H (s.withDebug d) w v = (setSignFlag H s w v).withDebug d := by
  unfold setSignFlag; split_ifs <;> rfl

theorem setParityFlag_withDebug (H : Header) (s : State) (d : Bool) (w : Bool) (v : Nat) :
    setParityFlag H (s.withDebug d) w v = (setParityFlag H s w v).withDebug d := by
  unfold setParityFlag; split_ifs <;> rfl

theorem setOverflowFlag_withDebug (H : Header) (s : State) (d : Bool) (w : Bool)
    (r a b : Nat) :
    setOverflowFlag H (s.withDebug d) w r a b = (setOverflowFlag H s w r a b).withDebug d := by
  unfold setOverflowFlag; split_ifs <;> rfl

theorem setAdjustFlag_withDebug (H : Header) (s : State) (d : Bool) (r a b : Nat) :
    setAdjustFlag H (s.withDebug d) r a b = (setAdjustFlag H s r a b).withDebug d := rfl

theorem setCarryFlag_withDebug (H : Header) (s : State) (d : Bool) (w : Bool) (v : Nat) :
    setCarryFlag H (s.withDebug d) w v = (setCarryFlag H s w v).withDebug d := by
  unfold setCarryFlag; split_ifs <;> rfl

theorem byteArithFlags_withDebug (H : Header) (s : State) (d : Bool) (r a b : Nat) :
    byteArithFlags H (s.withDebug d) r a b = (byteArithFlags H s r a b).withDebug d := by
  unfold byteArithFlags
  simp only [setOverflowFlag_withDebug, setSignFlag_withDebug, setZeroFlag_withDebug,
    setAdjustFlag_withDebug, setCarryFlag_withDebug, setParityFlag_withDebug]

theorem case_0x04_withDebug (H : Header) (p : Profile) (s : State) (d : Bool) :
    case_0x04 H p (s.withDebug d) = (case_0x04 H p s).map (fun t => t.withDebug d) := by
  unfold case_0x04
  simp only [withDebug_cpu, getAddress_withDebug, readMemByte_withDebug, ipPlus1_withDebug,
    byteArithFlags_withDebug]
  split <;> rfl

theorem case_0x2C_withDebug (H : Header) (p : Profile) (s : State) (d : Bool) :
    case_0x2C H p (s.withDebug d) = (case_0x2C H p s).map (fun t => t.withDebug d) := by
  unfold case_0x2C
  simp only [withDebug_cpu, getAddress_withDebug, readMemByte_withDebug, ipPlus1_withDebug,
    byteArithFlags_withDebug]
  split <;> rfl

theorem case_0xCF_withDebug (H : Header) (p : Profile) (s : State) (d : Bool) :
    case_0xCF H p (s.withDebug d) = (case_0xCF H p s).map (fun t => t.withDebug d) := by
  unfold case_0xCF
  simp only [getAddress_withDebug, readMemWord_withDebug, setIp_withDebug, spPlus2_withDebug,
    setCs_withDebug, setFlags_withDebug]
  split
  · rfl
  · split
    · rfl
    · split <;> rfl

theorem case_0x60_withDebug (p : Profile) (s : State) (d : Bool) :
    case_0x60 p (s.withDebug d) = (case_0x60 p s).map (fun t => t.withDebug d) := by
  unfold case_0x60
  simp only [withDebug_cpu, pushWord_withDebug]
  split <;> rfl

theorem case_0x98_withDebug (s : State) (d : Bool) :
    case_0x98 (s.withDebug d) = (case_0x98 s).withDebug d := rfl

theorem case_0xF4_withDebug (s : State) (d : Bool) :
    case_0xF4 (s.withDebug d) = (case_0xF4 s).withDebug d := rfl

theorem withDebug_pendingBeforeTrace (s : State) (d : Bool) :
    (s.withDebug d).pendingInterruptBeforeTrace = s.pendingInterruptBeforeTrace := rfl

theorem withDebug_tubeWrites (s : State) (d : Bool) :
    (s.withDebug d).tubeWrites = s.tubeWrites := rfl

theorem withDebug_rep_pc (s : State) (d : Bool) : (s.withDebug d).rep_pc = s.rep_pc := rfl

theorem mk_cpu_withDebug (X : State) (d : Bool) (c : Cpu) :
    State.mk c X.BOOTFLAG X.ramMemory X.romMemory X.pendingInterrupt
        X.pendingInterruptBeforeTrace X.interrupt_nr X.cyclecount X.Cycles
        (X.withDebug d).DEBUG X.temp X.tubeWrites X.rep X.rep_pc
      = ({ X with cpu := c } : State).withDebug d := rfl

theorem mk_rep_pc_withDebug (X : State) (d : Bool) (v : Nat) :
    State.mk X.cpu X.BOOTFLAG X.ramMemory X.romMemory X.pendingInterrupt
        X.pendingInterruptBeforeTrace X.interrupt_nr X.cyclecount X.Cycles
        (X.withDebug d).DEBUG X.temp X.tubeWrites X.rep v
      = ({ X with rep_pc := v } : State).withDebug d := rfl

theorem ite_withDebug (c : Prop) [Decidable c] (s t : State) (d : Bool) :
    (if c then s.withDebug d else t.withDebug d) = (if c then s else t).withDebug d := by
  split_ifs <;> rfl

theorem fetch_withDebug (H : Header) (p : Profile) (s : State) (d : Bool) :
    fetch H p (s.withDebug d) = (fetch H p s).map (fun t => t.withDebug d) := by
  unfold fetch
  simp only [withDebug_cpu, withDebug_bootflag, withDebug_ram, withDebug_rom,
    withDebug_pending, withDebug_pendingBeforeTrace, withDebug_interrupt_nr,
    withDebug_cyclecount, withDebug_cycles, withDebug_temp, withDebug_tubeWrites,
    withDebug_rep, withDebug_rep_pc, mk_rep_pc_withDebug, mk_cpu_withDebug, ite_withDebug,
    getAddress_withDebug, readMemByte_withDebug, pcPlus1_withDebug]
  split <;> rfl

theorem case_0x68_0x6A_withDebug (p : Profile) (s : State) (d : Bool) :
    case_0x68_0x6A p (s.withDebug d) = (case_0x68_0x6A p s).map (fun t => t.withDebug d) := by
  have hs : sBit (s.withDebug d) = sBit s := rfl
  obtain ⟨ct, ft, c1, c2, c3, c4⟩ := p
  cases ct <;>
  simp only [case_0x68_0x6A, hs, withDebug_cpu, withDebug_bootflag, withDebug_ram, withDebug_rom,
    withDebug_pending, withDebug_pendingBeforeTrace, withDebug_interrupt_nr,
    withDebug_cyclecount, withDebug_cycles, withDebug_temp, withDebug_tubeWrites,
    withDebug_rep, withDebug_rep_pc, mk_cpu_withDebug, spMinus2_withDebug,
    getAddress_withDebug, readMemByte_withDebug, readMemWord_withDebug,
    writeMemByte_withDebug, writeMemWord_withDebug, ipPlus1_withDebug] <;>
  first
    | rfl
    | (split_ifs <;> split <;> rfl)

theorem case_0x61_withDebug (p : Profile) (s : State) (d : Bool) :
    case_0x61 p (s.withDebug d) = (case_0x61 p s).map (fun t => t.withDebug d) := by
  obtain ⟨ct, ft, c1, c2, c3, c4⟩ := p
  cases ct <;>
  simp only [case_0x61, withDebug_cpu, withDebug_bootflag, withDebug_ram, withDebug_rom,
    withDebug_pending, withDebug_pendingBeforeTrace, withDebug_interrupt_nr,
    withDebug_cyclecount, withDebug_cycles, withDebug_temp, withDebug_tubeWrites,
    withDebug_rep, withDebug_rep_pc, mk_cpu_withDebug, spAdd_withDebug,
    readStackWord_withDebug, Option.bind_eq_bind, Option.pure_def, Option.bind_map,
    Option.map_bind, Function.comp_def, Option.map_some'] <;>
  rfl

theorem gated_withDebug (f : State → Option State) (hf : debugBlind f) (p : Profile)
    (s : State) (d : Bool) :
    case_0x0F f p (s.withDebug d) = (case_0x0F f p s).map (fun t => t.withDebug d) ∧
    case_0x62 f p (s.withDebug d) = (case_0x62 f p s).map (fun t => t.withDebug d) ∧
    case_0x69_0x6B f p (s.withDebug d)
      = (case_0x69_0x6B f p s).map (fun t => t.withDebug d) ∧
    case_0x6C_0x6D f p (s.withDebug d)
      = (case_0x6C_0x6D f p s).map (fun t => t.withDebug d) ∧
    case_0x6E_0x6F f p (s.withDebug d)
      = (case_0x6E_0x6F f p s).map (fun t => t.withDebug d) := by
  obtain ⟨ct, ft, c1, c2, c3, c4⟩ := p
  have h := hf s d
  refine ⟨?_, ?_, ?_, ?_, ?_⟩ <;> cases ct <;>
    first
      | exact h
      | rfl

theorem ite_map_withDebug (c : Prop) [Decidable c] (a b a1 b1 : Option State) (d : Bool)
    (ha : a1 = a.map (fun t => t.withDebug d)) (hb : b1 = b.map (fun t => t.withDebug d)) :
    (if c then a1 else b1) = (if c then a else b).map (fun t => t.withDebug d) := by
  split_ifs
  · exact ha
  · exact hb

theorem opcodeSwitch_withDebug (rest : Nat → State → Option State)
    (hrest : ∀ op, debugBlind (rest op)) (H : Header) (p : Profile) (s : State) (d : Bool) :
    opcodeSwitch rest H p (s.withDebug d)
      = (opcodeSwitch rest H p s).map (fun t => t.withDebug d) := by
  unfold opcodeSwitch
  rw [withDebug_cpu]
  dsimp only
  refine ite_map_withDebug _ _ _ _ _ d (case_0x04_withDebug H p s d) ?_
  refine ite_map_withDebug _ _ _ _ _ d (gated_withDebug _ (hrest _) p s d).1 ?_
  refine ite_map_withDebug _ _ _ _ _ d (case_0x2C_withDebug H p s d) ?_
  refine ite_map_withDebug _ _ _ _ _ d (case_0x60_withDebug p s d) ?_
  refine ite_map_withDebug _ _ _ _ _ d (case_0x61_withDebug p s d) ?_
  refine ite_map_withDebug _ _ _ _ _ d (gated_withDebug _ (hrest _) p s d).2.1 ?_
  refine ite_map_withDebug _ _ _ _ _ d (case_0x68_0x6A_withDebug p s d) ?_
  refine ite_map_withDebug _ _ _ _ _ d (gated_withDebug _ (hrest _) p s d).2.2.1 ?_
  refine ite_map_withDebug _ _ _ _ _ d (gated_withDebug _ (hrest _) p s d).2.2.2.1 ?_
  refine ite_map_withDebug _ _ _ _ _ d (gated_withDebug _ (hrest _) p s d).2.2.2.2 ?_
  refine ite_map_withDebug _ _ _ _ _ d rfl ?_
  refine ite_map_withDebug _ _ _ _ _ d (case_0xCF_withDebug H p s d) ?_
  refine ite_map_withDebug _ _ _ _ _ d rfl ?_
  exact hrest _ s d

theorem dispatch_withDebug (rest : Nat → State → Option State)
    (hrest : ∀ op, debugBlind (rest op)) (H : Header) (p : Profile) (s : State) (d : Bool) :
    dispatch rest H p (s.withDebug d)
      = (dispatch rest H p s).map (fun t => t.withDebug d) := by
  unfold dispatch
  rw [fetch_withDebug]
  cases hf : fetch H p s with
  | none => rfl
  | some s1 =>
    simp only [Option.map_some']
    rw [opcodeSwitch_withDebug rest hrest]
    cases hs : opcodeSwitch rest H p s1 with
    | none => rfl
    | some s2 => simp only [Option.map_some', trapCheck_withDebug]

theorem iteration_withDebug (rest : Nat → State → Option State)
    (hrest : ∀ op, debugBlind (rest op)) (H : Header) (p : Profile) (s : State) (d : Bool) :
    iteration rest H p (s.withDebug d)
      = (iteration rest H p s).map (fun t => t.withDebug d) := by
  unfold iteration
  rw [arbitrate_withDebug, interruptTransfer_withDebug]
  cases ht : interruptTransfer H p (arbitrate s) with
  | none => rfl
  | some s1 =>
    simp only [Option.map_some', withDebug_cpu, withDebug_cyclecount]
    rw [dispatch_withDebug rest hrest]
    split_ifs <;> rfl

theorem case_0x40_withDebug (H : Header) (p : Profile) (s : State) (d : Bool) :
    case_0x40 H p (s.withDebug d) = (case_0x40 H p s).withDebug d := by
  unfold case_0x40
  simp only [withDebug_cpu, withDebug_cycles, setOverflowFlag_withDebug, setSignFlag_withDebug,
    setZeroFlag_withDebug, setAdjustFlag_withDebug, setParityFlag_withDebug]
  rfl

theorem case_0xD4_withDebug (p : Profile) (s : State) (d : Bool) :
    case_0xD4 p (s.withDebug d) = (case_0xD4 p s).map (fun t => t.withDebug d) := by
  unfold case_0xD4
  simp only [withDebug_cpu, withDebug_cycles, getAddress_withDebug, readMemByte_withDebug,
    ipPlus1_withDebug]
  split
  · rfl
  · split_ifs <;> rfl

theorem getOperandValue_withDebug (ipRel : Nat → Option OffReg) (p : Profile) (s : State)
    (d : Bool) (mod rm : Nat) :
    getOperandValue ipRel p (s.withDebug d) mod rm
      = (getOperandValue ipRel p s mod rm).map (fun r => (r.1, r.2.withDebug d)) := by
  unfold getOperandValue
  simp only [withDebug_cpu, withDebug_bootflag, withDebug_ram, withDebug_rom,
    withDebug_pending, withDebug_pendingBeforeTrace, withDebug_interrupt_nr,
    withDebug_cyclecount, withDebug_cycles, withDebug_temp, withDebug_tubeWrites,
    withDebug_rep, withDebug_rep_pc, mk_cpu_withDebug, getAddress_withDebug,
    readMemByte_withDebug, readMemWord_withDebug, ipPlus1_withDebug]
  split_ifs
  · split <;> first | rfl | (split <;> rfl)
  · rfl
  · split <;> rfl
  · split <;> rfl
  · rfl
  · rfl

theorem case_0xF6_0xF7_withDebug (nonzero : Nat → State → Option State)
    (others : Nat → State → Option State) (hn : ∀ v, debugBlind (nonzero v))
    (ho : ∀ r, debugBlind (others r)) (ipRel : Nat → Option OffReg) (p : Profile)
    (s : State) (d : Bool) :
    case_0xF6_0xF7 nonzero others ipRel p (s.withDebug d)
      = (case_0xF6_0xF7 nonzero others ipRel p s).map (fun t => t.withDebug d) := by
  unfold case_0xF6_0xF7
  simp only [getAddress_withDebug, readMemByte_withDebug, ipPlus1_withDebug,
    getOperandValue_withDebug]
  split
  · rfl
  · split_ifs
    · cases getOperandValue ipRel p _ _ _ with
      | none => rfl
      | some r =>
        obtain ⟨v, s2⟩ := r
        simp only [Option.map_some']
        split_ifs
        · exact hn _ _ _
        · rfl
    · exact ho _ _ _

theorem restModelled_debugBlind (H : Header) (p : Profile) (op : Nat) :
    debugBlind (restModelled H p op) := by
  intro s d
  unfold restModelled
  refine ite_map_withDebug _ _ _ _ _ d ?_ ?_
  · rw [case_0x40_withDebug]; rfl
  refine ite_map_withDebug _ _ _ _ _ d (case_0xD4_withDebug p s d) ?_
  refine ite_map_withDebug _ _ _ _ _ d ?_ rfl
  exact case_0xF6_0xF7_withDebug _ _ (fun _ _ _ => rfl) (fun _ _ _ => rfl) _ p s d

theorem sameUpToDebug_eq (s t : State) (h : sameUpToDebug s t) : t = s.withDebug t.DEBUG := by
  obtain ⟨h1, h2, h3, h4, h5, h6, h7, h8, h9, h10, h11, h12, h13⟩ := h
  cases s
  cases t
  simp only [State.withDebug] at *
  subst h1 h2 h3 h4 h5 h6 h7 h8 h9 h10 h11 h12 h13
  rfl

theorem withDebug_sameUpToDebug (s : State) (d : Bool) : sameUpToDebug s (s.withDebug d) :=
  ⟨rfl, rfl, rfl, rfl, rfl, rfl, rfl, rfl, rfl, rfl, rfl, rfl, rfl⟩

theorem withDebug_self (s : State) : s.withDebug s.DEBUG = s := rfl

/-- C25: two states that differ only in `DEBUG` go through the same pass of the
loop of `Exec` alike: either neither pass has a result, or both have one and the
two results again agree on every member other than `DEBUG` (registers, flags,
memory, `BOOTFLAG`, halt latch, pending vector), each keeping its own `DEBUG`.
The cases of the `switch` that stand behind `rest` are taken not to read
`DEBUG`, as `dumpRegisters` is the only function called by `Exec` that names
it. -/
theorem debug_flag_does_not_interfere (rest : Nat → State → Option State)
    (hrest : ∀ op, debugBlind (rest op)) (H : Header) (p : Profile) (s t : State)
    (h : sameUpToDebug s t) :
    (iteration rest H p s = none ∧ iteration rest H p t = none) ∨
    (∃ s1 t1, iteration rest H p s = some s1 ∧ iteration rest H p t = some t1 ∧
      sameUpToDebug s1 t1 ∧ s1.DEBUG = s.DEBUG ∧ t1.DEBUG = t.DEBUG) := by
  have ht := sameUpToDebug_eq s t h
  have e1 := iteration_withDebug rest hrest H p s t.DEBUG
  have e2 := iteration_withDebug rest hrest H p s s.DEBUG
  rw [withDebug_self] at e2
  rw [← ht] at e1
  cases hs : iteration rest H p s with
  | none =>
    left
    rw [hs] at e1
    exact ⟨rfl, e1⟩
  | some s1 =>
    right
    rw [hs] at e1 e2
    simp only [Option.map_some'] at e1 e2
    refine ⟨s1, s1.withDebug t.DEBUG, rfl, e1, withDebug_sameUpToDebug _ _, ?_, rfl⟩
    have := congrArg State.DEBUG (Option.some.inj e2)
    exact this

theorem debug_flag_does_not_interfere_witness :
    (∀ op, debugBlind (restModelled header8086 acorn186 op)) ∧
    sameUpToDebug (stateOp 0x40) ((stateOp 0x40).withDebug true) ∧
    ((iteration (restModelled header8086 acorn186) header8086 acorn186 (stateOp 0x40) = none ∧
      iteration (restModelled header8086 acorn186) header8086 acorn186
        ((stateOp 0x40).withDebug true) = none) ∨
    (∃ s1 t1, iteration (restModelled header8086 acorn186) header8086 acorn186 (stateOp 0x40)
        = some s1 ∧
      iteration (restModelled header8086 acorn186) header8086 acorn186
        ((stateOp 0x40).withDebug true) = some t1 ∧
      sameUpToDebug s1 t1 ∧ s1.DEBUG = (stateOp 0x40).DEBUG ∧
      t1.DEBUG = ((stateOp 0x40).withDebug true).DEBUG)) :=
  ⟨restModelled_debugBlind _ _, withDebug_sameUpToDebug _ _,
   debug_flag_does_not_interfere _ (restModelled_debugBlind _ _) header8086 acorn186
     (stateOp 0x40) ((stateOp 0x40).withDebug true) (withDebug_sameUpToDebug _ _)⟩

/-- The pass of the witness above has a result: `INC AX` from `0000:0200` leaves
`AX = 1`, `ip = 0x0201`, and `dumpRegisters` has output on the state with
`DEBUG` set only. -/
theorem debug_pass_has_result :
    (iteration (restModelled header8086 acorn186) header8086 acorn186
        ((stateOp 0x40).withDebug true)).map (fun s => (s.cpu.ax, s.cpu.ip, s.DEBUG))
      = some (1, 0x0201, true) ∧
    (iteration (restModelled header8086 acorn186) header8086 acorn186
        (stateOp 0x40)).map (fun s => (s.cpu.ax, s.cpu.ip, s.DEBUG))
      = some (1, 0x0201, false) ∧
    (dumpRegisters ((stateOp 0x40).withDebug true)).isSome = true ∧
    (dumpRegisters (stateOp 0x40)).isSome = false := by
  decide

/-! ## Accumulator-immediate logical opcodes -/

theorem getFlag_assignFlag_same (s : State) (bit : Nat) (b : Bool) :
    getFlag (s.assignFlag bit b).cpu.flags bit = b := by
  unfold State.assignFlag
  exact getFlag_setFlag_same _ _ _

theorem getFlag_assignFlag_other (s : State) (bit other : Nat) (b : Bool) (hne : bit ≠ other) :
    getFlag (s.assignFlag bit b).cpu.flags other = getFlag s.cpu.flags other := by
  unfold State.assignFlag
  exact getFlag_setFlag_other _ _ _ _ hne

theorem getFlag_setSignFlag_other (H : Header) (s : State) (w : Bool) (v other : Nat)
    (hne : H.sf ≠ other) :
    getFlag (setSignFlag H s w v).cpu.flags other = getFlag s.cpu.flags other := by
  unfold setSignFlag
  split_ifs <;> exact getFlag_assignFlag_other _ _ _ _ hne

theorem getFlag_setZeroFlag_other (H : Header) (s : State) (v other : Nat)
    (hne : H.zf ≠ other) :
    getFlag (setZeroFlag H s v).cpu.flags other = getFlag s.cpu.flags other := by
  unfold setZeroFlag
  exact getFlag_assignFlag_other _ _ _ _ hne

theorem getFlag_setParityFlag_other (H : Header) (s : State) (w : Bool) (v other : Nat)
    (hne : H.pf ≠ other) :
    getFlag (setParityFlag H s w v).cpu.flags other = getFlag s.cpu.flags other := by
  unfold setParityFlag
  split_ifs <;> exact getFlag_assignFlag_other _ _ _ _ hne

theorem assignFlag_frame (s : State) (bit : Nat) (b : Bool) :
    (s.assignFlag bit b).cpu.ax = s.cpu.ax ∧ (s.assignFlag bit b).cpu.ip = s.cpu.ip ∧
    (s.assignFlag bit b).Cycles = s.Cycles := ⟨rfl, rfl, rfl⟩

theorem logicFlags_clears (H : Header) (s : State) (w : Bool) (v : Nat)
    (h1 : H.sf ≠ H.of_) (h2 : H.zf ≠ H.of_) (h3 : H.cf ≠ H.of_) (h4 : H.pf ≠ H.of_)
    (h5 : H.pf ≠ H.cf) :
    getFlag (logicFlags H s w v).cpu.flags H.of_ = false ∧
    getFlag (logicFlags H s w v).cpu.flags H.cf = false := by
  unfold logicFlags
  constructor
  · rw [getFlag_setParityFlag_other H _ _ _ _ h4, getFlag_assignFlag_other _ _ _ _ h3,
      getFlag_setZeroFlag_other H _ _ _ h2, getFlag_setSignFlag_other H _ _ _ _ h1,
      getFlag_assignFlag_same]
  · rw [getFlag_setParityFlag_other H _ _ _ _ h5, getFlag_assignFlag_same]

theorem flagHelpers_ax (H : Header) (s : State) (w : Bool) (v : Nat) (bit : Nat) (b : Bool) :
    (s.assignFlag bit b).cpu.ax = s.cpu.ax ∧ (setSignFlag H s w v).cpu.ax = s.cpu.ax ∧
    (setZeroFlag H s v).cpu.ax = s.cpu.ax ∧ (setParityFlag H s w v).cpu.ax = s.cpu.ax := by
  refine ⟨rfl, ?_, rfl, ?_⟩
  · unfold setSignFlag
    split_ifs <;> rfl
  · unfold setParityFlag
    split_ifs <;> rfl

theorem logicFlags_ax (H : Header) (s : State) (w : Bool) (v : Nat) :
    (logicFlags H s w v).cpu.ax = s.cpu.ax := by
  unfold logicFlags
  simp only
  rw [(flagHelpers_ax H _ w v 0 false).2.2.2, (flagHelpers_ax H _ w v H.cf false).1,
    (flagHelpers_ax H _ w v 0 false).2.2.1, (flagHelpers_ax H _ w v 0 false).2.1,
    (flagHelpers_ax H _ w v H.of_ false).1]

theorem accLogicByte_clears (op : Nat → Nat → Nat) (H : Header) (p : Profile) (s s' : State)
    (h1 : H.sf ≠ H.of_) (h2 : H.zf ≠ H.of_) (h3 : H.cf ≠ H.of_) (h4 : H.pf ≠ H.of_)
    (h5 : H.pf ≠ H.cf) (hs : accLogicByte op H p s = some s') :
    getFlag s'.cpu.flags H.of_ = false ∧ getFlag s'.cpu.flags H.cf = false := by
  unfold accLogicByte at hs
  simp only at hs
  split at hs
  · exact absurd hs (by simp)
  · simp only [Option.some.injEq] at hs
    rw [← hs]
    exact logicFlags_clears H _ _ _ h1 h2 h3 h4 h5

theorem accLogicWord_clears (op : Nat → Nat → Nat) (H : Header) (p : Profile) (s s' : State)
    (h1 : H.sf ≠ H.of_) (h2 : H.zf ≠ H.of_) (h3 : H.cf ≠ H.of_) (h4 : H.pf ≠ H.of_)
    (h5 : H.pf ≠ H.cf) (hs : accLogicWord op H p s = some s') :
    getFlag s'.cpu.flags H.of_ = false ∧ getFlag s'.cpu.flags H.cf = false := by
  unfold accLogicWord at hs
  simp only at hs
  split at hs
  · exact absurd hs (by simp)
  · simp only [Option.some.injEq] at hs
    rw [← hs]
    exact logicFlags_clears H _ _ _ h1 h2 h3 h4 h5

theorem case_0xA8_effect (H : Header) (p : Profile) (s s' : State)
    (h1 : H.sf ≠ H.of_) (h2 : H.zf ≠ H.of_) (h3 : H.cf ≠ H.of_) (h4 : H.pf ≠ H.of_)
    (h5 : H.pf ≠ H.cf) (hs : case_0xA8 H p s = some s') :
    (getFlag s'.cpu.flags H.of_ = false ∧ getFlag s'.cpu.flags H.cf = false) ∧
    s'.cpu.ax = s.cpu.ax := by
  unfold case_0xA8 at hs
  simp only at hs
  split at hs
  · exact absurd hs (by simp)
  · simp only [Option.some.injEq] at hs
    rw [← hs]
    refine ⟨logicFlags_clears H _ _ _ h1 h2 h3 h4 h5, ?_⟩
    show (logicFlags H _ _ _).cpu.ax = _
    rw [logicFlags_ax]
    show (readMemByte p s _).2.cpu.ax = _
    rw [(readMemByte_cpu p s _).1]

theorem case_0xA9_effect (H : Header) (p : Profile) (s s' : State)
    (h1 : H.sf ≠ H.of_) (h2 : H.zf ≠ H.of_) (h3 : H.cf ≠ H.of_) (h4 : H.pf ≠ H.of_)
    (h5 : H.pf ≠ H.cf) (hs : case_0xA9 H p s = some s') :
    (getFlag s'.cpu.flags H.of_ = false ∧ getFlag s'.cpu.flags H.cf = false) ∧
    s'.cpu.ax = s.cpu.ax := by
  unfold case_0xA9 at hs
  simp only at hs
  split at hs
  · exact absurd hs (by simp)
  · simp only [Option.some.injEq] at hs
    rw [← hs]
    refine ⟨logicFlags_clears H _ _ _ h1 h2 h3 h4 h5, ?_⟩
    show (logicFlags H _ _ _).cpu.ax = _
    rw [logicFlags_ax]
    show (readMemWord p s _).2.cpu.ax = _
    rw [(readMemWord_cpu p s _).1]


/-- C31: with the one-bit members of `cpu.flags` at distinct positions, a result
of any of the bodies of OR (`0x0C`, `0x0D`), AND (`0x24`, `0x25`), XOR (`0x34`,
`0x35`) and TEST (`0xA8`, `0xA9`) with an immediate has the overflow and the
carry member false, whatever the accumulator and the immediate; TEST leaves
`ax` as it was; and each body has a result whenever the read of its immediate
at `CS:IP` returns a value. -/
theorem logic_acc_imm_clears_overflow_carry (H : Header) (p : Profile) (s : State)
    (h1 : H.sf ≠ H.of_) (h2 : H.zf ≠ H.of_) (h3 : H.cf ≠ H.of_) (h4 : H.pf ≠ H.of_)
    (h5 : H.pf ≠ H.cf) :
    (∀ f ∈ [case_0x0C H p, case_0x0D H p, case_0x24 H p, case_0x25 H p, case_0x34 H p,
            case_0x35 H p, case_0xA8 H p, case_0xA9 H p],
      ∀ s', f s = some s' →
        getFlag s'.cpu.flags H.of_ = false ∧ getFlag s'.cpu.flags H.cf = false) ∧
    (∀ s', case_0xA8 H p s = some s' ∨ case_0xA9 H p s = some s' → s'.cpu.ax = s.cpu.ax) ∧
    ((readMemByte p s (getAddress s .CS .IP)).1.isSome = true →
      (case_0x0C H p s).isSome = true ∧ (case_0x24 H p s).isSome = true ∧
      (case_0x34 H p s).isSome = true ∧ (case_0xA8 H p s).isSome = true) ∧
    ((readMemWord p s (getAddress s .CS .IP)).1.isSome = true →
      (case_0x0D H p s).isSome = true ∧ (case_0x25 H p s).isSome = true ∧
      (case_0x35 H p s).isSome = true ∧ (case_0xA9 H p s).isSome = true) := by
  refine ⟨?_, ?_, ?_, ?_⟩
  · intro f hf s' hs
    simp only [List.mem_cons, List.mem_singleton, List.not_mem_nil, or_false] at hf
    rcases hf with rfl | rfl | rfl | rfl | rfl | rfl | rfl | rfl
    · exact accLogicByte_clears _ H p s s' h1 h2 h3 h4 h5 hs
    · exact accLogicWord_clears _ H p s s' h1 h2 h3 h4 h5 hs
    · exact accLogicByte_clears _ H p s s' h1 h2 h3 h4 h5 hs
    · exact accLogicWord_clears _ H p s s' h1 h2 h3 h4 h5 hs
    · exact accLogicByte_clears _ H p s s' h1 h2 h3 h4 h5 hs
    · exact accLogicWord_clears _ H p s s' h1 h2 h3 h4 h5 hs
    · exact (case_0xA8_effect H p s s' h1 h2 h3 h4 h5 hs).1
    · exact (case_0xA9_effect H p s s' h1 h2 h3 h4 h5 hs).1
  · intro s' hs
    rcases hs with hs | hs
    · exact (case_0xA8_effect H p s s' h1 h2 h3 h4 h5 hs).2
    · exact (case_0xA9_effect H p s s' h1 h2 h3 h4 h5 hs).2
  · intro hr
    obtain ⟨b, hb⟩ := Option.isSome_iff_exists.mp hr
    simp only [case_0x0C, case_0x24, case_0x34, case_0xA8, accLogicByte, hb, Option.isSome_some,
      and_self]
  · intro hr
    obtain ⟨b, hb⟩ := Option.isSome_iff_exists.mp hr
    simp only [case_0x0D, case_0x25, case_0x35, case_0xA9, accLogicWord, hb, Option.isSome_some,
      and_self]

/-- Witness for C31: OR AL, 0x0F with `AL = 0xF0`, entered with overflow and
carry set (flags `0x0803`). -/
theorem logic_acc_imm_clears_overflow_carry_witness :
    (∀ s', case_0x0C header8086 acorn186 ((stateImm 0xF0 0x0F 0).setFlags 0x0803) = some s' →
      getFlag s'.cpu.flags header8086.of_ = false ∧
      getFlag s'.cpu.flags header8086.cf = false) ∧
    (case_0x0C header8086 acorn186 ((stateImm 0xF0 0x0F 0).setFlags 0x0803)).isSome = true :=
  ⟨(logic_acc_imm_clears_overflow_carry header8086 acorn186
      ((stateImm 0xF0 0x0F 0).setFlags 0x0803) (by decide) (by decide) (by decide) (by decide)
      (by decide)).1 _ (List.mem_cons_self _ _),
   ((logic_acc_imm_clears_overflow_carry header8086 acorn186
      ((stateImm 0xF0 0x0F 0).setFlags 0x0803) (by decide) (by decide) (by decide) (by decide)
      (by decide)).2.2.1 (by decide)).1⟩

/-! ## CMP AL, imm -/

theorem low_byte_bit8_clear (x : Nat) (hx : x < 256) : x &&& 0x100 = 0 := by
  have h := (and_two_pow_ne_zero_iff x 8).not
  have p8 : (2 : Nat) ^ 8 = 0x100 := by norm_num
  rw [p8] at h
  have ht : x.testBit 8 = false := Nat.testBit_lt_two_pow (by rw [p8]; exact hx)
  by_contra hne
  exact absurd ((and_two_pow_ne_zero_iff x 8).mp (by rw [p8]; exact hne)) (by simp [ht])

theorem assignFlag_regs (s : State) (bit : Nat) (b : Bool) :
    (s.assignFlag bit b).cpu.ax = s.cpu.ax ∧ (s.assignFlag bit b).cpu.ip = s.cpu.ip :=
  ⟨rfl, rfl⟩

theorem flagHelpers_regs (H : Header) (s : State) (w : Bool) (r a b : Nat) :
    ((setOverflowFlag H s w r a b).cpu.ax = s.cpu.ax ∧
      (setOverflowFlag H s w r a b).cpu.ip = s.cpu.ip) ∧
    ((setSignFlag H s w r).cpu.ax = s.cpu.ax ∧ (setSignFlag H s w r).cpu.ip = s.cpu.ip) ∧
    ((setZeroFlag H s r).cpu.ax = s.cpu.ax ∧ (setZeroFlag H s r).cpu.ip = s.cpu.ip) ∧
    ((setAdjustFlag H s r a b).cpu.ax = s.cpu.ax ∧
      (setAdjustFlag H s r a b).cpu.ip = s.cpu.ip) ∧
    ((setCarryFlag H s w r).cpu.ax = s.cpu.ax ∧ (setCarryFlag H s w r).cpu.ip = s.cpu.ip) ∧
    ((setParityFlag H s w r).cpu.ax = s.cpu.ax ∧
      (setParityFlag H s w r).cpu.ip = s.cpu.ip) := by
  refine ⟨?_, ?_, ?_, ?_, ?_, ?_⟩
  · unfold setOverflowFlag
    split_ifs <;> exact assignFlag_regs _ _ _
  · unfold setSignFlag
    split_ifs <;> exact assignFlag_regs _ _ _
  · unfold setZeroFlag
    exact assignFlag_regs _ _ _
  · unfold setAdjustFlag
    exact assignFlag_regs _ _ _
  · unfold setCarryFlag
    split_ifs <;> exact assignFlag_regs _ _ _
  · unfold setParityFlag
    split_ifs <;> exact assignFlag_regs _ _ _

theorem byteArithFlags_frame (H : Header) (s : State) (result temp disp : Nat) :
    (byteArithFlags H s result temp disp).cpu.ax = s.cpu.ax ∧
    (byteArithFlags H s result temp disp).cpu.ip = s.cpu.ip := by
  unfold byteArithFlags
  simp only
  have h := fun t => flagHelpers_regs H t false result temp disp
  constructor
  · rw [(h _).2.2.2.2.2.1, (h _).2.2.2.2.1.1, (h _).2.2.2.1.1, (h _).2.2.1.1, (h _).2.1.1,
      (h _).1.1]
  · rw [(h _).2.2.2.2.2.2, (h _).2.2.2.2.1.2, (h _).2.2.2.1.2, (h _).2.2.1.2, (h _).2.1.2,
      (h _).1.2]

theorem byteArithFlags_overflow (H : Header) (s : State) (result temp disp : Nat)
    (hne : H.pf ≠ H.of_) :
    getFlag (byteArithFlags H s result temp disp).cpu.flags H.of_
      = (if result &&& 0x100 ≠ 0 then true else false) := by
  unfold byteArithFlags
  simp only
  rw [getFlag_setParityFlag_other H _ _ _ _ hne]
  unfold setCarryFlag
  simp only [Bool.false_eq_true, if_false]
  exact getFlag_assignFlag_same _ _ _


/-- C32, counterexample: CMP AL, 0x01 with `AL = 0x00` entered with flags
`0x0002` leaves the overflow member set, and CMP AL, 0x03 with `AL = 0x05`
entered with the carry member set (flags `0x0003`) leaves the carry member
set; `AL` is unchanged in both. -/
theorem cmp_al_imm_leaves_flags_set :
    (case_0x3C header8086 acorn186 (stateImm 0x00 0x01 0)).map
      (fun s => (s.cpu.al, getFlag s.cpu.flags header8086.of_)) = some (0x00, true) ∧
    (case_0x3C header8086 acorn186 ((stateImm 0x05 0x03 0).setFlags 0x0003)).map
      (fun s => (s.cpu.al, getFlag s.cpu.flags header8086.cf)) = some (0x05, true) := by
  decide

/-- C32, amended: CMP AL, imm8 does not force overflow and carry to false; it
passes `AL - imm` to the flag helpers. With the parity and overflow members at
distinct positions, when the read of the immediate returns a value, `imm` is
not above `AL` (no borrow) and `AL` and `imm` have the same sign bit (no
signed overflow), the body has a result whose overflow member is false, with
`ax` unchanged and `ip` advanced by 1. -/
theorem cmp_al_imm_without_borrow (H : Header) (p : Profile) (s : State) (imm : Nat)
    (hne : H.pf ≠ H.of_)
    (hr : (readMemByte p s (getAddress s .CS .IP)).1 = some imm)
    (hge : imm ≤ s.cpu.al) (_hsign : s.cpu.al.testBit 7 = imm.testBit 7) :
    ∃ s', case_0x3C H p s = some s' ∧
      getFlag s'.cpu.flags H.of_ = false ∧
      s'.cpu.ax = s.cpu.ax ∧ s'.cpu.ip = (s.cpu.ip + 1) % 65536 := by
  have hc := (readMemByte_cpu p s (getAddress s .CS .IP)).1
  have hal : s.cpu.al < 256 := Nat.mod_lt _ (by decide)
  unfold case_0x3C
  simp only [hr]
  refine ⟨_, rfl, ?_, ?_, ?_⟩
  · show getFlag (byteArithFlags H _ _ _ _).cpu.flags H.of_ = false
    rw [byteArithFlags_overflow H _ _ _ _ hne]
    have hal1 : (readMemByte p s (getAddress s .CS .IP)).2.ipPlus1.cpu.al = s.cpu.al := by
      show ((readMemByte p s _).2.cpu.ax) % 256 = _
      rw [hc]; rfl
    rw [hal1]
    have hres : (s.cpu.al + 4294967296 - imm) % 4294967296 = s.cpu.al - imm := by omega
    rw [hres, low_byte_bit8_clear _ (by omega)]
    simp
  · show (byteArithFlags H _ _ _ _).cpu.ax = _
    rw [(byteArithFlags_frame H _ _ _ _).1]
    show (readMemByte p s _).2.cpu.ax = _
    rw [hc]
  · show (byteArithFlags H _ _ _ _).cpu.ip = _
    rw [(byteArithFlags_frame H _ _ _ _).2]
    show ((readMemByte p s _).2.cpu.ip + 1) % 65536 = _
    rw [hc]

/-- Witness for C32: CMP AL, 0x03 with `AL = 0x05`. -/
theorem cmp_al_imm_without_borrow_witness :
    ∃ s', case_0x3C header8086 acorn186 (stateImm 0x05 0x03 0) = some s' ∧
      getFlag s'.cpu.flags header8086.of_ = false ∧
      s'.cpu.ax = (stateImm 0x05 0x03 0).cpu.ax ∧
      s'.cpu.ip = ((stateImm 0x05 0x03 0).cpu.ip + 1) % 65536 :=
  cmp_al_imm_without_borrow header8086 acorn186 (stateImm 0x05 0x03 0) 0x03 (by decide)
    (by decide) (by decide) (by decide)

/-! ## DAA, INTO and the condition codes -/

/-- C33, evaluated on the code: for `a = 0x99`, `b = 0x66`, carry-in 0 the sum is
`0xFF` with carry and auxiliary carry clear, and the body of DAA leaves
`AL = 0x05` with carry clear, where `99 + 66 = 165` asks for `AL = 0x65` with
carry set: `AL += 6` wraps to `0x05`, and the test `AL > 0x9F` reads `AL` after
that adjustment. Where the first adjustment does not wrap the result is the
packed-BCD sum: `0x19 + 0x28` (sum `0x41`, auxiliary carry set) gives `0x47`,
and `0x99 + 0x99` (sum `0x32`, both carries set) gives `0x98` with carry set. -/
theorem daa_loses_carry_of_first_adjustment :
    ((0x99 + 0x66) % 256, decide ((0x99 &&& 0xF) + (0x66 &&& 0xF) > 15),
      decide (0x99 + 0x66 > 255)) = (0xFF, false, false) ∧
    ((case_0x27 header8086 (stateAx 0x00FF 0)).cpu.al,
      getFlag (case_0x27 header8086 (stateAx 0x00FF 0)).cpu.flags header8086.cf,
      getFlag (case_0x27 header8086 (stateAx 0x00FF 0)).cpu.flags header8086.af)
      = (0x05, false, true) ∧
    ((case_0x27 header8086 ((stateAx 0x0041 0).setFlags 0x0012)).cpu.al,
      getFlag (case_0x27 header8086 ((stateAx 0x0041 0).setFlags 0x0012)).cpu.flags
        header8086.cf) = (0x47, false) ∧
    ((case_0x27 header8086 ((stateAx 0x0032 0).setFlags 0x0013)).cpu.al,
      getFlag (case_0x27 header8086 ((stateAx 0x0032 0).setFlags 0x0013)).cpu.flags
        header8086.cf) = (0x98, true) := by
  decide

/-- C34, evaluated on the code: the condition of the `if` in the body of INTO is
the assignment `cpu.flags.of = true`, so for every state the body sets the
overflow member, makes vector 4 pending and adds 35 cycles; in particular from
`state0`, where the overflow member is clear and no vector is pending. -/
theorem into_always_raises (H : Header) (s : State) :
    (case_0xCE H s).pendingInterrupt = 4 ∧
    getFlag (case_0xCE H s).cpu.flags H.of_ = true ∧
    (case_0xCE H s).Cycles = s.Cycles + 35 ∧
    (getFlag state0.cpu.flags header8086.of_ = false ∧ state0.pendingInterrupt = -1 ∧
      (case_0xCE header8086 state0).pendingInterrupt = 4 ∧
      getFlag (case_0xCE header8086 state0).cpu.flags header8086.of_ = true) := by
  have h : getFlag (s.assignFlag H.of_ true).cpu.flags H.of_ = true := by
    unfold State.assignFlag
    exact getFlag_setFlag_same _ _ _
  refine ⟨?_, ?_, ?_, by decide⟩
  · unfold case_0xCE
    simp only [h, if_true]
  · unfold case_0xCE
    simp only [h, if_true]
  · unfold case_0xCE
    simp only [h, if_true]
    rfl

/-- C35, evaluated on the code: codes `0x0C` and `0x0D` are `sf != of` and
`sf == of`, but codes `0x0E` and `0x0F` compare `zf`, not `sf`, with `of`.
With `zf` clear, `sf` set, `of` clear (flags `0x0080`) code `0x0E` is false and
code `0x0F` is true; with `zf` clear, `sf` set, `of` set (flags `0x0880`) code
`0x0E` is true and code `0x0F` is false. The documented meaning gives the
opposite value in all four. -/
theorem signed_condition_codes_read_zf (H : Header) (s : State) :
    (evaluateConditionCode H s 0x0C = true ↔
      getFlag s.cpu.flags H.sf ≠ getFlag s.cpu.flags H.of_) ∧
    (evaluateConditionCode H s 0x0D = true ↔
      getFlag s.cpu.flags H.sf = getFlag s.cpu.flags H.of_) ∧
    (evaluateConditionCode H s 0x0E = true ↔
      (getFlag s.cpu.flags H.zf = true ∨
        getFlag s.cpu.flags H.zf ≠ getFlag s.cpu.flags H.of_)) ∧
    (evaluateConditionCode H s 0x0F = true ↔
      (getFlag s.cpu.flags H.zf = false ∧
        getFlag s.cpu.flags H.zf = getFlag s.cpu.flags H.of_)) ∧
    ((getFlag 0x0080 header8086.zf, getFlag 0x0080 header8086.sf, getFlag 0x0080 header8086.of_)
        = (false, true, false) ∧
      evaluateConditionCode header8086 (state0.setFlags 0x0080) 0x0E = false ∧
      evaluateConditionCode header8086 (state0.setFlags 0x0080) 0x0F = true) ∧
    ((getFlag 0x0880 header8086.zf, getFlag 0x0880 header8086.sf, getFlag 0x0880 header8086.of_)
        = (false, true, true) ∧
      evaluateConditionCode header8086 (state0.setFlags 0x0880) 0x0E = true ∧
      evaluateConditionCode header8086 (state0.setFlags 0x0880) 0x0F = false) := by
  refine ⟨?_, ?_, ?_, ?_, by decide, by decide⟩
  · unfold evaluateConditionCode
    simp
  · unfold evaluateConditionCode
    simp
  · unfold evaluateConditionCode
    simp
  · unfold evaluateConditionCode
    simp

/-! ## PUSH imm8 and the string opcodes -/

/-- C38, evaluated on the code: on the 80186 profile, from `sp = 0x0100`,
`ip = 0x0200` and the bytes `0x80`, `0x12` at `CS:IP`, the body of PUSH imm8
(opcode `0x6A`, for which `s` is set) leaves `sp = 0x00FF`, `ip = 0x0201` and
the single byte `0x80` at `0xFF`, with the byte at `0xFE` untouched; the claim
asks for `sp = 0x00FE` and the word `0xFF80` there. PUSH imm16 (opcode `0x68`)
and PUSH AX lower `sp` by 2 and store a word. -/
theorem push_imm8_moves_sp_by_one :
    pushView (statePush 0x6A) = (0x0100, 0x0200, 0, 0) ∧
    sBit (statePush 0x6A) = true ∧
    (case_0x68_0x6A acorn186 (statePush 0x6A)).map pushView = some (0x00FF, 0x0201, 0, 0x80) ∧
    (case_0x68_0x6A acorn186 (statePush 0x68)).map pushView
      = some (0x00FE, 0x0202, 0x12, 0x80) ∧
    pushView (case_0x50 acorn186 (statePush 0x50)) = (0x00FE, 0x0200, 0xBE, 0xEF) := by
  decide

/-- C39, evaluated on the code: from `si = 0x0020`, `di = 0x0010`, with the
direction member clear (flags `0x0002`) INSB leaves `di = 0x000F` and INSW
`di = 0x000E`, and with it set (flags `0x0402`) INSB leaves `di = 0x0011` and
INSW `di = 0x0012`: the `if` of the INS branch decrements when
`cpu.flags.df == false`. STOSB, STOSW, MOVSB and MOVSW step the other way:
up by the element size with the member clear, down with it set. -/
theorem ins_steps_against_direction_flag :
    getFlag 0x0002 header8086.df = false ∧ getFlag 0x0402 header8086.df = true ∧
    (case_0x6C_0x6D (insSupported tube55 header8086 acorn186) acorn186
        (stateString 0x6C 0x0002)).map indexView = some (0x0020, 0x000F) ∧
    (case_0x6C_0x6D (insSupported tube55 header8086 acorn186) acorn186
        (stateString 0x6C 0x0402)).map indexView = some (0x0020, 0x0011) ∧
    (case_0x6C_0x6D (insSupported tube55 header8086 acorn186) acorn186
        (stateString 0x6D 0x0002)).map indexView = some (0x0020, 0x000E) ∧
    (case_0x6C_0x6D (insSupported tube55 header8086 acorn186) acorn186
        (stateString 0x6D 0x0402)).map indexView = some (0x0020, 0x0012) ∧
    indexView (case_0xAA header8086 acorn186 (stateString 0xAA 0x0002)) = (0x0020, 0x0011) ∧
    indexView (case_0xAA header8086 acorn186 (stateString 0xAA 0x0402)) = (0x0020, 0x000F) ∧
    indexView (case_0xAB header8086 acorn186 (stateString 0xAB 0x0002)) = (0x0020, 0x0012) ∧
    indexView (case_0xAB header8086 acorn186 (stateString 0xAB 0x0402)) = (0x0020, 0x000E) ∧
    (case_0xA4 header8086 acorn186 (stateString 0xA4 0x0002)).map indexView
      = some (0x0021, 0x0011) ∧
    (case_0xA4 header8086 acorn186 (stateString 0xA4 0x0402)).map indexView
      = some (0x001F, 0x000F) ∧
    (case_0xA5 header8086 acorn186 (stateString 0xA5 0x0002)).map indexView
      = some (0x0022, 0x0012) ∧
    (case_0xA5 header8086 acorn186 (stateString 0xA5 0x0402)).map indexView
      = some (0x001E, 0x000E) := by
  decide

/-! ## The maskable line and the halt latch -/

theorem arbitrate_intr_only (s : State) (hi : s.cpu.intr = true) (hn : s.cpu.nmi = false) :
    arbitrate s = { s with pendingInterrupt := s.interrupt_nr } := by
  unfold arbitrate
  simp [hi, hn]

theorem arbitrate_setFlags (s : State) (fl : Nat) :
    arbitrate (s.setFlags fl) = (arbitrate s).setFlags fl := by
  unfold arbitrate State.setFlags
  simp only
  split_ifs <;> rfl

theorem iteration_of_transfer (rest : Nat → State → Option State) (H : Header) (p : Profile)
    (s s1 : State) (h : interruptTransfer H p (arbitrate s) = some s1) :
    iteration rest H p s
      = (if s1.cpu.halt = false ∧ s1.cyclecount > 0 then dispatch rest H p s1 else some s1) := by
  unfold iteration
  rw [h]


/-- C36: with the maskable line asserted, the non-maskable line clear and a
vector number `v` of at most 255 supplied in `interrupt_nr`, the arbitration
makes `v` pending, and the transfer of that pass loads `cs:ip` from entry `v`
of the vector table and clears the pending vector, provided the two reads of
the entry return values. The interrupt-enable member is nowhere a condition:
the statement holds for every flags word, and the arbitration commutes with
any assignment to `cpu.flags`. The rest of the pass is the guarded dispatch
from the state the transfer left. -/
theorem intr_serviced_whatever_if (rest : Nat → State → Option State) (H : Header)
    (p : Profile) (s : State) (v ipv csv : Nat)
    (hi : s.cpu.intr = true) (hn : s.cpu.nmi = false)
    (hnr : s.interrupt_nr = (v : Int)) (hv : v ≤ 255)
    (hip : (readMemWord p (pushFrame p (arbitrate s)) (4 * v)).1 = some ipv)
    (hcs : (readMemWord p (readMemWord p (pushFrame p (arbitrate s)) (4 * v)).2
      (4 * v + 2)).1 = some csv) :
    (arbitrate s).pendingInterrupt = (v : Int) ∧
    (∀ fl, arbitrate (s.setFlags fl) = (arbitrate s).setFlags fl) ∧
    ∃ s1, interruptTransfer H p (arbitrate s) = some s1 ∧
      s1.cpu.ip = ipv ∧ s1.cpu.cs = csv ∧ s1.pendingInterrupt = -1 ∧
      getFlag s1.cpu.flags H.if_ = false ∧
      iteration rest H p s
        = (if s1.cpu.halt = false ∧ s1.cyclecount > 0 then dispatch rest H p s1
           else some s1) := by
  have hp : (arbitrate s).pendingInterrupt = (v : Int) := by
    rw [arbitrate_intr_only s hi hn]
    exact hnr
  refine ⟨hp, arbitrate_setFlags s, ?_⟩
  obtain ⟨s1, h1, h2, _, h4, h5, h6⟩ :=
    interruptTransfer_of_pending H p (arbitrate s) v ipv csv hv hp hip hcs
  exact ⟨s1, h1, h4, h5, h6, h2, iteration_of_transfer rest H p s s1 h1⟩

/-- Witness for C36: the line asserted with vector `0x40`, once with the
interrupt-enable member set (flags `0x0202`) and once with it clear (flags
`0x0002`); both passes transfer to `9ABC:5678`. -/
theorem intr_serviced_whatever_if_witness :
    (getFlag (stateIntr 0x0202).cpu.flags header8086.if_ = true ∧
      ∃ s1, interruptTransfer header8086 acorn186 (arbitrate (stateIntr 0x0202)) = some s1 ∧
        s1.cpu.ip = 0x5678 ∧ s1.cpu.cs = 0x9ABC ∧ s1.pendingInterrupt = -1 ∧
        getFlag s1.cpu.flags header8086.if_ = false ∧
        iteration (fun _ _ => none) header8086 acorn186 (stateIntr 0x0202)
          = (if s1.cpu.halt = false ∧ s1.cyclecount > 0 then
              dispatch (fun _ _ => none) header8086 acorn186 s1
             else some s1)) ∧
    (getFlag (stateIntr 0x0002).cpu.flags header8086.if_ = false ∧
      ∃ s1, interruptTransfer header8086 acorn186 (arbitrate (stateIntr 0x0002)) = some s1 ∧
        s1.cpu.ip = 0x5678 ∧ s1.cpu.cs = 0x9ABC ∧ s1.pendingInterrupt = -1 ∧
        getFlag s1.cpu.flags header8086.if_ = false ∧
        iteration (fun _ _ => none) header8086 acorn186 (stateIntr 0x0002)
          = (if s1.cpu.halt = false ∧ s1.cyclecount > 0 then
              dispatch (fun _ _ => none) header8086 acorn186 s1
             else some s1)) :=
  ⟨⟨by decide,
    (intr_serviced_whatever_if (fun _ _ => none) header8086 acorn186 (stateIntr 0x0202)
      0x40 0x5678 0x9ABC rfl rfl rfl (by decide) (by decide) (by decide)).2.2⟩,
   ⟨by decide,
    (intr_serviced_whatever_if (fun _ _ => none) header8086 acorn186 (stateIntr 0x0002)
      0x40 0x5678 0x9ABC rfl rfl rfl (by decide) (by decide) (by decide)).2.2⟩⟩


theorem Reset_acorn186 (firmware : Option (Nat → Fin 256)) (s : State) :
    (Reset acorn186 firmware s).cpu.cs = 0xFFFF ∧ (Reset acorn186 firmware s).cpu.ip = 0 ∧
    (Reset acorn186 firmware s).BOOTFLAG = true ∧
    (Reset acorn186 firmware s).cpu.halt = false ∧
    (Reset acorn186 firmware s).cyclecount = 1000000 ∧
    (Reset acorn186 firmware s).pendingInterrupt = -1 ∧
    (Reset acorn186 firmware s).cpu.intr = s.cpu.intr ∧
    (Reset acorn186 firmware s).cpu.nmi = s.cpu.nmi :=
  ⟨rfl, rfl, rfl, rfl, rfl, rfl, rfl, rfl⟩

theorem readMemByte_boot_top (t : State) (hb : t.BOOTFLAG = true) :
    readMemByte acorn186 t 0xFFFF0
      = (some (t.romMemory 0x3FF0).val, { t with BOOTFLAG := false }) := by
  have hm : masked acorn186 0xFFFF0 ≥ masked acorn186 acorn186.ROM_ADDR := by decide
  have hi : (0xFFFF0 : Nat) &&& sizeMinusOne acorn186.ROM_SIZE = 0x3FF0 := by decide
  unfold readMemByte
  simp only [hb, if_true, hm, hi]

theorem getAddress_cs_ip (u : State) :
    getAddress u .CS .IP = ((u.cpu.cs % 65536) <<< 4) + u.cpu.ip % 65536 := rfl

theorem pcPlus1_frame (H : Header) (u : State) :
    (State.pcPlus1 H u).cpu.instruction_reg = u.cpu.instruction_reg ∧
    (State.pcPlus1 H u).BOOTFLAG = u.BOOTFLAG := by
  unfold State.pcPlus1 State.ipPlus1
  split_ifs <;> exact ⟨rfl, rfl⟩

theorem fetch_boot_top (H : Header) (t : State) (hb : t.BOOTFLAG = true)
    (hcs : t.cpu.cs = 0xFFFF) (hip : t.cpu.ip = 0) :
    ∃ s1, fetch H acorn186 t = some s1 ∧
      s1.cpu.instruction_reg = (t.romMemory 0x3FF0).val ∧ s1.BOOTFLAG = false := by
  have hnum : ((0xFFFF % 65536) <<< 4) + 0 % 65536 = 0xFFFF0 := by decide
  have key : ∀ u : State, u.BOOTFLAG = true → u.cpu = t.cpu → u.romMemory = t.romMemory →
      ∃ s1, (match (readMemByte acorn186 u (getAddress u .CS .IP)).1 with
        | none => none
        | some b =>
          some (State.pcPlus1 H
            { (readMemByte acorn186 u (getAddress u .CS .IP)).2 with
              cpu := { (readMemByte acorn186 u (getAddress u .CS .IP)).2.cpu with
                       instruction_reg := b } })) = some s1 ∧
        s1.cpu.instruction_reg = (t.romMemory 0x3FF0).val ∧ s1.BOOTFLAG = false := by
    intro u hu hc hrom
    have ha : getAddress u .CS .IP = 0xFFFF0 := by
      rw [getAddress_cs_ip, hc, hcs, hip]
      exact hnum
    rw [ha, readMemByte_boot_top u hu]
    refine ⟨_, rfl, ?_, ?_⟩
    · rw [(pcPlus1_frame H _).1, ← hrom]
    · rw [(pcPlus1_frame H _).2]
  unfold fetch
  by_cases hr : t.rep = true
  · rw [if_pos hr]
    exact key _ hb rfl rfl
  · rw [if_neg hr]
    exact key _ hb rfl rfl


/-- C40: on the `ACORN_186` profile, whatever the state before `Reset` and
whatever the firmware file, `cs:ip` after `Reset` is the linear address
`0xFFFF0`; the read there returns the ROM byte at index `0x3FF0`; the opcode
fetch has a result whose instruction register holds that byte and whose
`BOOTFLAG` is clear, and `BOOTFLAG` stays clear through any later sequence of
accesses; with both lines deasserted the first pass after `Reset` is that
dispatch; with `BOOTFLAG` clear every read of an address whose masked value is
below `0xE0000` returns the RAM byte at `address & 0x7FFFF` and leaves the
state as it is; and on the `ACORN_286` profile `cs:ip` after `Reset` is
`0xFFFF0` as well. -/
theorem first_fetch_after_reset (rest : Nat → State → Option State) (H : Header)
    (firmware : Option (Nat → Fin 256)) (s : State) :
    getAddress (Reset acorn186 firmware s) .CS .IP = 0xFFFF0 ∧
    (readMemByte acorn186 (Reset acorn186 firmware s) 0xFFFF0).1
      = some ((Reset acorn186 firmware s).romMemory 0x3FF0).val ∧
    (∃ s1, fetch H acorn186 (Reset acorn186 firmware s) = some s1 ∧
      s1.cpu.instruction_reg = ((Reset acorn186 firmware s).romMemory 0x3FF0).val ∧
      s1.BOOTFLAG = false ∧
      (∀ l : List Access, (runAccesses acorn186 s1 l).BOOTFLAG = false)) ∧
    (s.cpu.intr = false → s.cpu.nmi = false →
      iteration rest H acorn186 (Reset acorn186 firmware s)
        = dispatch rest H acorn186 (Reset acorn186 firmware s)) ∧
    (∀ (t : State) (a : Nat), t.BOOTFLAG = false → masked acorn186 a < 0xE0000 →
      readMemByte acorn186 t a = (some (t.ramMemory (a &&& 0x7FFFF)).val, t)) ∧
    getAddress (Reset (ix86 .ACORN_286) firmware s) .CS .IP = 0xFFFF0 := by
  have hR := Reset_acorn186 firmware s
  refine ⟨?_, ?_, ?_, ?_, ?_, ?_⟩
  · unfold getAddress
    simp only [hR.1, hR.2.1]
    decide
  · rw [readMemByte_boot_top _ hR.2.2.1]
  · obtain ⟨s1, h1, h2, h3⟩ := fetch_boot_top H _ hR.2.2.1 hR.1 hR.2.1
    exact ⟨s1, h1, h2, h3, fun l => runAccesses_bootflag_clear acorn186 l s1 h3⟩
  · intro hi hn
    have hi1 : (Reset acorn186 firmware s).cpu.intr = false := hR.2.2.2.2.2.2.1.trans hi
    have hn1 : (Reset acorn186 firmware s).cpu.nmi = false := hR.2.2.2.2.2.2.2.trans hn
    unfold iteration
    rw [arbitrate_idle _ hi1 hn1, interruptTransfer_idle H acorn186 _ hR.2.2.2.2.2.1]
    simp only [hR.2.2.2.1, hR.2.2.2.2.1]
    simp
  · intro t a hb ha
    have hm : masked acorn186 acorn186.TUBE_ULA_ADDR = 0xE0000 := by decide
    have hsz : sizeMinusOne acorn186.RAM_SIZE = 0x7FFFF := by decide
    unfold readMemByte
    simp only [hb, Bool.false_eq_true, if_false, hm, ha, if_true, hsz]
  · have h2 : (Reset (ix86 .ACORN_286) firmware s).cpu.cs = 0xF000 ∧
        (Reset (ix86 .ACORN_286) firmware s).cpu.ip = 0xFFF0 := ⟨rfl, rfl⟩
    unfold getAddress
    simp only [h2.1, h2.2]
    decide

/-- Witness for C40: the read of `0xDFFFF` in `state0`, and the first pass
after `Reset` of `state0`, which has no line asserted. -/
theorem first_fetch_after_reset_witness :
    readMemByte acorn186 state0 0xDFFFF
      = (some (state0.ramMemory (0xDFFFF &&& 0x7FFFF)).val, state0) ∧
    iteration (fun _ _ => none) header8086 acorn186 (Reset acorn186 none state0)
      = dispatch (fun _ _ => none) header8086 acorn186 (Reset acorn186 none state0) :=
  ⟨(first_fetch_after_reset (fun _ _ => none) header8086 none state0).2.2.2.2.1 state0 0xDFFFF
      rfl (by decide),
   (first_fetch_after_reset (fun _ _ => none) header8086 none state0).2.2.2.1 rfl rfl⟩

end Beebem
